import Mathlib

/-!
Verification of the event-classification core of the `ruma-events` excerpt.

The unions and their (de)serializers are translated from
`src/collections/all.rs` and `src/collections/only.rs`; the concrete
`m.room.member` and `m.typing` event types from `src/room/member.rs` and
`src/typing.rs`, and the stripped state types from `src/stripped.rs`.

The excerpt does not contain the crate root (`lib.rs`): the `EventType`
registry, the `event!` / `room_event!` / `state_event!` envelope macros, the
`Invalid*` / `Custom*` fallback types and the remaining per-kind payload
types are modelled from the specification, as marked on each definition.
JSON documents are modelled structurally (an already-parsed tree), matching
the deserializers' use of `serde_json::Value`.
-/

/-- A structurally parsed JSON document, mirroring `serde_json::Value`.
Objects are association lists; `get` returns the first binding of a key. -/
inductive Value where
  | null
  | bool (b : Bool)
  | num (n : Int)
  | str (s : String)
  | arr (xs : List Value)
  | obj (fields : List (String × Value))
deriving Repr

/-- Field lookup on a document, mirroring `serde_json::Value::get`: `none`
on any non-object and on a missing key. -/
def Value.get : Value → String → Option Value
  | .obj fields, key => fields.lookup key
  | _, _ => none

/-- Whether a JSON value is the null literal. -/
def Value.isNull : Value → Bool
  | .null => true
  | _ => false

/-- A deserialization error as produced through `serde::de::Error`: either
the dedicated missing-field error used for the `type` discriminator
(`D::Error::missing_field`) or a custom message (`D::Error::custom`). -/
inductive DeError where
  | missingField (field : String)
  | custom (msg : String)
deriving Repr, DecidableEq

/-- Required-field access as `serde` performs it on a struct field: an
error naming the field when it is absent. -/
def getField (v : Value) (key : String) : Except String Value :=
  match v.get key with
  | some x => .ok x
  | none => .error ("missing field " ++ key)

/-- Decoding a JSON value as a plain string, as `serde` does for `String`
fields and for the opaque identifier types (`EventId`, `RoomId`, `UserId`),
whose own validation is an external collaborator outside the core. -/
def decodeString : Value → Except String String
  | .str s => .ok s
  | _ => .error "invalid type: expected a string"

/-- Decoding a JSON value as a boolean. -/
def decodeBool : Value → Except String Bool
  | .bool b => .ok b
  | _ => .error "invalid type: expected a boolean"

/-- Decoding a JSON array element-wise, failing on the first bad element. -/
def decodeList (d : Value → Except String α) : List Value → Except String (List α)
  | [] => .ok []
  | x :: xs =>
    match d x with
    | .error e => .error e
    | .ok y =>
      match decodeList d xs with
      | .error e => .error e
      | .ok ys => .ok (y :: ys)

/-- An optional struct field with a typed payload, with `serde`'s `Option`
semantics: an absent field and an explicit `null` are both `none`, and a
present non-null field must decode. -/
def getOptField (d : Value → Except String α) (v : Value) (key : String) :
    Except String (Option α) :=
  match v.get key with
  | none => .ok none
  | some x =>
    if x.isNull then .ok none
    else
      match d x with
      | .ok y => .ok (some y)
      | .error e => .error e

/-- An optional struct field whose payload the core treats as an opaque
document (a `prev_content` of an out-of-excerpt content type): kept
verbatim when present. -/
def getOptValue (v : Value) (key : String) : Option Value :=
  v.get key

/-- Modelled from the spec: the event-kind registry (`EventType` in the
crate root, outside the excerpt) — "a closed set of string constants (one
per specification-defined event type) plus an open `Custom(string)` case
holding any other tag verbatim". The closed set is exactly the set of tags
dispatched on in `src/collections/all.rs`. -/
inductive EventType where
  | callAnswer
  | callCandidates
  | callHangup
  | callInvite
  | presence
  | receipt
  | roomAliases
  | roomAvatar
  | roomCanonicalAlias
  | roomCreate
  | roomGuestAccess
  | roomHistoryVisibility
  | roomJoinRules
  | roomMember
  | roomMessage
  | roomName
  | roomPowerLevels
  | roomRedaction
  | roomThirdPartyInvite
  | roomTopic
  | tag
  | typing
  | custom (s : String)
deriving Repr, DecidableEq

/-- Modelled from the spec: total conversion from a tag string to an event
kind; "unknown tags never error at this stage", they become `custom`. -/
def eventTypeFromString (s : String) : EventType :=
  if s = "m.call.answer" then .callAnswer
  else if s = "m.call.candidates" then .callCandidates
  else if s = "m.call.hangup" then .callHangup
  else if s = "m.call.invite" then .callInvite
  else if s = "m.presence" then .presence
  else if s = "m.receipt" then .receipt
  else if s = "m.room.aliases" then .roomAliases
  else if s = "m.room.avatar" then .roomAvatar
  else if s = "m.room.canonical_alias" then .roomCanonicalAlias
  else if s = "m.room.create" then .roomCreate
  else if s = "m.room.guest_access" then .roomGuestAccess
  else if s = "m.room.history_visibility" then .roomHistoryVisibility
  else if s = "m.room.join_rules" then .roomJoinRules
  else if s = "m.room.member" then .roomMember
  else if s = "m.room.message" then .roomMessage
  else if s = "m.room.name" then .roomName
  else if s = "m.room.power_levels" then .roomPowerLevels
  else if s = "m.room.redaction" then .roomRedaction
  else if s = "m.room.third_party_invite" then .roomThirdPartyInvite
  else if s = "m.room.topic" then .roomTopic
  else if s = "m.tag" then .tag
  else if s = "m.typing" then .typing
  else .custom s

/-- Modelled from the spec: the tag string an event kind serializes to. -/
def EventType.toTagString : EventType → String
  | .callAnswer => "m.call.answer"
  | .callCandidates => "m.call.candidates"
  | .callHangup => "m.call.hangup"
  | .callInvite => "m.call.invite"
  | .presence => "m.presence"
  | .receipt => "m.receipt"
  | .roomAliases => "m.room.aliases"
  | .roomAvatar => "m.room.avatar"
  | .roomCanonicalAlias => "m.room.canonical_alias"
  | .roomCreate => "m.room.create"
  | .roomGuestAccess => "m.room.guest_access"
  | .roomHistoryVisibility => "m.room.history_visibility"
  | .roomJoinRules => "m.room.join_rules"
  | .roomMember => "m.room.member"
  | .roomMessage => "m.room.message"
  | .roomName => "m.room.name"
  | .roomPowerLevels => "m.room.power_levels"
  | .roomRedaction => "m.room.redaction"
  | .roomThirdPartyInvite => "m.room.third_party_invite"
  | .roomTopic => "m.room.topic"
  | .tag => "m.tag"
  | .typing => "m.typing"
  | .custom s => s

/-- Whether a tag is outside the closed registry. -/
def EventType.isCustom : EventType → Bool
  | .custom _ => true
  | _ => false

/-- Modelled from the spec: `EventType`'s deserialization from a JSON
value. It visits a string and converts it totally; any non-string value is
a type error (the tag "decode it into an event-kind tag" step operates on
the `type` *string* field of the document). -/
def eventTypeDecode : Value → Except String EventType
  | .str s => .ok (eventTypeFromString s)
  | _ => .error "invalid type: expected an event type string"

/-- Modelled from the spec: the basic-level envelope generated by the
`event!` macro (outside the excerpt) — "Basic: `{type}` + content"; the
payload of the basic kinds whose content types are outside the excerpt is
kept opaque. Also the shape of `CustomEvent`. -/
structure BasicShell where
  content : Value
  event_type : EventType
deriving Repr

/-- Modelled from the spec: deserialization of a basic-level envelope with
an opaque payload: required `content` and `type` fields. -/
def decodeBasicShell (v : Value) : Except String BasicShell := do
  let c ← getField v "content"
  let tv ← getField v "type"
  let et ← eventTypeDecode tv
  pure { content := c, event_type := et }

/-- Modelled from the spec: serialization of a basic-level envelope. -/
def serializeBasicShell (e : BasicShell) : Value :=
  .obj [("content", e.content), ("type", .str e.event_type.toTagString)]

/-- Modelled from the spec: the room-level envelope generated by the
`room_event!` macro — "Room-level: Basic + `{event_id, room_id, sender}`"
(the optional extras are explicitly out of core scope). Also the shape of
`CustomRoomEvent`. -/
structure RoomShell where
  content : Value
  event_type : EventType
  event_id : String
  room_id : String
  sender : String
deriving Repr

/-- Modelled from the spec: deserialization of a room-level envelope with
an opaque payload. -/
def decodeRoomShell (v : Value) : Except String RoomShell := do
  let c ← getField v "content"
  let tv ← getField v "type"
  let et ← eventTypeDecode tv
  let ev ← getField v "event_id"
  let event_id ← decodeString ev
  let rv ← getField v "room_id"
  let room_id ← decodeString rv
  let sv ← getField v "sender"
  let sender ← decodeString sv
  pure { content := c, event_type := et, event_id := event_id,
         room_id := room_id, sender := sender }

/-- Modelled from the spec: serialization of a room-level envelope. -/
def serializeRoomShell (e : RoomShell) : Value :=
  .obj [("content", e.content), ("type", .str e.event_type.toTagString),
        ("event_id", .str e.event_id), ("room_id", .str e.room_id),
        ("sender", .str e.sender)]

/-- Modelled from the spec: the state-level envelope generated by the
`state_event!` macro — "State-level: Room-level + `{state_key,
prev_content?}`". Also the shape of `CustomStateEvent`. -/
structure StateShell where
  content : Value
  event_type : EventType
  event_id : String
  prev_content : Option Value
  room_id : String
  sender : String
  state_key : String
deriving Repr

/-- Modelled from the spec: deserialization of a state-level envelope with
an opaque payload; `prev_content` is optional and kept verbatim. -/
def decodeStateShell (v : Value) : Except String StateShell := do
  let r ← decodeRoomShell v
  let kv ← getField v "state_key"
  let state_key ← decodeString kv
  pure { content := r.content, event_type := r.event_type,
         event_id := r.event_id, prev_content := getOptValue v "prev_content",
         room_id := r.room_id, sender := r.sender, state_key := state_key }

/-- Modelled from the spec: serialization of a state-level envelope;
`prev_content` is skipped when absent. -/
def serializeStateShell (e : StateShell) : Value :=
  .obj ([("content", e.content), ("type", .str e.event_type.toTagString),
         ("event_id", .str e.event_id), ("room_id", .str e.room_id),
         ("sender", .str e.sender), ("state_key", .str e.state_key)] ++
        (match e.prev_content with
         | some p => [("prev_content", p)]
         | none => []))

/-- The membership state of a user, from `src/room/member.rs`. -/
inductive MembershipState where
  | ban
  | invite
  | join
  | knock
  | leave
deriving Repr, DecidableEq

/-- Deserialization of `MembershipState` (serde rename strings). -/
def decodeMembership : Value → Except String MembershipState
  | .str "ban" => .ok .ban
  | .str "invite" => .ok .invite
  | .str "join" => .ok .join
  | .str "knock" => .ok .knock
  | .str "leave" => .ok .leave
  | _ => .error "unknown variant for membership state"

/-- Serialization of `MembershipState`. -/
def MembershipState.toValue : MembershipState → Value
  | .ban => .str "ban"
  | .invite => .str "invite"
  | .join => .str "join"
  | .knock => .str "knock"
  | .leave => .str "leave"

/-- A signed block from a third party invitation, from
`src/room/member.rs`; the `Signatures` payload is an opaque external
collaborator and is kept verbatim. -/
structure SignedContent where
  mxid : String
  signatures : Value
  token : String
deriving Repr

/-- Deserialization of `SignedContent`. -/
def decodeSignedContent (v : Value) : Except String SignedContent := do
  let mv ← getField v "mxid"
  let mxid ← decodeString mv
  let sigs ← getField v "signatures"
  let tv ← getField v "token"
  let token ← decodeString tv
  pure { mxid := mxid, signatures := sigs, token := token }

/-- Serialization of `SignedContent`. -/
def serializeSignedContent (s : SignedContent) : Value :=
  .obj [("mxid", .str s.mxid), ("signatures", s.signatures), ("token", .str s.token)]

/-- Information about a third party invitation, from `src/room/member.rs`. -/
structure ThirdPartyInvite where
  display_name : String
  signed : SignedContent
deriving Repr

/-- Deserialization of `ThirdPartyInvite`. -/
def decodeThirdPartyInvite (v : Value) : Except String ThirdPartyInvite := do
  let dv ← getField v "display_name"
  let display_name ← decodeString dv
  let sv ← getField v "signed"
  let signed ← decodeSignedContent sv
  pure { display_name := display_name, signed := signed }

/-- Serialization of `ThirdPartyInvite`. -/
def serializeThirdPartyInvite (t : ThirdPartyInvite) : Value :=
  .obj [("display_name", .str t.display_name), ("signed", serializeSignedContent t.signed)]

/-- The payload of a `MemberEvent`, from `src/room/member.rs`: required
`membership`, four optional fields skipped on serialization when absent. -/
structure MemberEventContent where
  avatar_url : Option String
  displayname : Option String
  is_direct : Option Bool
  membership : MembershipState
  third_party_invite : Option ThirdPartyInvite
deriving Repr

/-- Deserialization of `MemberEventContent`. -/
def decodeMemberEventContent (v : Value) : Except String MemberEventContent := do
  let avatar_url ← getOptField decodeString v "avatar_url"
  let displayname ← getOptField decodeString v "displayname"
  let is_direct ← getOptField decodeBool v "is_direct"
  let mv ← getField v "membership"
  let membership ← decodeMembership mv
  let third_party_invite ← getOptField decodeThirdPartyInvite v "third_party_invite"
  pure { avatar_url := avatar_url, displayname := displayname,
         is_direct := is_direct, membership := membership,
         third_party_invite := third_party_invite }

/-- Serialization of `MemberEventContent`; optional fields are skipped when
absent (`skip_serializing_if = "Option::is_none"` in the source). -/
def serializeMemberEventContent (c : MemberEventContent) : Value :=
  .obj ((match c.avatar_url with
         | some a => [("avatar_url", Value.str a)]
         | none => []) ++
        (match c.displayname with
         | some d => [("displayname", Value.str d)]
         | none => []) ++
        (match c.is_direct with
         | some b => [("is_direct", Value.bool b)]
         | none => []) ++
        [("membership", c.membership.toValue)] ++
        (match c.third_party_invite with
         | some t => [("third_party_invite", serializeThirdPartyInvite t)]
         | none => []))

/-- The content shape of a stripped state event, from `src/stripped.rs`;
the four concrete content types it is instantiated with are outside the
excerpt, so the payload is kept opaque. -/
structure StrippedStateContent where
  content : Value
  event_type : EventType
  state_key : String
deriving Repr

/-- Deserialization of `StrippedStateContent` (the `event_type` field is
renamed to `type` in the source). -/
def decodeStrippedStateContent (v : Value) : Except String StrippedStateContent := do
  let c ← getField v "content"
  let tv ← getField v "type"
  let et ← eventTypeDecode tv
  let kv ← getField v "state_key"
  let state_key ← decodeString kv
  pure { content := c, event_type := et, state_key := state_key }

/-- Serialization of `StrippedStateContent`. -/
def serializeStrippedStateContent (s : StrippedStateContent) : Value :=
  .obj [("content", s.content), ("type", .str s.event_type.toTagString),
        ("state_key", .str s.state_key)]

/-- A stripped-down version of a state event, from `src/stripped.rs`. -/
inductive StrippedState where
  | roomAvatar (s : StrippedStateContent)
  | roomCanonicalAlias (s : StrippedStateContent)
  | roomJoinRules (s : StrippedStateContent)
  | roomName (s : StrippedStateContent)
deriving Repr

/-- Deserialization of `StrippedState`: the serde derive on the enum uses
the externally tagged representation, an object with exactly one key naming
the variant. -/
def decodeStrippedState (v : Value) : Except String StrippedState :=
  match v with
  | .obj [(k, p)] =>
    if k = "RoomAvatar" then
      match decodeStrippedStateContent p with
      | .error e => .error e
      | .ok s => .ok (.roomAvatar s)
    else if k = "RoomCanonicalAlias" then
      match decodeStrippedStateContent p with
      | .error e => .error e
      | .ok s => .ok (.roomCanonicalAlias s)
    else if k = "RoomJoinRules" then
      match decodeStrippedStateContent p with
      | .error e => .error e
      | .ok s => .ok (.roomJoinRules s)
    else if k = "RoomName" then
      match decodeStrippedStateContent p with
      | .error e => .error e
      | .ok s => .ok (.roomName s)
    else .error "unknown variant for stripped state"
  | _ => .error "invalid type: expected an externally tagged enum"

/-- Serialization of `StrippedState`. -/
def serializeStrippedState : StrippedState → Value
  | .roomAvatar s => .obj [("RoomAvatar", serializeStrippedStateContent s)]
  | .roomCanonicalAlias s => .obj [("RoomCanonicalAlias", serializeStrippedStateContent s)]
  | .roomJoinRules s => .obj [("RoomJoinRules", serializeStrippedStateContent s)]
  | .roomName s => .obj [("RoomName", serializeStrippedStateContent s)]

/-- Deserialization of a list of stripped states. -/
def decodeStrippedStateList : Value → Except String (List StrippedState)
  | .arr xs => decodeList decodeStrippedState xs
  | _ => .error "invalid type: expected an array"

/-- The `m.room.member` event, from `src/room/member.rs`: the state-level
envelope generated by `state_event!` around `MemberEventContent`, plus the
extra optional `invite_room_state` field. -/
structure MemberEvent where
  content : MemberEventContent
  event_type : EventType
  event_id : String
  invite_room_state : Option (List StrippedState)
  prev_content : Option MemberEventContent
  room_id : String
  sender : String
  state_key : String
deriving Repr

/-- Deserialization of `MemberEvent`. -/
def decodeMemberEvent (v : Value) : Except String MemberEvent := do
  let cv ← getField v "content"
  let content ← decodeMemberEventContent cv
  let tv ← getField v "type"
  let et ← eventTypeDecode tv
  let ev ← getField v "event_id"
  let event_id ← decodeString ev
  let invite_room_state ← getOptField decodeStrippedStateList v "invite_room_state"
  let prev_content ← getOptField decodeMemberEventContent v "prev_content"
  let rv ← getField v "room_id"
  let room_id ← decodeString rv
  let sv ← getField v "sender"
  let sender ← decodeString sv
  let kv ← getField v "state_key"
  let state_key ← decodeString kv
  pure { content := content, event_type := et, event_id := event_id,
         invite_room_state := invite_room_state, prev_content := prev_content,
         room_id := room_id, sender := sender, state_key := state_key }

/-- Serialization of `MemberEvent`; the optional `invite_room_state` and
`prev_content` are skipped when absent. -/
def serializeMemberEvent (m : MemberEvent) : Value :=
  .obj ([("content", serializeMemberEventContent m.content),
         ("type", .str m.event_type.toTagString),
         ("event_id", .str m.event_id)] ++
        (match m.invite_room_state with
         | some l => [("invite_room_state", Value.arr (l.map serializeStrippedState))]
         | none => []) ++
        (match m.prev_content with
         | some p => [("prev_content", serializeMemberEventContent p)]
         | none => []) ++
        [("room_id", .str m.room_id), ("sender", .str m.sender),
         ("state_key", .str m.state_key)])

/-- The payload of a `TypingEvent`, from `src/typing.rs`. -/
structure TypingEventContent where
  user_ids : List String
deriving Repr, DecidableEq

/-- Deserialization of a JSON array of strings (the `user_ids` payload). -/
def decodeStringList : Value → Except String (List String)
  | .arr xs => decodeList decodeString xs
  | _ => .error "invalid type: expected an array"

/-- Deserialization of `TypingEventContent`. -/
def decodeTypingEventContent (v : Value) : Except String TypingEventContent := do
  let uv ← getField v "user_ids"
  let user_ids ← decodeStringList uv
  pure { user_ids := user_ids }

/-- Serialization of `TypingEventContent`. -/
def serializeTypingEventContent (c : TypingEventContent) : Value :=
  .obj [("user_ids", .arr (c.user_ids.map Value.str))]

/-- The `m.typing` event, from `src/typing.rs`: the basic-level envelope
generated by `event!` around `TypingEventContent`, plus the extra optional
`room_id` field. -/
structure TypingEvent where
  content : TypingEventContent
  event_type : EventType
  room_id : Option String
deriving Repr, DecidableEq

/-- Deserialization of `TypingEvent`. -/
def decodeTypingEvent (v : Value) : Except String TypingEvent := do
  let cv ← getField v "content"
  let content ← decodeTypingEventContent cv
  let tv ← getField v "type"
  let et ← eventTypeDecode tv
  let room_id ← getOptField decodeString v "room_id"
  pure { content := content, event_type := et, room_id := room_id }

/-- Serialization of `TypingEvent`; `room_id` is skipped when absent. -/
def serializeTypingEvent (t : TypingEvent) : Value :=
  .obj ([("content", serializeTypingEventContent t.content),
         ("type", .str t.event_type.toTagString)] ++
        (match t.room_id with
         | some r => [("room_id", Value.str r)]
         | none => []))

/-- Modelled from the spec: the basic-level Invalid fallback (`InvalidEvent`
in the crate root, outside the excerpt) — "preserves the original raw
document ... plus a human-readable `error` string set exactly once via a
constructor (`with_error`), after the first decode attempt failed". -/
structure InvalidEvent where
  content : Value
  event_type : EventType
  error : String
deriving Repr

/-- Modelled from the spec: the error string is not part of the document;
deserialization extracts the basic envelope and leaves the error empty
until `with_error` sets it. -/
def decodeInvalidEvent (v : Value) : Except String InvalidEvent :=
  match decodeBasicShell v with
  | .error e => .error e
  | .ok b => .ok { content := b.content, event_type := b.event_type, error := "" }

/-- Attaches the recovered decode failure's message, from the
deserializers' `event.with_error(error)` call sites. -/
def InvalidEvent.with_error (e : InvalidEvent) (error : String) : InvalidEvent :=
  { e with error := error }

/-- Modelled from the spec: an Invalid fallback "serializes back to the raw
document (error string is not re-emitted)". -/
def serializeInvalidEvent (e : InvalidEvent) : Value :=
  serializeBasicShell { content := e.content, event_type := e.event_type }

/-- Modelled from the spec: the room-level Invalid fallback
(`InvalidRoomEvent`, outside the excerpt). -/
structure InvalidRoomEvent where
  content : Value
  event_type : EventType
  event_id : String
  room_id : String
  sender : String
  error : String
deriving Repr

/-- Modelled from the spec: deserialization of the room-level Invalid
fallback extracts the room envelope; the error starts empty. -/
def decodeInvalidRoomEvent (v : Value) : Except String InvalidRoomEvent :=
  match decodeRoomShell v with
  | .error e => .error e
  | .ok r =>
    .ok { content := r.content, event_type := r.event_type, event_id := r.event_id,
          room_id := r.room_id, sender := r.sender, error := "" }

/-- Attaches the recovered decode failure's message. -/
def InvalidRoomEvent.with_error (e : InvalidRoomEvent) (error : String) : InvalidRoomEvent :=
  { e with error := error }

/-- Modelled from the spec: serialization of the room-level Invalid
fallback; the error string is not re-emitted. -/
def serializeInvalidRoomEvent (e : InvalidRoomEvent) : Value :=
  serializeRoomShell { content := e.content, event_type := e.event_type,
                       event_id := e.event_id, room_id := e.room_id, sender := e.sender }

/-- Modelled from the spec: the state-level Invalid fallback
(`InvalidStateEvent`, outside the excerpt). -/
structure InvalidStateEvent where
  content : Value
  event_type : EventType
  event_id : String
  prev_content : Option Value
  room_id : String
  sender : String
  state_key : String
  error : String
deriving Repr

/-- Modelled from the spec: deserialization of the state-level Invalid
fallback extracts the state envelope; the error starts empty. -/
def decodeInvalidStateEvent (v : Value) : Except String InvalidStateEvent :=
  match decodeStateShell v with
  | .error e => .error e
  | .ok s =>
    .ok { content := s.content, event_type := s.event_type, event_id := s.event_id,
          prev_content := s.prev_content, room_id := s.room_id, sender := s.sender,
          state_key := s.state_key, error := "" }

/-- Attaches the recovered decode failure's message. -/
def InvalidStateEvent.with_error (e : InvalidStateEvent) (error : String) : InvalidStateEvent :=
  { e with error := error }

/-- Modelled from the spec: serialization of the state-level Invalid
fallback; the error string is not re-emitted. -/
def serializeInvalidStateEvent (e : InvalidStateEvent) : Value :=
  serializeStateShell { content := e.content, event_type := e.event_type,
                        event_id := e.event_id, prev_content := e.prev_content,
                        room_id := e.room_id, sender := e.sender,
                        state_key := e.state_key }

/-- The type-tag resolution step shared verbatim by every union
deserializer (`src/collections/all.rs` lines 239-247 and its copies):
read field `type`, fail with the missing-field error if absent, then
decode the tag value, converting a tag decode failure to a custom error. -/
def resolveType (v : Value) : Except DeError EventType :=
  match v.get "type" with
  | none => .error (.missingField "type")
  | some tv =>
    match eventTypeDecode tv with
    | .ok et => .ok et
    | .error e => .error (.custom e)

/-- Modelled from the spec: the remaining per-kind event types are treated
as black boxes by the core; each commits to exactly one taxonomy level, so
each is its level's envelope around an opaque payload. Room-level kinds. -/
abbrev AnswerEvent := RoomShell

/-- Modelled from the spec: room-level kind with opaque payload. -/
abbrev CandidatesEvent := RoomShell

/-- Modelled from the spec: room-level kind with opaque payload. -/
abbrev HangupEvent := RoomShell

/-- Modelled from the spec: room-level kind with opaque payload. -/
abbrev InviteEvent := RoomShell

/-- Modelled from the spec: room-level kind with opaque payload. -/
abbrev MessageEvent := RoomShell

/-- Modelled from the spec: room-level kind with opaque payload. -/
abbrev RedactionEvent := RoomShell

/-- Modelled from the spec: basic-level kind with opaque payload. -/
abbrev PresenceEvent := BasicShell

/-- Modelled from the spec: basic-level kind with opaque payload. -/
abbrev ReceiptEvent := BasicShell

/-- Modelled from the spec: basic-level kind with opaque payload. -/
abbrev TagEvent := BasicShell

/-- Modelled from the spec: state-level kind with opaque payload. -/
abbrev AliasesEvent := StateShell

/-- Modelled from the spec: state-level kind with opaque payload. -/
abbrev AvatarEvent := StateShell

/-- Modelled from the spec: state-level kind with opaque payload. -/
abbrev CanonicalAliasEvent := StateShell

/-- Modelled from the spec: state-level kind with opaque payload. -/
abbrev CreateEvent := StateShell

/-- Modelled from the spec: state-level kind with opaque payload. -/
abbrev GuestAccessEvent := StateShell

/-- Modelled from the spec: state-level kind with opaque payload. -/
abbrev HistoryVisibilityEvent := StateShell

/-- Modelled from the spec: state-level kind with opaque payload. -/
abbrev JoinRulesEvent := StateShell

/-- Modelled from the spec: state-level kind with opaque payload. -/
abbrev NameEvent := StateShell

/-- Modelled from the spec: state-level kind with opaque payload. -/
abbrev PowerLevelsEvent := StateShell

/-- Modelled from the spec: state-level kind with opaque payload. -/
abbrev ThirdPartyInviteEvent := StateShell

/-- Modelled from the spec: state-level kind with opaque payload. -/
abbrev TopicEvent := StateShell

/-- Modelled from the spec: `CustomEvent` (crate root) is the basic
envelope around a verbatim `Value` payload. -/
abbrev CustomEvent := BasicShell

/-- Modelled from the spec: `CustomRoomEvent` is the room envelope around a
verbatim `Value` payload. -/
abbrev CustomRoomEvent := RoomShell

/-- Modelled from the spec: `CustomStateEvent` is the state envelope around
a verbatim `Value` payload. -/
abbrev CustomStateEvent := StateShell

namespace all

/-- A basic event, room event, or state event, from
`src/collections/all.rs`. -/
inductive Event where
  | CallAnswer (e : AnswerEvent)
  | CallCandidates (e : CandidatesEvent)
  | CallHangup (e : HangupEvent)
  | CallInvite (e : InviteEvent)
  | Presence (e : PresenceEvent)
  | Receipt (e : ReceiptEvent)
  | RoomAliases (e : AliasesEvent)
  | RoomAvatar (e : AvatarEvent)
  | RoomCanonicalAlias (e : CanonicalAliasEvent)
  | RoomCreate (e : CreateEvent)
  | RoomGuestAccess (e : GuestAccessEvent)
  | RoomHistoryVisibility (e : HistoryVisibilityEvent)
  | RoomJoinRules (e : JoinRulesEvent)
  | RoomMember (e : MemberEvent)
  | RoomMessage (e : MessageEvent)
  | RoomName (e : NameEvent)
  | RoomPowerLevels (e : PowerLevelsEvent)
  | RoomRedaction (e : RedactionEvent)
  | RoomThirdPartyInvite (e : ThirdPartyInviteEvent)
  | RoomTopic (e : TopicEvent)
  | Tag (e : TagEvent)
  | Typing (e : TypingEvent)
  | Invalid (e : InvalidEvent)
  | Custom (e : CustomEvent)
  | InvalidRoom (e : InvalidRoomEvent)
  | CustomRoom (e : CustomRoomEvent)
  | InvalidState (e : InvalidStateEvent)
  | CustomState (e : CustomStateEvent)
deriving Repr

/-- A room event or state event, from `src/collections/all.rs`. -/
inductive RoomEvent where
  | CallAnswer (e : AnswerEvent)
  | CallCandidates (e : CandidatesEvent)
  | CallHangup (e : HangupEvent)
  | CallInvite (e : InviteEvent)
  | RoomAliases (e : AliasesEvent)
  | RoomAvatar (e : AvatarEvent)
  | RoomCanonicalAlias (e : CanonicalAliasEvent)
  | RoomCreate (e : CreateEvent)
  | RoomGuestAccess (e : GuestAccessEvent)
  | RoomHistoryVisibility (e : HistoryVisibilityEvent)
  | RoomJoinRules (e : JoinRulesEvent)
  | RoomMember (e : MemberEvent)
  | RoomMessage (e : MessageEvent)
  | RoomName (e : NameEvent)
  | RoomPowerLevels (e : PowerLevelsEvent)
  | RoomRedaction (e : RedactionEvent)
  | RoomThirdPartyInvite (e : ThirdPartyInviteEvent)
  | RoomTopic (e : TopicEvent)
  | InvalidRoom (e : InvalidRoomEvent)
  | CustomRoom (e : CustomRoomEvent)
  | InvalidState (e : InvalidStateEvent)
  | CustomState (e : CustomStateEvent)
deriving Repr

/-- A state event, from `src/collections/all.rs`. -/
inductive StateEvent where
  | RoomAliases (e : AliasesEvent)
  | RoomAvatar (e : AvatarEvent)
  | RoomCanonicalAlias (e : CanonicalAliasEvent)
  | RoomCreate (e : CreateEvent)
  | RoomGuestAccess (e : GuestAccessEvent)
  | RoomHistoryVisibility (e : HistoryVisibilityEvent)
  | RoomJoinRules (e : JoinRulesEvent)
  | RoomMember (e : MemberEvent)
  | RoomName (e : NameEvent)
  | RoomPowerLevels (e : PowerLevelsEvent)
  | RoomThirdPartyInvite (e : ThirdPartyInviteEvent)
  | RoomTopic (e : TopicEvent)
  | InvalidState (e : InvalidStateEvent)
  | CustomState (e : CustomStateEvent)
deriving Repr

/-- The `invalid_event` closure of `Event::deserialize`: re-decode the
document as the basic Invalid fallback carrying the original error, and
surface the second failure directly if that also fails. -/
def Event.invalidEvent (value : Value) (error : String) : Except DeError Event :=
  match decodeInvalidEvent value with
  | .ok event => .ok (.Invalid (event.with_error error))
  | .error e => .error (.custom e)

/-- The `invalid_room_event` closure of `Event::deserialize`. -/
def Event.invalidRoomEvent (value : Value) (error : String) : Except DeError Event :=
  match decodeInvalidRoomEvent value with
  | .ok event => .ok (.InvalidRoom (event.with_error error))
  | .error e => .error (.custom e)

/-- The `invalid_state_event` closure of `Event::deserialize`. -/
def Event.invalidStateEvent (value : Value) (error : String) : Except DeError Event :=
  match decodeInvalidStateEvent value with
  | .ok event => .ok (.InvalidState (event.with_error error))
  | .error e => .error (.custom e)

/-- The dispatch-on-tag body of `Event::deserialize`
(`src/collections/all.rs` lines 249-401): each registered tag attempts its
concrete per-kind decode and falls back to the Invalid representation of
the kind's taxonomy level; the custom case routes structurally, checking
`state_key` before `event_id`/`room_id`/`sender`. -/
def Event.dispatch (event_type : EventType) (value : Value) : Except DeError Event :=
  match event_type with
  | .callAnswer =>
    match decodeRoomShell value with
    | .ok event => .ok (.CallAnswer event)
    | .error e => Event.invalidRoomEvent value e
  | .callCandidates =>
    match decodeRoomShell value with
    | .ok event => .ok (.CallCandidates event)
    | .error e => Event.invalidRoomEvent value e
  | .callHangup =>
    match decodeRoomShell value with
    | .ok event => .ok (.CallHangup event)
    | .error e => Event.invalidRoomEvent value e
  | .callInvite =>
    match decodeRoomShell value with
    | .ok event => .ok (.CallInvite event)
    | .error e => Event.invalidRoomEvent value e
  | .presence =>
    match decodeBasicShell value with
    | .ok event => .ok (.Presence event)
    | .error e => Event.invalidEvent value e
  | .receipt =>
    match decodeBasicShell value with
    | .ok event => .ok (.Receipt event)
    | .error e => Event.invalidEvent value e
  | .roomAliases =>
    match decodeStateShell value with
    | .ok event => .ok (.RoomAliases event)
    | .error e => Event.invalidStateEvent value e
  | .roomAvatar =>
    match decodeStateShell value with
    | .ok event => .ok (.RoomAvatar event)
    | .error e => Event.invalidStateEvent value e
  | .roomCanonicalAlias =>
    match decodeStateShell value with
    | .ok event => .ok (.RoomCanonicalAlias event)
    | .error e => Event.invalidStateEvent value e
  | .roomCreate =>
    match decodeStateShell value with
    | .ok event => .ok (.RoomCreate event)
    | .error e => Event.invalidStateEvent value e
  | .roomGuestAccess =>
    match decodeStateShell value with
    | .ok event => .ok (.RoomGuestAccess event)
    | .error e => Event.invalidStateEvent value e
  | .roomHistoryVisibility =>
    match decodeStateShell value with
    | .ok event => .ok (.RoomHistoryVisibility event)
    | .error e => Event.invalidStateEvent value e
  | .roomJoinRules =>
    match decodeStateShell value with
    | .ok event => .ok (.RoomJoinRules event)
    | .error e => Event.invalidStateEvent value e
  | .roomMember =>
    match decodeMemberEvent value with
    | .ok event => .ok (.RoomMember event)
    | .error e => Event.invalidStateEvent value e
  | .roomMessage =>
    match decodeRoomShell value with
    | .ok event => .ok (.RoomMessage event)
    | .error e => Event.invalidRoomEvent value e
  | .roomName =>
    match decodeStateShell value with
    | .ok event => .ok (.RoomName event)
    | .error e => Event.invalidStateEvent value e
  | .roomPowerLevels =>
    match decodeStateShell value with
    | .ok event => .ok (.RoomPowerLevels event)
    | .error e => Event.invalidStateEvent value e
  | .roomRedaction =>
    match decodeRoomShell value with
    | .ok event => .ok (.RoomRedaction event)
    | .error e => Event.invalidRoomEvent value e
  | .roomThirdPartyInvite =>
    match decodeStateShell value with
    | .ok event => .ok (.RoomThirdPartyInvite event)
    | .error e => Event.invalidStateEvent value e
  | .roomTopic =>
    match decodeStateShell value with
    | .ok event => .ok (.RoomTopic event)
    | .error e => Event.invalidStateEvent value e
  | .tag =>
    match decodeBasicShell value with
    | .ok event => .ok (.Tag event)
    | .error e => Event.invalidEvent value e
  | .typing =>
    match decodeTypingEvent value with
    | .ok event => .ok (.Typing event)
    | .error e => Event.invalidEvent value e
  | .custom _ =>
    if (value.get "state_key").isSome then
      match decodeStateShell value with
      | .ok event => .ok (.CustomState event)
      | .error e => .error (.custom e)
    else if (value.get "event_id").isSome && (value.get "room_id").isSome &&
        (value.get "sender").isSome then
      match decodeRoomShell value with
      | .ok event => .ok (.CustomRoom event)
      | .error e => .error (.custom e)
    else
      match decodeBasicShell value with
      | .ok event => .ok (.Custom event)
      | .error e => .error (.custom e)

/-- `Event::deserialize` from `src/collections/all.rs`: resolve the type
tag, propagating its failure, then dispatch on it. -/
def Event.deserialize (value : Value) : Except DeError Event :=
  match resolveType value with
  | .error e => .error e
  | .ok event_type => Event.dispatch event_type value

/-- `Event`'s `Serialize` impl: pure delegation to the active variant. -/
def Event.serialize : Event → Value
  | .CallAnswer e => serializeRoomShell e
  | .CallCandidates e => serializeRoomShell e
  | .CallHangup e => serializeRoomShell e
  | .CallInvite e => serializeRoomShell e
  | .Presence e => serializeBasicShell e
  | .Receipt e => serializeBasicShell e
  | .RoomAliases e => serializeStateShell e
  | .RoomAvatar e => serializeStateShell e
  | .RoomCanonicalAlias e => serializeStateShell e
  | .RoomCreate e => serializeStateShell e
  | .RoomGuestAccess e => serializeStateShell e
  | .RoomHistoryVisibility e => serializeStateShell e
  | .RoomJoinRules e => serializeStateShell e
  | .RoomMember e => serializeMemberEvent e
  | .RoomMessage e => serializeRoomShell e
  | .RoomName e => serializeStateShell e
  | .RoomPowerLevels e => serializeStateShell e
  | .RoomRedaction e => serializeRoomShell e
  | .RoomThirdPartyInvite e => serializeStateShell e
  | .RoomTopic e => serializeStateShell e
  | .Tag e => serializeBasicShell e
  | .Typing e => serializeTypingEvent e
  | .Invalid e => serializeInvalidEvent e
  | .Custom e => serializeBasicShell e
  | .InvalidRoom e => serializeInvalidRoomEvent e
  | .CustomRoom e => serializeRoomShell e
  | .InvalidState e => serializeInvalidStateEvent e
  | .CustomState e => serializeStateShell e

end all

namespace all

/-- The `invalid_room_event` closure of `RoomEvent::deserialize`. -/
def RoomEvent.invalidRoomEvent (value : Value) (error : String) : Except DeError RoomEvent :=
  match decodeInvalidRoomEvent value with
  | .ok event => .ok (.InvalidRoom (event.with_error error))
  | .error e => .error (.custom e)

/-- The `invalid_state_event` closure of `RoomEvent::deserialize`. -/
def RoomEvent.invalidStateEvent (value : Value) (error : String) : Except DeError RoomEvent :=
  match decodeInvalidStateEvent value with
  | .ok event => .ok (.InvalidState (event.with_error error))
  | .error e => .error (.custom e)

/-- The dispatch-on-tag body of `RoomEvent::deserialize`
(`src/collections/all.rs` lines 462-587): as for `Event`, except that the
basic-only tags fail with the "not a room event" error, and the custom case
skips the room-shape check (any custom document without `state_key` is
attempted as `CustomRoomEvent` directly). -/
def RoomEvent.dispatch (event_type : EventType) (value : Value) : Except DeError RoomEvent :=
  match event_type with
  | .callAnswer =>
    match decodeRoomShell value with
    | .ok event => .ok (.CallAnswer event)
    | .error e => RoomEvent.invalidRoomEvent value e
  | .callCandidates =>
    match decodeRoomShell value with
    | .ok event => .ok (.CallCandidates event)
    | .error e => RoomEvent.invalidRoomEvent value e
  | .callHangup =>
    match decodeRoomShell value with
    | .ok event => .ok (.CallHangup event)
    | .error e => RoomEvent.invalidRoomEvent value e
  | .callInvite =>
    match decodeRoomShell value with
    | .ok event => .ok (.CallInvite event)
    | .error e => RoomEvent.invalidRoomEvent value e
  | .roomAliases =>
    match decodeStateShell value with
    | .ok event => .ok (.RoomAliases event)
    | .error e => RoomEvent.invalidStateEvent value e
  | .roomAvatar =>
    match decodeStateShell value with
    | .ok event => .ok (.RoomAvatar event)
    | .error e => RoomEvent.invalidStateEvent value e
  | .roomCanonicalAlias =>
    match decodeStateShell value with
    | .ok event => .ok (.RoomCanonicalAlias event)
    | .error e => RoomEvent.invalidStateEvent value e
  | .roomCreate =>
    match decodeStateShell value with
    | .ok event => .ok (.RoomCreate event)
    | .error e => RoomEvent.invalidStateEvent value e
  | .roomGuestAccess =>
    match decodeStateShell value with
    | .ok event => .ok (.RoomGuestAccess event)
    | .error e => RoomEvent.invalidStateEvent value e
  | .roomHistoryVisibility =>
    match decodeStateShell value with
    | .ok event => .ok (.RoomHistoryVisibility event)
    | .error e => RoomEvent.invalidStateEvent value e
  | .roomJoinRules =>
    match decodeStateShell value with
    | .ok event => .ok (.RoomJoinRules event)
    | .error e => RoomEvent.invalidStateEvent value e
  | .roomMember =>
    match decodeMemberEvent value with
    | .ok event => .ok (.RoomMember event)
    | .error e => RoomEvent.invalidStateEvent value e
  | .roomMessage =>
    match decodeRoomShell value with
    | .ok event => .ok (.RoomMessage event)
    | .error e => RoomEvent.invalidRoomEvent value e
  | .roomName =>
    match decodeStateShell value with
    | .ok event => .ok (.RoomName event)
    | .error e => RoomEvent.invalidStateEvent value e
  | .roomPowerLevels =>
    match decodeStateShell value with
    | .ok event => .ok (.RoomPowerLevels event)
    | .error e => RoomEvent.invalidStateEvent value e
  | .roomRedaction =>
    match decodeRoomShell value with
    | .ok event => .ok (.RoomRedaction event)
    | .error e => RoomEvent.invalidRoomEvent value e
  | .roomThirdPartyInvite =>
    match decodeStateShell value with
    | .ok event => .ok (.RoomThirdPartyInvite event)
    | .error e => RoomEvent.invalidStateEvent value e
  | .roomTopic =>
    match decodeStateShell value with
    | .ok event => .ok (.RoomTopic event)
    | .error e => RoomEvent.invalidStateEvent value e
  | .custom _ =>
    if (value.get "state_key").isSome then
      match decodeStateShell value with
      | .ok event => .ok (.CustomState event)
      | .error e => .error (.custom e)
    else
      match decodeRoomShell value with
      | .ok event => .ok (.CustomRoom event)
      | .error e => .error (.custom e)
  | .presence | .receipt | .tag | .typing =>
    .error (.custom "not a room event")

/-- `RoomEvent::deserialize` from `src/collections/all.rs`. -/
def RoomEvent.deserialize (value : Value) : Except DeError RoomEvent :=
  match resolveType value with
  | .error e => .error e
  | .ok event_type => RoomEvent.dispatch event_type value

/-- `RoomEvent`'s `Serialize` impl: pure delegation to the active variant. -/
def RoomEvent.serialize : RoomEvent → Value
  | .CallAnswer e => serializeRoomShell e
  | .CallCandidates e => serializeRoomShell e
  | .CallHangup e => serializeRoomShell e
  | .CallInvite e => serializeRoomShell e
  | .RoomAliases e => serializeStateShell e
  | .RoomAvatar e => serializeStateShell e
  | .RoomCanonicalAlias e => serializeStateShell e
  | .RoomCreate e => serializeStateShell e
  | .RoomGuestAccess e => serializeStateShell e
  | .RoomHistoryVisibility e => serializeStateShell e
  | .RoomJoinRules e => serializeStateShell e
  | .RoomMember e => serializeMemberEvent e
  | .RoomMessage e => serializeRoomShell e
  | .RoomName e => serializeStateShell e
  | .RoomPowerLevels e => serializeStateShell e
  | .RoomRedaction e => serializeRoomShell e
  | .RoomThirdPartyInvite e => serializeStateShell e
  | .RoomTopic e => serializeStateShell e
  | .InvalidRoom e => serializeInvalidRoomEvent e
  | .CustomRoom e => serializeRoomShell e
  | .InvalidState e => serializeInvalidStateEvent e
  | .CustomState e => serializeStateShell e

/-- The `invalid_state_event` closure of `StateEvent::deserialize`. -/
def StateEvent.invalidStateEvent (value : Value) (error : String) : Except DeError StateEvent :=
  match decodeInvalidStateEvent value with
  | .ok event => .ok (.InvalidState (event.with_error error))
  | .error e => .error (.custom e)

/-- The dispatch-on-tag body of `StateEvent::deserialize`
(`src/collections/all.rs` lines 633-718): only state kinds are accepted;
the custom case decodes `CustomStateEvent` with no structural check; every
other tag fails with the "not a state event" error. -/
def StateEvent.dispatch (event_type : EventType) (value : Value) : Except DeError StateEvent :=
  match event_type with
  | .roomAliases =>
    match decodeStateShell value with
    | .ok event => .ok (.RoomAliases event)
    | .error e => StateEvent.invalidStateEvent value e
  | .roomAvatar =>
    match decodeStateShell value with
    | .ok event => .ok (.RoomAvatar event)
    | .error e => StateEvent.invalidStateEvent value e
  | .roomCanonicalAlias =>
    match decodeStateShell value with
    | .ok event => .ok (.RoomCanonicalAlias event)
    | .error e => StateEvent.invalidStateEvent value e
  | .roomCreate =>
    match decodeStateShell value with
    | .ok event => .ok (.RoomCreate event)
    | .error e => StateEvent.invalidStateEvent value e
  | .roomGuestAccess =>
    match decodeStateShell value with
    | .ok event => .ok (.RoomGuestAccess event)
    | .error e => StateEvent.invalidStateEvent value e
  | .roomHistoryVisibility =>
    match decodeStateShell value with
    | .ok event => .ok (.RoomHistoryVisibility event)
    | .error e => StateEvent.invalidStateEvent value e
  | .roomJoinRules =>
    match decodeStateShell value with
    | .ok event => .ok (.RoomJoinRules event)
    | .error e => StateEvent.invalidStateEvent value e
  | .roomMember =>
    match decodeMemberEvent value with
    | .ok event => .ok (.RoomMember event)
    | .error e => StateEvent.invalidStateEvent value e
  | .roomName =>
    match decodeStateShell value with
    | .ok event => .ok (.RoomName event)
    | .error e => StateEvent.invalidStateEvent value e
  | .roomPowerLevels =>
    match decodeStateShell value with
    | .ok event => .ok (.RoomPowerLevels event)
    | .error e => StateEvent.invalidStateEvent value e
  | .roomThirdPartyInvite =>
    match decodeStateShell value with
    | .ok event => .ok (.RoomThirdPartyInvite event)
    | .error e => StateEvent.invalidStateEvent value e
  | .roomTopic =>
    match decodeStateShell value with
    | .ok event => .ok (.RoomTopic event)
    | .error e => StateEvent.invalidStateEvent value e
  | .custom _ =>
    match decodeStateShell value with
    | .ok event => .ok (.CustomState event)
    | .error e => .error (.custom e)
  | .callAnswer | .callCandidates | .callHangup | .callInvite | .presence
  | .receipt | .roomMessage | .roomRedaction | .tag | .typing =>
    .error (.custom "not a state event")

/-- `StateEvent::deserialize` from `src/collections/all.rs`. -/
def StateEvent.deserialize (value : Value) : Except DeError StateEvent :=
  match resolveType value with
  | .error e => .error e
  | .ok event_type => StateEvent.dispatch event_type value

/-- `StateEvent`'s `Serialize` impl: pure delegation to the active
variant. -/
def StateEvent.serialize : StateEvent → Value
  | .RoomAliases e => serializeStateShell e
  | .RoomAvatar e => serializeStateShell e
  | .RoomCanonicalAlias e => serializeStateShell e
  | .RoomCreate e => serializeStateShell e
  | .RoomGuestAccess e => serializeStateShell e
  | .RoomHistoryVisibility e => serializeStateShell e
  | .RoomJoinRules e => serializeStateShell e
  | .RoomMember e => serializeMemberEvent e
  | .RoomName e => serializeStateShell e
  | .RoomPowerLevels e => serializeStateShell e
  | .RoomThirdPartyInvite e => serializeStateShell e
  | .RoomTopic e => serializeStateShell e
  | .InvalidState e => serializeInvalidStateEvent e
  | .CustomState e => serializeStateShell e

/-- Variant erasure from the state union into the general union: each
`StateEvent` variant is also an `Event` variant with the same payload
(the subset invariant of the variant sets). -/
def StateEvent.toEvent : StateEvent → Event
  | .RoomAliases e => .RoomAliases e
  | .RoomAvatar e => .RoomAvatar e
  | .RoomCanonicalAlias e => .RoomCanonicalAlias e
  | .RoomCreate e => .RoomCreate e
  | .RoomGuestAccess e => .RoomGuestAccess e
  | .RoomHistoryVisibility e => .RoomHistoryVisibility e
  | .RoomJoinRules e => .RoomJoinRules e
  | .RoomMember e => .RoomMember e
  | .RoomName e => .RoomName e
  | .RoomPowerLevels e => .RoomPowerLevels e
  | .RoomThirdPartyInvite e => .RoomThirdPartyInvite e
  | .RoomTopic e => .RoomTopic e
  | .InvalidState e => .InvalidState e
  | .CustomState e => .CustomState e

end all

namespace only

/-- A basic event, from `src/collections/only.rs`: exclusive to event types
that are at most basic. -/
inductive Event where
  | Presence (e : PresenceEvent)
  | Receipt (e : ReceiptEvent)
  | Tag (e : TagEvent)
  | Typing (e : TypingEvent)
  | Invalid (e : InvalidEvent)
  | Custom (e : CustomEvent)
deriving Repr

/-- A room event, from `src/collections/only.rs`: exclusive to event types
that are at most room events. -/
inductive RoomEvent where
  | CallAnswer (e : AnswerEvent)
  | CallCandidates (e : CandidatesEvent)
  | CallHangup (e : HangupEvent)
  | CallInvite (e : InviteEvent)
  | RoomMessage (e : MessageEvent)
  | RoomRedaction (e : RedactionEvent)
  | InvalidRoom (e : InvalidRoomEvent)
  | CustomRoom (e : CustomRoomEvent)
deriving Repr

/-- The `invalid_event` closure of `only::Event::deserialize`. -/
def Event.invalidEvent (value : Value) (error : String) : Except DeError Event :=
  match decodeInvalidEvent value with
  | .ok event => .ok (.Invalid (event.with_error error))
  | .error e => .error (.custom e)

/-- The dispatch-on-tag body of `only::Event::deserialize`
(`src/collections/only.rs` lines 94-133): only the four exclusively-basic
kinds are accepted; custom tags decode `CustomEvent` with no structural
check; every registered non-basic tag fails with the "not exclusively a
basic event" error. -/
def Event.dispatch (event_type : EventType) (value : Value) : Except DeError Event :=
  match event_type with
  | .presence =>
    match decodeBasicShell value with
    | .ok event => .ok (.Presence event)
    | .error e => Event.invalidEvent value e
  | .receipt =>
    match decodeBasicShell value with
    | .ok event => .ok (.Receipt event)
    | .error e => Event.invalidEvent value e
  | .tag =>
    match decodeBasicShell value with
    | .ok event => .ok (.Tag event)
    | .error e => Event.invalidEvent value e
  | .typing =>
    match decodeTypingEvent value with
    | .ok event => .ok (.Typing event)
    | .error e => Event.invalidEvent value e
  | .custom _ =>
    match decodeBasicShell value with
    | .ok event => .ok (.Custom event)
    | .error e => .error (.custom e)
  | .callAnswer | .callCandidates | .callHangup | .callInvite
  | .roomAliases | .roomAvatar | .roomCanonicalAlias | .roomCreate
  | .roomGuestAccess | .roomHistoryVisibility | .roomJoinRules | .roomMember
  | .roomMessage | .roomName | .roomPowerLevels | .roomRedaction
  | .roomThirdPartyInvite | .roomTopic =>
    .error (.custom "not exclusively a basic event")

/-- `only::Event::deserialize` from `src/collections/only.rs`. -/
def Event.deserialize (value : Value) : Except DeError Event :=
  match resolveType value with
  | .error e => .error e
  | .ok event_type => Event.dispatch event_type value

/-- `only::Event`'s `Serialize` impl: pure delegation. -/
def Event.serialize : Event → Value
  | .Presence e => serializeBasicShell e
  | .Receipt e => serializeBasicShell e
  | .Tag e => serializeBasicShell e
  | .Typing e => serializeTypingEvent e
  | .Invalid e => serializeInvalidEvent e
  | .Custom e => serializeBasicShell e

/-- The `invalid_room_event` closure of `only::RoomEvent::deserialize`. -/
def RoomEvent.invalidRoomEvent (value : Value) (error : String) : Except DeError RoomEvent :=
  match decodeInvalidRoomEvent value with
  | .ok event => .ok (.InvalidRoom (event.with_error error))
  | .error e => .error (.custom e)

/-- The dispatch-on-tag body of `only::RoomEvent::deserialize`
(`src/collections/only.rs` lines 173-224): only the six exclusively-room
kinds are accepted; custom tags decode `CustomRoomEvent` with no structural
check; every other registered tag fails with the "not exclusively a room
event" error. -/
def RoomEvent.dispatch (event_type : EventType) (value : Value) : Except DeError RoomEvent :=
  match event_type with
  | .callAnswer =>
    match decodeRoomShell value with
    | .ok event => .ok (.CallAnswer event)
    | .error e => RoomEvent.invalidRoomEvent value e
  | .callCandidates =>
    match decodeRoomShell value with
    | .ok event => .ok (.CallCandidates event)
    | .error e => RoomEvent.invalidRoomEvent value e
  | .callHangup =>
    match decodeRoomShell value with
    | .ok event => .ok (.CallHangup event)
    | .error e => RoomEvent.invalidRoomEvent value e
  | .callInvite =>
    match decodeRoomShell value with
    | .ok event => .ok (.CallInvite event)
    | .error e => RoomEvent.invalidRoomEvent value e
  | .roomMessage =>
    match decodeRoomShell value with
    | .ok event => .ok (.RoomMessage event)
    | .error e => RoomEvent.invalidRoomEvent value e
  | .roomRedaction =>
    match decodeRoomShell value with
    | .ok event => .ok (.RoomRedaction event)
    | .error e => RoomEvent.invalidRoomEvent value e
  | .custom _ =>
    match decodeRoomShell value with
    | .ok event => .ok (.CustomRoom event)
    | .error e => .error (.custom e)
  | .presence | .receipt | .roomAliases | .roomAvatar | .roomCanonicalAlias
  | .roomCreate | .roomGuestAccess | .roomHistoryVisibility | .roomJoinRules
  | .roomMember | .roomName | .roomPowerLevels | .roomThirdPartyInvite
  | .roomTopic | .tag | .typing =>
    .error (.custom "not exclusively a room event")

/-- `only::RoomEvent::deserialize` from `src/collections/only.rs`. -/
def RoomEvent.deserialize (value : Value) : Except DeError RoomEvent :=
  match resolveType value with
  | .error e => .error e
  | .ok event_type => RoomEvent.dispatch event_type value

/-- `only::RoomEvent`'s `Serialize` impl: pure delegation. -/
def RoomEvent.serialize : RoomEvent → Value
  | .CallAnswer e => serializeRoomShell e
  | .CallCandidates e => serializeRoomShell e
  | .CallHangup e => serializeRoomShell e
  | .CallInvite e => serializeRoomShell e
  | .RoomMessage e => serializeRoomShell e
  | .RoomRedaction e => serializeRoomShell e
  | .InvalidRoom e => serializeInvalidRoomEvent e
  | .CustomRoom e => serializeRoomShell e

end only

/-- The error of a decode attempt, when it failed. -/
def errOf : Except String α → Option String
  | .error e => some e
  | .ok _ => none

/-- A taxonomy level: basic event, room event, or state event. -/
inductive Taxonomy where
  | basic
  | room
  | state
deriving Repr, DecidableEq

/-- The taxonomy level of each registered kind, as committed to by the
Invalid-fallback helper chosen in each dispatch branch of
`src/collections/all.rs`; `none` for unregistered tags. -/
def kindFallbackLevel : EventType → Option Taxonomy
  | .presence | .receipt | .tag | .typing => some .basic
  | .callAnswer | .callCandidates | .callHangup | .callInvite
  | .roomMessage | .roomRedaction => some .room
  | .roomAliases | .roomAvatar | .roomCanonicalAlias | .roomCreate
  | .roomGuestAccess | .roomHistoryVisibility | .roomJoinRules | .roomMember
  | .roomName | .roomPowerLevels | .roomThirdPartyInvite | .roomTopic => some .state
  | .custom _ => none

/-- The error, if any, of the concrete per-kind decode attempt that each
registered tag dispatches to in `src/collections/all.rs`; `none` for
unregistered tags (which have no per-kind decoder). -/
def kindDecodeError (event_type : EventType) (v : Value) : Option String :=
  match event_type with
  | .presence | .receipt | .tag => errOf (decodeBasicShell v)
  | .typing => errOf (decodeTypingEvent v)
  | .callAnswer | .callCandidates | .callHangup | .callInvite
  | .roomMessage | .roomRedaction => errOf (decodeRoomShell v)
  | .roomMember => errOf (decodeMemberEvent v)
  | .roomAliases | .roomAvatar | .roomCanonicalAlias | .roomCreate
  | .roomGuestAccess | .roomHistoryVisibility | .roomJoinRules
  | .roomName | .roomPowerLevels | .roomThirdPartyInvite
  | .roomTopic => errOf (decodeStateShell v)
  | .custom _ => none

/-- A tag survives the registry round trip: converting it to its tag string
and back yields the same tag. This holds for every registered tag and for
every custom tag whose string is not itself a registered tag string. -/
def tagRoundTrips (et : EventType) : Prop :=
  eventTypeFromString et.toTagString = et

/-- A value of one concrete per-kind event type: one constructor per
registered kind, wrapping that kind's payload type. -/
inductive PerKind where
  | callAnswer (e : AnswerEvent)
  | callCandidates (e : CandidatesEvent)
  | callHangup (e : HangupEvent)
  | callInvite (e : InviteEvent)
  | presence (e : PresenceEvent)
  | receipt (e : ReceiptEvent)
  | roomAliases (e : AliasesEvent)
  | roomAvatar (e : AvatarEvent)
  | roomCanonicalAlias (e : CanonicalAliasEvent)
  | roomCreate (e : CreateEvent)
  | roomGuestAccess (e : GuestAccessEvent)
  | roomHistoryVisibility (e : HistoryVisibilityEvent)
  | roomJoinRules (e : JoinRulesEvent)
  | roomMember (e : MemberEvent)
  | roomMessage (e : MessageEvent)
  | roomName (e : NameEvent)
  | roomPowerLevels (e : PowerLevelsEvent)
  | roomRedaction (e : RedactionEvent)
  | roomThirdPartyInvite (e : ThirdPartyInviteEvent)
  | roomTopic (e : TopicEvent)
  | tag (e : TagEvent)
  | typing (e : TypingEvent)
deriving Repr

/-- The registered tag of a per-kind value's kind. -/
def PerKind.kindTag : PerKind → EventType
  | .callAnswer _ => .callAnswer
  | .callCandidates _ => .callCandidates
  | .callHangup _ => .callHangup
  | .callInvite _ => .callInvite
  | .presence _ => .presence
  | .receipt _ => .receipt
  | .roomAliases _ => .roomAliases
  | .roomAvatar _ => .roomAvatar
  | .roomCanonicalAlias _ => .roomCanonicalAlias
  | .roomCreate _ => .roomCreate
  | .roomGuestAccess _ => .roomGuestAccess
  | .roomHistoryVisibility _ => .roomHistoryVisibility
  | .roomJoinRules _ => .roomJoinRules
  | .roomMember _ => .roomMember
  | .roomMessage _ => .roomMessage
  | .roomName _ => .roomName
  | .roomPowerLevels _ => .roomPowerLevels
  | .roomRedaction _ => .roomRedaction
  | .roomThirdPartyInvite _ => .roomThirdPartyInvite
  | .roomTopic _ => .roomTopic
  | .tag _ => .tag
  | .typing _ => .typing

/-- The `event_type` envelope field held by a per-kind value. -/
def PerKind.heldTag : PerKind → EventType
  | .callAnswer e => e.event_type
  | .callCandidates e => e.event_type
  | .callHangup e => e.event_type
  | .callInvite e => e.event_type
  | .presence e => e.event_type
  | .receipt e => e.event_type
  | .roomAliases e => e.event_type
  | .roomAvatar e => e.event_type
  | .roomCanonicalAlias e => e.event_type
  | .roomCreate e => e.event_type
  | .roomGuestAccess e => e.event_type
  | .roomHistoryVisibility e => e.event_type
  | .roomJoinRules e => e.event_type
  | .roomMember e => e.event_type
  | .roomMessage e => e.event_type
  | .roomName e => e.event_type
  | .roomPowerLevels e => e.event_type
  | .roomRedaction e => e.event_type
  | .roomThirdPartyInvite e => e.event_type
  | .roomTopic e => e.event_type
  | .tag e => e.event_type
  | .typing e => e.event_type

/-- The embedded tag of a stripped state preview survives the registry
round trip. -/
def StrippedState.tagOk : StrippedState → Prop
  | .roomAvatar s => tagRoundTrips s.event_type
  | .roomCanonicalAlias s => tagRoundTrips s.event_type
  | .roomJoinRules s => tagRoundTrips s.event_type
  | .roomName s => tagRoundTrips s.event_type

/-- The tags of the stripped state previews embedded in a member event all
survive the registry round trip; trivially true for every other kind. -/
def MemberEvent.strippedTagsOk (m : MemberEvent) : Prop :=
  match m.invite_room_state with
  | none => True
  | some l => ∀ x ∈ l, x.tagOk

/-- The tags embedded in a per-kind value's payload all survive the
registry round trip; only member events embed tags. -/
def PerKind.embeddedTagsOk : PerKind → Prop
  | .roomMember m => m.strippedTagsOk
  | _ => True

/-- A per-kind value is well formed when its envelope `event_type` field is
its kind's own registered tag and any embedded tags survive the registry
round trip. -/
def PerKind.wellFormed (k : PerKind) : Prop :=
  k.heldTag = k.kindTag ∧ k.embeddedTagsOk

/-- Serialization of a per-kind value by that value's own encoding. -/
def PerKind.encode : PerKind → Value
  | .callAnswer e => serializeRoomShell e
  | .callCandidates e => serializeRoomShell e
  | .callHangup e => serializeRoomShell e
  | .callInvite e => serializeRoomShell e
  | .presence e => serializeBasicShell e
  | .receipt e => serializeBasicShell e
  | .roomAliases e => serializeStateShell e
  | .roomAvatar e => serializeStateShell e
  | .roomCanonicalAlias e => serializeStateShell e
  | .roomCreate e => serializeStateShell e
  | .roomGuestAccess e => serializeStateShell e
  | .roomHistoryVisibility e => serializeStateShell e
  | .roomJoinRules e => serializeStateShell e
  | .roomMember e => serializeMemberEvent e
  | .roomMessage e => serializeRoomShell e
  | .roomName e => serializeStateShell e
  | .roomPowerLevels e => serializeStateShell e
  | .roomRedaction e => serializeRoomShell e
  | .roomThirdPartyInvite e => serializeStateShell e
  | .roomTopic e => serializeStateShell e
  | .tag e => serializeBasicShell e
  | .typing e => serializeTypingEvent e

/-- The `Event` union variant for a per-kind value (the total `From` lift
stamped by `impl_from_t_for_event!` in `src/collections/all.rs`). -/
def PerKind.toEvent : PerKind → all.Event
  | .callAnswer e => .CallAnswer e
  | .callCandidates e => .CallCandidates e
  | .callHangup e => .CallHangup e
  | .callInvite e => .CallInvite e
  | .presence e => .Presence e
  | .receipt e => .Receipt e
  | .roomAliases e => .RoomAliases e
  | .roomAvatar e => .RoomAvatar e
  | .roomCanonicalAlias e => .RoomCanonicalAlias e
  | .roomCreate e => .RoomCreate e
  | .roomGuestAccess e => .RoomGuestAccess e
  | .roomHistoryVisibility e => .RoomHistoryVisibility e
  | .roomJoinRules e => .RoomJoinRules e
  | .roomMember e => .RoomMember e
  | .roomMessage e => .RoomMessage e
  | .roomName e => .RoomName e
  | .roomPowerLevels e => .RoomPowerLevels e
  | .roomRedaction e => .RoomRedaction e
  | .roomThirdPartyInvite e => .RoomThirdPartyInvite e
  | .roomTopic e => .RoomTopic e
  | .tag e => .Tag e
  | .typing e => .Typing e

/-- The `RoomEvent` union variant for a per-kind value, for the kinds the
room-level union accepts (`impl_from_t_for_room_event!`); `none` for the
basic-only kinds. -/
def PerKind.toRoomEvent : PerKind → Option all.RoomEvent
  | .callAnswer e => some (.CallAnswer e)
  | .callCandidates e => some (.CallCandidates e)
  | .callHangup e => some (.CallHangup e)
  | .callInvite e => some (.CallInvite e)
  | .presence _ => none
  | .receipt _ => none
  | .roomAliases e => some (.RoomAliases e)
  | .roomAvatar e => some (.RoomAvatar e)
  | .roomCanonicalAlias e => some (.RoomCanonicalAlias e)
  | .roomCreate e => some (.RoomCreate e)
  | .roomGuestAccess e => some (.RoomGuestAccess e)
  | .roomHistoryVisibility e => some (.RoomHistoryVisibility e)
  | .roomJoinRules e => some (.RoomJoinRules e)
  | .roomMember e => some (.RoomMember e)
  | .roomMessage e => some (.RoomMessage e)
  | .roomName e => some (.RoomName e)
  | .roomPowerLevels e => some (.RoomPowerLevels e)
  | .roomRedaction e => some (.RoomRedaction e)
  | .roomThirdPartyInvite e => some (.RoomThirdPartyInvite e)
  | .roomTopic e => some (.RoomTopic e)
  | .tag _ => none
  | .typing _ => none

/-- The `StateEvent` union variant for a per-kind value, for the kinds the
state-level union accepts (`impl_from_t_for_state_event!`); `none` for the
basic and room-only kinds. -/
def PerKind.toStateEvent : PerKind → Option all.StateEvent
  | .callAnswer _ => none
  | .callCandidates _ => none
  | .callHangup _ => none
  | .callInvite _ => none
  | .presence _ => none
  | .receipt _ => none
  | .roomAliases e => some (.RoomAliases e)
  | .roomAvatar e => some (.RoomAvatar e)
  | .roomCanonicalAlias e => some (.RoomCanonicalAlias e)
  | .roomCreate e => some (.RoomCreate e)
  | .roomGuestAccess e => some (.RoomGuestAccess e)
  | .roomHistoryVisibility e => some (.RoomHistoryVisibility e)
  | .roomJoinRules e => some (.RoomJoinRules e)
  | .roomMember e => some (.RoomMember e)
  | .roomMessage _ => none
  | .roomName e => some (.RoomName e)
  | .roomPowerLevels e => some (.RoomPowerLevels e)
  | .roomRedaction _ => none
  | .roomThirdPartyInvite e => some (.RoomThirdPartyInvite e)
  | .roomTopic e => some (.RoomTopic e)
  | .tag _ => none
  | .typing _ => none

namespace all

/-- Whether an `Event` value is one of the Custom fallback variants. -/
def Event.isCustomVariant : Event → Bool
  | .Custom _ | .CustomRoom _ | .CustomState _ => true
  | _ => false

/-- Whether an `Event` value is one of the Invalid fallback variants. -/
def Event.isInvalidVariant : Event → Bool
  | .Invalid _ | .InvalidRoom _ | .InvalidState _ => true
  | _ => false

/-- The registered tag whose dispatch branch produces each concrete
per-kind `Event` variant; `none` for the fallback variants. -/
def Event.variantTag : Event → Option EventType
  | .CallAnswer _ => some .callAnswer
  | .CallCandidates _ => some .callCandidates
  | .CallHangup _ => some .callHangup
  | .CallInvite _ => some .callInvite
  | .Presence _ => some .presence
  | .Receipt _ => some .receipt
  | .RoomAliases _ => some .roomAliases
  | .RoomAvatar _ => some .roomAvatar
  | .RoomCanonicalAlias _ => some .roomCanonicalAlias
  | .RoomCreate _ => some .roomCreate
  | .RoomGuestAccess _ => some .roomGuestAccess
  | .RoomHistoryVisibility _ => some .roomHistoryVisibility
  | .RoomJoinRules _ => some .roomJoinRules
  | .RoomMember _ => some .roomMember
  | .RoomMessage _ => some .roomMessage
  | .RoomName _ => some .roomName
  | .RoomPowerLevels _ => some .roomPowerLevels
  | .RoomRedaction _ => some .roomRedaction
  | .RoomThirdPartyInvite _ => some .roomThirdPartyInvite
  | .RoomTopic _ => some .roomTopic
  | .Tag _ => some .tag
  | .Typing _ => some .typing
  | .Invalid _ | .Custom _ | .InvalidRoom _ | .CustomRoom _
  | .InvalidState _ | .CustomState _ => none

/-- Whether a `RoomEvent` value is a Custom fallback variant. -/
def RoomEvent.isCustomVariant : RoomEvent → Bool
  | .CustomRoom _ | .CustomState _ => true
  | _ => false

/-- Whether a `RoomEvent` value is an Invalid fallback variant. -/
def RoomEvent.isInvalidVariant : RoomEvent → Bool
  | .InvalidRoom _ | .InvalidState _ => true
  | _ => false

/-- The registered tag producing each concrete per-kind `RoomEvent`
variant; `none` for the fallback variants. -/
def RoomEvent.variantTag : RoomEvent → Option EventType
  | .CallAnswer _ => some .callAnswer
  | .CallCandidates _ => some .callCandidates
  | .CallHangup _ => some .callHangup
  | .CallInvite _ => some .callInvite
  | .RoomAliases _ => some .roomAliases
  | .RoomAvatar _ => some .roomAvatar
  | .RoomCanonicalAlias _ => some .roomCanonicalAlias
  | .RoomCreate _ => some .roomCreate
  | .RoomGuestAccess _ => some .roomGuestAccess
  | .RoomHistoryVisibility _ => some .roomHistoryVisibility
  | .RoomJoinRules _ => some .roomJoinRules
  | .RoomMember _ => some .roomMember
  | .RoomMessage _ => some .roomMessage
  | .RoomName _ => some .roomName
  | .RoomPowerLevels _ => some .roomPowerLevels
  | .RoomRedaction _ => some .roomRedaction
  | .RoomThirdPartyInvite _ => some .roomThirdPartyInvite
  | .RoomTopic _ => some .roomTopic
  | .InvalidRoom _ | .CustomRoom _ | .InvalidState _ | .CustomState _ => none

/-- Whether a `StateEvent` value is the Custom fallback variant. -/
def StateEvent.isCustomVariant : StateEvent → Bool
  | .CustomState _ => true
  | _ => false

/-- Whether a `StateEvent` value is the Invalid fallback variant. -/
def StateEvent.isInvalidVariant : StateEvent → Bool
  | .InvalidState _ => true
  | _ => false

/-- The registered tag producing each concrete per-kind `StateEvent`
variant; `none` for the fallback variants. -/
def StateEvent.variantTag : StateEvent → Option EventType
  | .RoomAliases _ => some .roomAliases
  | .RoomAvatar _ => some .roomAvatar
  | .RoomCanonicalAlias _ => some .roomCanonicalAlias
  | .RoomCreate _ => some .roomCreate
  | .RoomGuestAccess _ => some .roomGuestAccess
  | .RoomHistoryVisibility _ => some .roomHistoryVisibility
  | .RoomJoinRules _ => some .roomJoinRules
  | .RoomMember _ => some .roomMember
  | .RoomName _ => some .roomName
  | .RoomPowerLevels _ => some .roomPowerLevels
  | .RoomThirdPartyInvite _ => some .roomThirdPartyInvite
  | .RoomTopic _ => some .roomTopic
  | .InvalidState _ | .CustomState _ => none

end all

/-- A well-formed `m.room.member` document. -/
def memberDoc : Value :=
  .obj [("content", .obj [("membership", .str "join")]),
        ("type", .str "m.room.member"),
        ("event_id", .str "$143273582443PhrSn:example.org"),
        ("room_id", .str "!jEsUZKDJdhlrceRyVU:example.org"),
        ("sender", .str "@alice:example.org"),
        ("state_key", .str "@alice:example.org")]

/-- The member value `memberDoc` decodes to. -/
def memberVal : MemberEvent :=
  { content := { avatar_url := none, displayname := none, is_direct := none,
                 membership := .join, third_party_invite := none },
    event_type := .roomMember,
    event_id := "$143273582443PhrSn:example.org",
    invite_room_state := none, prev_content := none,
    room_id := "!jEsUZKDJdhlrceRyVU:example.org",
    sender := "@alice:example.org",
    state_key := "@alice:example.org" }

/-- An `m.room.member` document whose content lacks the required
`membership` field, but whose envelope is intact. -/
def memberNoMembershipDoc : Value :=
  .obj [("content", .obj []),
        ("type", .str "m.room.member"),
        ("event_id", .str "$143273582443PhrSn:example.org"),
        ("room_id", .str "!jEsUZKDJdhlrceRyVU:example.org"),
        ("sender", .str "@alice:example.org"),
        ("state_key", .str "@alice:example.org")]

/-- An unregistered-tag document carrying both a `state_key` and all three
room-identifying fields. -/
def customBothDoc : Value :=
  .obj [("type", .str "x.custom"),
        ("state_key", .str "a"),
        ("event_id", .str "$143273582443PhrSn:example.org"),
        ("room_id", .str "!jEsUZKDJdhlrceRyVU:example.org"),
        ("sender", .str "@alice:example.org"),
        ("content", .obj [])]

/-- The empty document. -/
def emptyDoc : Value := .obj []

/-- A document whose `type` field is present but holds a number, not a
string. -/
def numberTagDoc : Value := .obj [("type", .num 5)]

/-- A member value whose envelope tag field holds an unregistered tag
instead of its kind's own `m.room.member` tag. -/
def misTaggedMember : MemberEvent :=
  { memberVal with event_type := .custom "x.custom" }

/-!
Helper lemmas. The development below establishes, in order: non-emptiness
of every decode error message, evaluation lemmas for the shared resolver,
round-trip lemmas for each payload codec, and the claim theorems.
-/

/-- Every error this decode result can produce is a non-empty message. -/
def ExceptNE (x : Except String α) : Prop := ∀ e, x = .error e → e ≠ ""

theorem ExceptNE.bindNE {x : Except String α} {f : α → Except String β}
    (hx : ExceptNE x) (hf : ∀ y, ExceptNE (f y)) : ExceptNE (x >>= f) := by
  intro e h
  cases x with
  | error e0 =>
    have he : e0 = e := by simpa [bind, Except.bind] using h
    exact he ▸ hx e0 rfl
  | ok y =>
    exact hf y e (by simpa [bind, Except.bind] using h)

theorem ExceptNE.pureNE (y : α) : ExceptNE (pure y : Except String α) := by
  intro e h
  simp [pure, Except.pure] at h

theorem ExceptNE.okNE (y : α) : ExceptNE (.ok y : Except String α) := by
  intro e h
  simp at h

theorem missing_field_ne (k : String) : ("missing field " ++ k) ≠ "" := by
  intro h
  have h2 := congrArg String.data h
  rw [String.data_append] at h2
  simp at h2

theorem getField_NE (v : Value) (k : String) : ExceptNE (getField v k) := by
  intro e h
  unfold getField at h
  split at h
  · exact absurd h (by simp)
  · injection h with h2
    exact fun hh => missing_field_ne k (h2.trans hh)

theorem decodeString_NE (v : Value) : ExceptNE (decodeString v) := by
  intro e h
  unfold decodeString at h
  split at h
  · exact absurd h (by simp)
  · injection h with h2
    exact fun hh => by simp [h2.symm] at hh

theorem decodeBool_NE (v : Value) : ExceptNE (decodeBool v) := by
  intro e h
  unfold decodeBool at h
  split at h
  · exact absurd h (by simp)
  · injection h with h2
    exact fun hh => by simp [h2.symm] at hh

theorem eventTypeDecode_NE (v : Value) : ExceptNE (eventTypeDecode v) := by
  intro e h
  unfold eventTypeDecode at h
  split at h
  · exact absurd h (by simp)
  · injection h with h2
    exact fun hh => by simp [h2.symm] at hh

theorem decodeMembership_NE (v : Value) : ExceptNE (decodeMembership v) := by
  intro e h
  unfold decodeMembership at h
  split at h <;> first
    | (injection h with h2; subst h2; decide)
    | exact absurd h (by simp)

theorem getOptField_NE (d : Value → Except String α) (v : Value) (k : String)
    (hd : ∀ x, ExceptNE (d x)) : ExceptNE (getOptField d v k) := by
  intro e h
  unfold getOptField at h
  split at h
  · exact absurd h (by simp)
  · split_ifs at h
    · split at h
      · exact absurd h (by simp)
      · injection h with h2
        exact h2 ▸ hd _ _ (by assumption)

theorem decodeList_NE (d : Value → Except String α) (xs : List Value)
    (hd : ∀ x, ExceptNE (d x)) : ExceptNE (decodeList d xs) := by
  induction xs with
  | nil => exact ExceptNE.okNE _
  | cons x xs ih =>
    intro e h
    unfold decodeList at h
    split at h
    · injection h with h2
      exact h2 ▸ hd x _ (by assumption)
    · split at h
      · injection h with h2
        exact h2 ▸ ih _ (by assumption)
      · exact absurd h (by simp)

theorem decodeStringList_NE (v : Value) : ExceptNE (decodeStringList v) := by
  intro e h
  unfold decodeStringList at h
  split at h
  · exact decodeList_NE decodeString _ decodeString_NE _ h
  · injection h with h2
    exact fun hh => by simp [h2.symm] at hh

theorem decodeSignedContent_NE (v : Value) : ExceptNE (decodeSignedContent v) := by
  unfold decodeSignedContent
  exact (getField_NE v "mxid").bindNE fun mv =>
    (decodeString_NE mv).bindNE fun mxid =>
    (getField_NE v "signatures").bindNE fun sigs =>
    (getField_NE v "token").bindNE fun tv =>
    (decodeString_NE tv).bindNE fun token =>
    ExceptNE.pureNE _

theorem decodeThirdPartyInvite_NE (v : Value) : ExceptNE (decodeThirdPartyInvite v) := by
  unfold decodeThirdPartyInvite
  exact (getField_NE v "display_name").bindNE fun dv =>
    (decodeString_NE dv).bindNE fun display_name =>
    (getField_NE v "signed").bindNE fun sv =>
    (decodeSignedContent_NE sv).bindNE fun signed =>
    ExceptNE.pureNE _

theorem decodeMemberEventContent_NE (v : Value) : ExceptNE (decodeMemberEventContent v) := by
  unfold decodeMemberEventContent
  exact (getOptField_NE decodeString v "avatar_url" decodeString_NE).bindNE fun _ =>
    (getOptField_NE decodeString v "displayname" decodeString_NE).bindNE fun _ =>
    (getOptField_NE decodeBool v "is_direct" decodeBool_NE).bindNE fun _ =>
    (getField_NE v "membership").bindNE fun mv =>
    (decodeMembership_NE mv).bindNE fun _ =>
    (getOptField_NE decodeThirdPartyInvite v "third_party_invite"
      decodeThirdPartyInvite_NE).bindNE fun _ =>
    ExceptNE.pureNE _

theorem decodeStrippedStateContent_NE (v : Value) :
    ExceptNE (decodeStrippedStateContent v) := by
  unfold decodeStrippedStateContent
  exact (getField_NE v "content").bindNE fun c =>
    (getField_NE v "type").bindNE fun tv =>
    (eventTypeDecode_NE tv).bindNE fun et =>
    (getField_NE v "state_key").bindNE fun kv =>
    (decodeString_NE kv).bindNE fun _ =>
    ExceptNE.pureNE _

theorem decodeStrippedState_NE (v : Value) : ExceptNE (decodeStrippedState v) := by
  intro e h
  unfold decodeStrippedState at h
  split at h
  · split_ifs at h <;> first
      | · split at h
          · injection h with h2
            exact h2 ▸ decodeStrippedStateContent_NE _ _ (by assumption)
          · exact absurd h (by simp)
      | (injection h with h2; subst h2; decide)
  · injection h with h2
    exact fun hh => by simp [h2.symm] at hh

theorem decodeStrippedStateList_NE (v : Value) : ExceptNE (decodeStrippedStateList v) := by
  intro e h
  unfold decodeStrippedStateList at h
  split at h
  · exact decodeList_NE decodeStrippedState _ decodeStrippedState_NE _ h
  · injection h with h2
    exact fun hh => by simp [h2.symm] at hh

theorem decodeBasicShell_NE (v : Value) : ExceptNE (decodeBasicShell v) := by
  unfold decodeBasicShell
  exact (getField_NE v "content").bindNE fun c =>
    (getField_NE v "type").bindNE fun tv =>
    (eventTypeDecode_NE tv).bindNE fun et =>
    ExceptNE.pureNE _

theorem decodeRoomShell_NE (v : Value) : ExceptNE (decodeRoomShell v) := by
  unfold decodeRoomShell
  exact (getField_NE v "content").bindNE fun c =>
    (getField_NE v "type").bindNE fun tv =>
    (eventTypeDecode_NE tv).bindNE fun et =>
    (getField_NE v "event_id").bindNE fun ev =>
    (decodeString_NE ev).bindNE fun _ =>
    (getField_NE v "room_id").bindNE fun rv =>
    (decodeString_NE rv).bindNE fun _ =>
    (getField_NE v "sender").bindNE fun sv =>
    (decodeString_NE sv).bindNE fun _ =>
    ExceptNE.pureNE _

theorem decodeStateShell_NE (v : Value) : ExceptNE (decodeStateShell v) := by
  unfold decodeStateShell
  exact (decodeRoomShell_NE v).bindNE fun r =>
    (getField_NE v "state_key").bindNE fun kv =>
    (decodeString_NE kv).bindNE fun _ =>
    ExceptNE.pureNE _

theorem decodeMemberEvent_NE (v : Value) : ExceptNE (decodeMemberEvent v) := by
  unfold decodeMemberEvent
  exact (getField_NE v "content").bindNE fun cv =>
    (decodeMemberEventContent_NE cv).bindNE fun _ =>
    (getField_NE v "type").bindNE fun tv =>
    (eventTypeDecode_NE tv).bindNE fun _ =>
    (getField_NE v "event_id").bindNE fun ev =>
    (decodeString_NE ev).bindNE fun _ =>
    (getOptField_NE decodeStrippedStateList v "invite_room_state"
      decodeStrippedStateList_NE).bindNE fun _ =>
    (getOptField_NE decodeMemberEventContent v "prev_content"
      decodeMemberEventContent_NE).bindNE fun _ =>
    (getField_NE v "room_id").bindNE fun rv =>
    (decodeString_NE rv).bindNE fun _ =>
    (getField_NE v "sender").bindNE fun sv =>
    (decodeString_NE sv).bindNE fun _ =>
    (getField_NE v "state_key").bindNE fun kv =>
    (decodeString_NE kv).bindNE fun _ =>
    ExceptNE.pureNE _

theorem decodeTypingEventContent_NE (v : Value) : ExceptNE (decodeTypingEventContent v) := by
  unfold decodeTypingEventContent
  exact (getField_NE v "user_ids").bindNE fun uv =>
    (decodeStringList_NE uv).bindNE fun _ =>
    ExceptNE.pureNE _

theorem decodeTypingEvent_NE (v : Value) : ExceptNE (decodeTypingEvent v) := by
  unfold decodeTypingEvent
  exact (getField_NE v "content").bindNE fun cv =>
    (decodeTypingEventContent_NE cv).bindNE fun _ =>
    (getField_NE v "type").bindNE fun tv =>
    (eventTypeDecode_NE tv).bindNE fun _ =>
    (getOptField_NE decodeString v "room_id" decodeString_NE).bindNE fun _ =>
    ExceptNE.pureNE _

theorem kindDecodeError_ne (et : EventType) (v : Value) (e : String)
    (h : kindDecodeError et v = some e) : e ≠ "" := by
  unfold kindDecodeError at h
  cases et <;> simp only [] at h <;> first
    | exact absurd h (by simp)
    | · unfold errOf at h
        split at h
        · injection h with h2
          exact h2 ▸ (by first
            | exact decodeBasicShell_NE v _ (by assumption)
            | exact decodeRoomShell_NE v _ (by assumption)
            | exact decodeStateShell_NE v _ (by assumption)
            | exact decodeMemberEvent_NE v _ (by assumption)
            | exact decodeTypingEvent_NE v _ (by assumption))
        · exact absurd h (by simp)

theorem tagRoundTrips_registered (et : EventType) (h : et.isCustom = false) :
    tagRoundTrips et := by
  cases et <;> first
    | rfl
    | simp [EventType.isCustom] at h

theorem basicShell_roundtrip (b : BasicShell) (h : tagRoundTrips b.event_type) :
    decodeBasicShell (serializeBasicShell b) = .ok b := by
  simp [decodeBasicShell, serializeBasicShell, getField, Value.get, List.lookup,
    eventTypeDecode, bind, Except.bind, pure, Except.pure, tagRoundTrips] at h ⊢
  simp [h]

theorem roomShell_roundtrip (r : RoomShell) (h : tagRoundTrips r.event_type) :
    decodeRoomShell (serializeRoomShell r) = .ok r := by
  simp [decodeRoomShell, serializeRoomShell, getField, Value.get, List.lookup,
    eventTypeDecode, decodeString, bind, Except.bind, pure, Except.pure,
    tagRoundTrips] at h ⊢
  simp [h]

theorem serializeStateShell_get_state_key (s : StateShell) :
    (serializeStateShell s).get "state_key" = some (.str s.state_key) := by
  cases hp : s.prev_content <;>
    simp [serializeStateShell, hp, Value.get, List.lookup]

theorem serializeStateShell_get_prev (s : StateShell) :
    getOptValue (serializeStateShell s) "prev_content" = s.prev_content := by
  cases hp : s.prev_content <;>
    simp [serializeStateShell, getOptValue, hp, Value.get, List.lookup]

theorem stateShell_roundtrip (s : StateShell) (h : tagRoundTrips s.event_type) :
    decodeStateShell (serializeStateShell s) = .ok s := by
  have hr : decodeRoomShell (serializeStateShell s) =
      .ok { content := s.content, event_type := s.event_type, event_id := s.event_id,
            room_id := s.room_id, sender := s.sender } := by
    cases hp : s.prev_content <;>
      simp [decodeRoomShell, serializeStateShell, hp, getField, Value.get, List.lookup,
        eventTypeDecode, decodeString, bind, Except.bind, pure, Except.pure,
        tagRoundTrips] at h ⊢ <;>
      simp [h]
  simp [decodeStateShell, hr, serializeStateShell_get_state_key,
    serializeStateShell_get_prev, getField, decodeString, bind, Except.bind,
    pure, Except.pure]

theorem membership_roundtrip (m : MembershipState) :
    decodeMembership m.toValue = .ok m := by
  cases m <;> rfl

theorem signedContent_roundtrip (s : SignedContent) :
    decodeSignedContent (serializeSignedContent s) = .ok s := by
  simp [decodeSignedContent, serializeSignedContent, getField, Value.get,
    List.lookup, decodeString, bind, Except.bind, pure, Except.pure]

theorem thirdPartyInvite_roundtrip (t : ThirdPartyInvite) :
    decodeThirdPartyInvite (serializeThirdPartyInvite t) = .ok t := by
  simp [decodeThirdPartyInvite, serializeThirdPartyInvite, getField, Value.get,
    List.lookup, decodeString, signedContent_roundtrip, bind, Except.bind,
    pure, Except.pure]

theorem isNull_str (s : String) : (Value.str s).isNull = false := rfl

theorem isNull_bool (b : Bool) : (Value.bool b).isNull = false := rfl

theorem isNull_arr (xs : List Value) : (Value.arr xs).isNull = false := rfl

theorem isNull_obj (fs : List (String × Value)) : (Value.obj fs).isNull = false := rfl

theorem isNull_serializeThirdPartyInvite (t : ThirdPartyInvite) :
    (serializeThirdPartyInvite t).isNull = false := rfl

theorem isNull_serializeMemberEventContent (c : MemberEventContent) :
    (serializeMemberEventContent c).isNull = false := by
  unfold serializeMemberEventContent
  rfl

theorem memberContent_roundtrip (c : MemberEventContent) :
    decodeMemberEventContent (serializeMemberEventContent c) = .ok c := by
  obtain ⟨a, d, i, mem, t⟩ := c
  cases a <;> cases d <;> cases i <;> cases t <;>
    simp [decodeMemberEventContent, serializeMemberEventContent, getOptField,
      getField, Value.get, List.lookup, decodeString, decodeBool, isNull_str,
      isNull_bool, membership_roundtrip, thirdPartyInvite_roundtrip,
      isNull_serializeThirdPartyInvite, bind, Except.bind, pure, Except.pure]

theorem strippedContent_roundtrip (s : StrippedStateContent)
    (h : tagRoundTrips s.event_type) :
    decodeStrippedStateContent (serializeStrippedStateContent s) = .ok s := by
  simp [decodeStrippedStateContent, serializeStrippedStateContent, getField,
    Value.get, List.lookup, eventTypeDecode, decodeString, bind, Except.bind,
    pure, Except.pure, tagRoundTrips] at h ⊢
  simp [h]

theorem strippedState_roundtrip (x : StrippedState) (h : x.tagOk) :
    decodeStrippedState (serializeStrippedState x) = .ok x := by
  cases x <;>
    simp [decodeStrippedState, serializeStrippedState, StrippedState.tagOk] at h ⊢ <;>
    simp [strippedContent_roundtrip _ h]

theorem strippedList_roundtrip (l : List StrippedState) (h : ∀ x ∈ l, x.tagOk) :
    decodeList decodeStrippedState (l.map serializeStrippedState) = .ok l := by
  induction l with
  | nil => rfl
  | cons x xs ih =>
    simp only [List.map_cons, decodeList,
      strippedState_roundtrip x (h x (by simp)),
      ih (fun y hy => h y (by simp [hy]))]

theorem stringList_roundtrip (l : List String) :
    decodeList decodeString (l.map Value.str) = .ok l := by
  induction l with
  | nil => rfl
  | cons x xs ih => simp [decodeList, decodeString, ih]

theorem typingContent_roundtrip (c : TypingEventContent) :
    decodeTypingEventContent (serializeTypingEventContent c) = .ok c := by
  simp [decodeTypingEventContent, serializeTypingEventContent, getField,
    Value.get, List.lookup, decodeStringList, stringList_roundtrip, bind,
    Except.bind, pure, Except.pure]

theorem typingEvent_roundtrip (t : TypingEvent) (h : tagRoundTrips t.event_type) :
    decodeTypingEvent (serializeTypingEvent t) = .ok t := by
  cases hr : t.room_id <;>
    simp [decodeTypingEvent, serializeTypingEvent, hr, getField, getOptField,
      Value.get, List.lookup, eventTypeDecode, decodeString, isNull_str,
      typingContent_roundtrip, bind, Except.bind,
      pure, Except.pure, tagRoundTrips] at h ⊢ <;>
    simp [h] <;> rw [← hr]

theorem memberEvent_roundtrip (m : MemberEvent) (h : tagRoundTrips m.event_type)
    (hs : m.strippedTagsOk) :
    decodeMemberEvent (serializeMemberEvent m) = .ok m := by
  unfold MemberEvent.strippedTagsOk at hs
  have h2 : eventTypeFromString m.event_type.toTagString = m.event_type := h
  cases hi : m.invite_room_state with
  | none =>
    cases hp : m.prev_content with
    | none =>
      simp [decodeMemberEvent, serializeMemberEvent, hi, hp, getField, getOptField,
        Value.get, List.lookup, eventTypeDecode, decodeString, memberContent_roundtrip,
        h2, bind, Except.bind, pure, Except.pure]
      rw [← hi, ← hp]
    | some p =>
      simp [decodeMemberEvent, serializeMemberEvent, hi, hp, getField, getOptField,
        Value.get, List.lookup, eventTypeDecode, decodeString, memberContent_roundtrip,
        isNull_serializeMemberEventContent, h2, bind, Except.bind, pure, Except.pure]
      rw [← hi, ← hp]
  | some l =>
    rw [hi] at hs
    cases hp : m.prev_content with
    | none =>
      simp [decodeMemberEvent, serializeMemberEvent, hi, hp, getField, getOptField,
        Value.get, List.lookup, eventTypeDecode, decodeString, memberContent_roundtrip,
        isNull_arr, decodeStrippedStateList, strippedList_roundtrip l hs,
        h2, bind, Except.bind, pure, Except.pure]
      rw [← hi, ← hp]
    | some p =>
      simp [decodeMemberEvent, serializeMemberEvent, hi, hp, getField, getOptField,
        Value.get, List.lookup, eventTypeDecode, decodeString, memberContent_roundtrip,
        isNull_arr, decodeStrippedStateList, strippedList_roundtrip l hs,
        isNull_serializeMemberEventContent, h2, bind, Except.bind, pure, Except.pure]
      rw [← hi, ← hp]

theorem resolveType_serializeBasicShell (b : BasicShell) :
    resolveType (serializeBasicShell b) = .ok (eventTypeFromString b.event_type.toTagString) := by
  simp [resolveType, serializeBasicShell, Value.get, List.lookup, eventTypeDecode]

theorem resolveType_serializeRoomShell (r : RoomShell) :
    resolveType (serializeRoomShell r) = .ok (eventTypeFromString r.event_type.toTagString) := by
  simp [resolveType, serializeRoomShell, Value.get, List.lookup, eventTypeDecode]

theorem resolveType_serializeStateShell (s : StateShell) :
    resolveType (serializeStateShell s) = .ok (eventTypeFromString s.event_type.toTagString) := by
  simp [resolveType, serializeStateShell, Value.get, List.lookup, eventTypeDecode]

theorem resolveType_serializeMemberEvent (m : MemberEvent) :
    resolveType (serializeMemberEvent m) = .ok (eventTypeFromString m.event_type.toTagString) := by
  simp [resolveType, serializeMemberEvent, Value.get, List.lookup, eventTypeDecode]

theorem resolveType_serializeTypingEvent (t : TypingEvent) :
    resolveType (serializeTypingEvent t) = .ok (eventTypeFromString t.event_type.toTagString) := by
  simp [resolveType, serializeTypingEvent, Value.get, List.lookup, eventTypeDecode]

/-- Claim C6 (amended): for every concrete per-kind event value whose
envelope type tag is its kind's own registered tag (and whose embedded
stripped-state tags survive the registry round trip), decoding the
serialization of the value at each union level that accepts its kind
succeeds and yields exactly the union variant for that kind wrapping the
value itself. -/
theorem claim_c6_round_trip (k : PerKind) (hk : k.wellFormed) :
    all.Event.deserialize k.encode = .ok k.toEvent ∧
    (∀ r, k.toRoomEvent = some r → all.RoomEvent.deserialize k.encode = .ok r) ∧
    (∀ s, k.toStateEvent = some s → all.StateEvent.deserialize k.encode = .ok s) := by
  obtain ⟨ht, hemb⟩ := hk
  cases k with
  | callAnswer e =>
    simp only [PerKind.heldTag, PerKind.kindTag] at ht
    simp only [PerKind.encode, PerKind.toEvent, PerKind.toRoomEvent, PerKind.toStateEvent]
    have htr : tagRoundTrips e.event_type := by
      rw [ht]; exact tagRoundTrips_registered _ rfl
    refine ⟨?_, fun r hr => ?_, fun s hs => ?_⟩
    · simp [all.Event.deserialize, resolveType_serializeRoomShell, ht,
        all.Event.dispatch, roomShell_roundtrip e htr, eventTypeFromString, EventType.toTagString]
    · injection hr with hr2
      subst hr2
      simp [all.RoomEvent.deserialize, resolveType_serializeRoomShell, ht,
        all.RoomEvent.dispatch, roomShell_roundtrip e htr, eventTypeFromString, EventType.toTagString]
    · exact Option.noConfusion hs
  | callCandidates e =>
    simp only [PerKind.heldTag, PerKind.kindTag] at ht
    simp only [PerKind.encode, PerKind.toEvent, PerKind.toRoomEvent, PerKind.toStateEvent]
    have htr : tagRoundTrips e.event_type := by
      rw [ht]; exact tagRoundTrips_registered _ rfl
    refine ⟨?_, fun r hr => ?_, fun s hs => ?_⟩
    · simp [all.Event.deserialize, resolveType_serializeRoomShell, ht,
        all.Event.dispatch, roomShell_roundtrip e htr, eventTypeFromString, EventType.toTagString]
    · injection hr with hr2
      subst hr2
      simp [all.RoomEvent.deserialize, resolveType_serializeRoomShell, ht,
        all.RoomEvent.dispatch, roomShell_roundtrip e htr, eventTypeFromString, EventType.toTagString]
    · exact Option.noConfusion hs
  | callHangup e =>
    simp only [PerKind.heldTag, PerKind.kindTag] at ht
    simp only [PerKind.encode, PerKind.toEvent, PerKind.toRoomEvent, PerKind.toStateEvent]
    have htr : tagRoundTrips e.event_type := by
      rw [ht]; exact tagRoundTrips_registered _ rfl
    refine ⟨?_, fun r hr => ?_, fun s hs => ?_⟩
    · simp [all.Event.deserialize, resolveType_serializeRoomShell, ht,
        all.Event.dispatch, roomShell_roundtrip e htr, eventTypeFromString, EventType.toTagString]
    · injection hr with hr2
      subst hr2
      simp [all.RoomEvent.deserialize, resolveType_serializeRoomShell, ht,
        all.RoomEvent.dispatch, roomShell_roundtrip e htr, eventTypeFromString, EventType.toTagString]
    · exact Option.noConfusion hs
  | callInvite e =>
    simp only [PerKind.heldTag, PerKind.kindTag] at ht
    simp only [PerKind.encode, PerKind.toEvent, PerKind.toRoomEvent, PerKind.toStateEvent]
    have htr : tagRoundTrips e.event_type := by
      rw [ht]; exact tagRoundTrips_registered _ rfl
    refine ⟨?_, fun r hr => ?_, fun s hs => ?_⟩
    · simp [all.Event.deserialize, resolveType_serializeRoomShell, ht,
        all.Event.dispatch, roomShell_roundtrip e htr, eventTypeFromString, EventType.toTagString]
    · injection hr with hr2
      subst hr2
      simp [all.RoomEvent.deserialize, resolveType_serializeRoomShell, ht,
        all.RoomEvent.dispatch, roomShell_roundtrip e htr, eventTypeFromString, EventType.toTagString]
    · exact Option.noConfusion hs
  | presence e =>
    simp only [PerKind.heldTag, PerKind.kindTag] at ht
    simp only [PerKind.encode, PerKind.toEvent, PerKind.toRoomEvent, PerKind.toStateEvent]
    have htr : tagRoundTrips e.event_type := by
      rw [ht]; exact tagRoundTrips_registered _ rfl
    refine ⟨?_, fun r hr => ?_, fun s hs => ?_⟩
    · simp [all.Event.deserialize, resolveType_serializeBasicShell, ht,
        all.Event.dispatch, basicShell_roundtrip e htr, eventTypeFromString, EventType.toTagString]
    · exact Option.noConfusion hr
    · exact Option.noConfusion hs
  | receipt e =>
    simp only [PerKind.heldTag, PerKind.kindTag] at ht
    simp only [PerKind.encode, PerKind.toEvent, PerKind.toRoomEvent, PerKind.toStateEvent]
    have htr : tagRoundTrips e.event_type := by
      rw [ht]; exact tagRoundTrips_registered _ rfl
    refine ⟨?_, fun r hr => ?_, fun s hs => ?_⟩
    · simp [all.Event.deserialize, resolveType_serializeBasicShell, ht,
        all.Event.dispatch, basicShell_roundtrip e htr, eventTypeFromString, EventType.toTagString]
    · exact Option.noConfusion hr
    · exact Option.noConfusion hs
  | roomAliases e =>
    simp only [PerKind.heldTag, PerKind.kindTag] at ht
    simp only [PerKind.encode, PerKind.toEvent, PerKind.toRoomEvent, PerKind.toStateEvent]
    have htr : tagRoundTrips e.event_type := by
      rw [ht]; exact tagRoundTrips_registered _ rfl
    refine ⟨?_, fun r hr => ?_, fun s hs => ?_⟩
    · simp [all.Event.deserialize, resolveType_serializeStateShell, ht,
        all.Event.dispatch, stateShell_roundtrip e htr, eventTypeFromString, EventType.toTagString]
    · injection hr with hr2
      subst hr2
      simp [all.RoomEvent.deserialize, resolveType_serializeStateShell, ht,
        all.RoomEvent.dispatch, stateShell_roundtrip e htr, eventTypeFromString, EventType.toTagString]
    · injection hs with hs2
      subst hs2
      simp [all.StateEvent.deserialize, resolveType_serializeStateShell, ht,
        all.StateEvent.dispatch, stateShell_roundtrip e htr, eventTypeFromString, EventType.toTagString]
  | roomAvatar e =>
    simp only [PerKind.heldTag, PerKind.kindTag] at ht
    simp only [PerKind.encode, PerKind.toEvent, PerKind.toRoomEvent, PerKind.toStateEvent]
    have htr : tagRoundTrips e.event_type := by
      rw [ht]; exact tagRoundTrips_registered _ rfl
    refine ⟨?_, fun r hr => ?_, fun s hs => ?_⟩
    · simp [all.Event.deserialize, resolveType_serializeStateShell, ht,
        all.Event.dispatch, stateShell_roundtrip e htr, eventTypeFromString, EventType.toTagString]
    · injection hr with hr2
      subst hr2
      simp [all.RoomEvent.deserialize, resolveType_serializeStateShell, ht,
        all.RoomEvent.dispatch, stateShell_roundtrip e htr, eventTypeFromString, EventType.toTagString]
    · injection hs with hs2
      subst hs2
      simp [all.StateEvent.deserialize, resolveType_serializeStateShell, ht,
        all.StateEvent.dispatch, stateShell_roundtrip e htr, eventTypeFromString, EventType.toTagString]
  | roomCanonicalAlias e =>
    simp only [PerKind.heldTag, PerKind.kindTag] at ht
    simp only [PerKind.encode, PerKind.toEvent, PerKind.toRoomEvent, PerKind.toStateEvent]
    have htr : tagRoundTrips e.event_type := by
      rw [ht]; exact tagRoundTrips_registered _ rfl
    refine ⟨?_, fun r hr => ?_, fun s hs => ?_⟩
    · simp [all.Event.deserialize, resolveType_serializeStateShell, ht,
        all.Event.dispatch, stateShell_roundtrip e htr, eventTypeFromString, EventType.toTagString]
    · injection hr with hr2
      subst hr2
      simp [all.RoomEvent.deserialize, resolveType_serializeStateShell, ht,
        all.RoomEvent.dispatch, stateShell_roundtrip e htr, eventTypeFromString, EventType.toTagString]
    · injection hs with hs2
      subst hs2
      simp [all.StateEvent.deserialize, resolveType_serializeStateShell, ht,
        all.StateEvent.dispatch, stateShell_roundtrip e htr, eventTypeFromString, EventType.toTagString]
  | roomCreate e =>
    simp only [PerKind.heldTag, PerKind.kindTag] at ht
    simp only [PerKind.encode, PerKind.toEvent, PerKind.toRoomEvent, PerKind.toStateEvent]
    have htr : tagRoundTrips e.event_type := by
      rw [ht]; exact tagRoundTrips_registered _ rfl
    refine ⟨?_, fun r hr => ?_, fun s hs => ?_⟩
    · simp [all.Event.deserialize, resolveType_serializeStateShell, ht,
        all.Event.dispatch, stateShell_roundtrip e htr, eventTypeFromString, EventType.toTagString]
    · injection hr with hr2
      subst hr2
      simp [all.RoomEvent.deserialize, resolveType_serializeStateShell, ht,
        all.RoomEvent.dispatch, stateShell_roundtrip e htr, eventTypeFromString, EventType.toTagString]
    · injection hs with hs2
      subst hs2
      simp [all.StateEvent.deserialize, resolveType_serializeStateShell, ht,
        all.StateEvent.dispatch, stateShell_roundtrip e htr, eventTypeFromString, EventType.toTagString]
  | roomGuestAccess e =>
    simp only [PerKind.heldTag, PerKind.kindTag] at ht
    simp only [PerKind.encode, PerKind.toEvent, PerKind.toRoomEvent, PerKind.toStateEvent]
    have htr : tagRoundTrips e.event_type := by
      rw [ht]; exact tagRoundTrips_registered _ rfl
    refine ⟨?_, fun r hr => ?_, fun s hs => ?_⟩
    · simp [all.Event.deserialize, resolveType_serializeStateShell, ht,
        all.Event.dispatch, stateShell_roundtrip e htr, eventTypeFromString, EventType.toTagString]
    · injection hr with hr2
      subst hr2
      simp [all.RoomEvent.deserialize, resolveType_serializeStateShell, ht,
        all.RoomEvent.dispatch, stateShell_roundtrip e htr, eventTypeFromString, EventType.toTagString]
    · injection hs with hs2
      subst hs2
      simp [all.StateEvent.deserialize, resolveType_serializeStateShell, ht,
        all.StateEvent.dispatch, stateShell_roundtrip e htr, eventTypeFromString, EventType.toTagString]
  | roomHistoryVisibility e =>
    simp only [PerKind.heldTag, PerKind.kindTag] at ht
    simp only [PerKind.encode, PerKind.toEvent, PerKind.toRoomEvent, PerKind.toStateEvent]
    have htr : tagRoundTrips e.event_type := by
      rw [ht]; exact tagRoundTrips_registered _ rfl
    refine ⟨?_, fun r hr => ?_, fun s hs => ?_⟩
    · simp [all.Event.deserialize, resolveType_serializeStateShell, ht,
        all.Event.dispatch, stateShell_roundtrip e htr, eventTypeFromString, EventType.toTagString]
    · injection hr with hr2
      subst hr2
      simp [all.RoomEvent.deserialize, resolveType_serializeStateShell, ht,
        all.RoomEvent.dispatch, stateShell_roundtrip e htr, eventTypeFromString, EventType.toTagString]
    · injection hs with hs2
      subst hs2
      simp [all.StateEvent.deserialize, resolveType_serializeStateShell, ht,
        all.StateEvent.dispatch, stateShell_roundtrip e htr, eventTypeFromString, EventType.toTagString]
  | roomJoinRules e =>
    simp only [PerKind.heldTag, PerKind.kindTag] at ht
    simp only [PerKind.encode, PerKind.toEvent, PerKind.toRoomEvent, PerKind.toStateEvent]
    have htr : tagRoundTrips e.event_type := by
      rw [ht]; exact tagRoundTrips_registered _ rfl
    refine ⟨?_, fun r hr => ?_, fun s hs => ?_⟩
    · simp [all.Event.deserialize, resolveType_serializeStateShell, ht,
        all.Event.dispatch, stateShell_roundtrip e htr, eventTypeFromString, EventType.toTagString]
    · injection hr with hr2
      subst hr2
      simp [all.RoomEvent.deserialize, resolveType_serializeStateShell, ht,
        all.RoomEvent.dispatch, stateShell_roundtrip e htr, eventTypeFromString, EventType.toTagString]
    · injection hs with hs2
      subst hs2
      simp [all.StateEvent.deserialize, resolveType_serializeStateShell, ht,
        all.StateEvent.dispatch, stateShell_roundtrip e htr, eventTypeFromString, EventType.toTagString]
  | roomMember e =>
    simp only [PerKind.heldTag, PerKind.kindTag] at ht
    simp only [PerKind.embeddedTagsOk] at hemb
    simp only [PerKind.encode, PerKind.toEvent, PerKind.toRoomEvent, PerKind.toStateEvent]
    have htr : tagRoundTrips e.event_type := by
      rw [ht]; exact tagRoundTrips_registered _ rfl
    refine ⟨?_, fun r hr => ?_, fun s hs => ?_⟩
    · simp [all.Event.deserialize, resolveType_serializeMemberEvent, ht,
        all.Event.dispatch, memberEvent_roundtrip e htr hemb, eventTypeFromString, EventType.toTagString]
    · injection hr with hr2
      subst hr2
      simp [all.RoomEvent.deserialize, resolveType_serializeMemberEvent, ht,
        all.RoomEvent.dispatch, memberEvent_roundtrip e htr hemb, eventTypeFromString, EventType.toTagString]
    · injection hs with hs2
      subst hs2
      simp [all.StateEvent.deserialize, resolveType_serializeMemberEvent, ht,
        all.StateEvent.dispatch, memberEvent_roundtrip e htr hemb, eventTypeFromString, EventType.toTagString]
  | roomMessage e =>
    simp only [PerKind.heldTag, PerKind.kindTag] at ht
    simp only [PerKind.encode, PerKind.toEvent, PerKind.toRoomEvent, PerKind.toStateEvent]
    have htr : tagRoundTrips e.event_type := by
      rw [ht]; exact tagRoundTrips_registered _ rfl
    refine ⟨?_, fun r hr => ?_, fun s hs => ?_⟩
    · simp [all.Event.deserialize, resolveType_serializeRoomShell, ht,
        all.Event.dispatch, roomShell_roundtrip e htr, eventTypeFromString, EventType.toTagString]
    · injection hr with hr2
      subst hr2
      simp [all.RoomEvent.deserialize, resolveType_serializeRoomShell, ht,
        all.RoomEvent.dispatch, roomShell_roundtrip e htr, eventTypeFromString, EventType.toTagString]
    · exact Option.noConfusion hs
  | roomName e =>
    simp only [PerKind.heldTag, PerKind.kindTag] at ht
    simp only [PerKind.encode, PerKind.toEvent, PerKind.toRoomEvent, PerKind.toStateEvent]
    have htr : tagRoundTrips e.event_type := by
      rw [ht]; exact tagRoundTrips_registered _ rfl
    refine ⟨?_, fun r hr => ?_, fun s hs => ?_⟩
    · simp [all.Event.deserialize, resolveType_serializeStateShell, ht,
        all.Event.dispatch, stateShell_roundtrip e htr, eventTypeFromString, EventType.toTagString]
    · injection hr with hr2
      subst hr2
      simp [all.RoomEvent.deserialize, resolveType_serializeStateShell, ht,
        all.RoomEvent.dispatch, stateShell_roundtrip e htr, eventTypeFromString, EventType.toTagString]
    · injection hs with hs2
      subst hs2
      simp [all.StateEvent.deserialize, resolveType_serializeStateShell, ht,
        all.StateEvent.dispatch, stateShell_roundtrip e htr, eventTypeFromString, EventType.toTagString]
  | roomPowerLevels e =>
    simp only [PerKind.heldTag, PerKind.kindTag] at ht
    simp only [PerKind.encode, PerKind.toEvent, PerKind.toRoomEvent, PerKind.toStateEvent]
    have htr : tagRoundTrips e.event_type := by
      rw [ht]; exact tagRoundTrips_registered _ rfl
    refine ⟨?_, fun r hr => ?_, fun s hs => ?_⟩
    · simp [all.Event.deserialize, resolveType_serializeStateShell, ht,
        all.Event.dispatch, stateShell_roundtrip e htr, eventTypeFromString, EventType.toTagString]
    · injection hr with hr2
      subst hr2
      simp [all.RoomEvent.deserialize, resolveType_serializeStateShell, ht,
        all.RoomEvent.dispatch, stateShell_roundtrip e htr, eventTypeFromString, EventType.toTagString]
    · injection hs with hs2
      subst hs2
      simp [all.StateEvent.deserialize, resolveType_serializeStateShell, ht,
        all.StateEvent.dispatch, stateShell_roundtrip e htr, eventTypeFromString, EventType.toTagString]
  | roomRedaction e =>
    simp only [PerKind.heldTag, PerKind.kindTag] at ht
    simp only [PerKind.encode, PerKind.toEvent, PerKind.toRoomEvent, PerKind.toStateEvent]
    have htr : tagRoundTrips e.event_type := by
      rw [ht]; exact tagRoundTrips_registered _ rfl
    refine ⟨?_, fun r hr => ?_, fun s hs => ?_⟩
    · simp [all.Event.deserialize, resolveType_serializeRoomShell, ht,
        all.Event.dispatch, roomShell_roundtrip e htr, eventTypeFromString, EventType.toTagString]
    · injection hr with hr2
      subst hr2
      simp [all.RoomEvent.deserialize, resolveType_serializeRoomShell, ht,
        all.RoomEvent.dispatch, roomShell_roundtrip e htr, eventTypeFromString, EventType.toTagString]
    · exact Option.noConfusion hs
  | roomThirdPartyInvite e =>
    simp only [PerKind.heldTag, PerKind.kindTag] at ht
    simp only [PerKind.encode, PerKind.toEvent, PerKind.toRoomEvent, PerKind.toStateEvent]
    have htr : tagRoundTrips e.event_type := by
      rw [ht]; exact tagRoundTrips_registered _ rfl
    refine ⟨?_, fun r hr => ?_, fun s hs => ?_⟩
    · simp [all.Event.deserialize, resolveType_serializeStateShell, ht,
        all.Event.dispatch, stateShell_roundtrip e htr, eventTypeFromString, EventType.toTagString]
    · injection hr with hr2
      subst hr2
      simp [all.RoomEvent.deserialize, resolveType_serializeStateShell, ht,
        all.RoomEvent.dispatch, stateShell_roundtrip e htr, eventTypeFromString, EventType.toTagString]
    · injection hs with hs2
      subst hs2
      simp [all.StateEvent.deserialize, resolveType_serializeStateShell, ht,
        all.StateEvent.dispatch, stateShell_roundtrip e htr, eventTypeFromString, EventType.toTagString]
  | roomTopic e =>
    simp only [PerKind.heldTag, PerKind.kindTag] at ht
    simp only [PerKind.encode, PerKind.toEvent, PerKind.toRoomEvent, PerKind.toStateEvent]
    have htr : tagRoundTrips e.event_type := by
      rw [ht]; exact tagRoundTrips_registered _ rfl
    refine ⟨?_, fun r hr => ?_, fun s hs => ?_⟩
    · simp [all.Event.deserialize, resolveType_serializeStateShell, ht,
        all.Event.dispatch, stateShell_roundtrip e htr, eventTypeFromString, EventType.toTagString]
    · injection hr with hr2
      subst hr2
      simp [all.RoomEvent.deserialize, resolveType_serializeStateShell, ht,
        all.RoomEvent.dispatch, stateShell_roundtrip e htr, eventTypeFromString, EventType.toTagString]
    · injection hs with hs2
      subst hs2
      simp [all.StateEvent.deserialize, resolveType_serializeStateShell, ht,
        all.StateEvent.dispatch, stateShell_roundtrip e htr, eventTypeFromString, EventType.toTagString]
  | tag e =>
    simp only [PerKind.heldTag, PerKind.kindTag] at ht
    simp only [PerKind.encode, PerKind.toEvent, PerKind.toRoomEvent, PerKind.toStateEvent]
    have htr : tagRoundTrips e.event_type := by
      rw [ht]; exact tagRoundTrips_registered _ rfl
    refine ⟨?_, fun r hr => ?_, fun s hs => ?_⟩
    · simp [all.Event.deserialize, resolveType_serializeBasicShell, ht,
        all.Event.dispatch, basicShell_roundtrip e htr, eventTypeFromString, EventType.toTagString]
    · exact Option.noConfusion hr
    · exact Option.noConfusion hs
  | typing e =>
    simp only [PerKind.heldTag, PerKind.kindTag] at ht
    simp only [PerKind.encode, PerKind.toEvent, PerKind.toRoomEvent, PerKind.toStateEvent]
    have htr : tagRoundTrips e.event_type := by
      rw [ht]; exact tagRoundTrips_registered _ rfl
    refine ⟨?_, fun r hr => ?_, fun s hs => ?_⟩
    · simp [all.Event.deserialize, resolveType_serializeTypingEvent, ht,
        all.Event.dispatch, typingEvent_roundtrip e htr, eventTypeFromString, EventType.toTagString]
    · exact Option.noConfusion hr
    · exact Option.noConfusion hs

/-- Witness for C6: the member value round-trips at the general and state
levels. -/
theorem claim_c6_round_trip_witness :
    all.Event.deserialize (PerKind.roomMember memberVal).encode =
      .ok (PerKind.roomMember memberVal).toEvent ∧
    all.StateEvent.deserialize (PerKind.roomMember memberVal).encode =
      .ok (all.StateEvent.RoomMember memberVal) :=
  ⟨(claim_c6_round_trip (PerKind.roomMember memberVal) ⟨rfl, trivial⟩).1,
   (claim_c6_round_trip (PerKind.roomMember memberVal) ⟨rfl, trivial⟩).2.2 _ rfl⟩

/-- Counterexample to C6 as stated: a member value whose envelope tag field
is an unregistered tag serializes with that tag, so decoding its
serialization classifies it as a custom state event, not as the member
variant wrapping the value. -/
theorem claim_c6_counterexample :
    all.Event.deserialize (PerKind.roomMember misTaggedMember).encode ≠
      .ok (PerKind.roomMember misTaggedMember).toEvent := fun h =>
  all.Event.noConfusion (Except.ok.inj h)

/-- Claim C4: a document lacking a top-level `type` field fails to decode
at every union level - Event, RoomEvent, StateEvent and the two
Only-unions - with the missing-field error for `type`, never recovered
into an Invalid or Custom variant. -/
theorem claim_c4_missing_discriminator (v : Value) (h : v.get "type" = none) :
    all.Event.deserialize v = .error (.missingField "type") ∧
    all.RoomEvent.deserialize v = .error (.missingField "type") ∧
    all.StateEvent.deserialize v = .error (.missingField "type") ∧
    only.Event.deserialize v = .error (.missingField "type") ∧
    only.RoomEvent.deserialize v = .error (.missingField "type") := by
  have hr : resolveType v = .error (.missingField "type") := by
    simp [resolveType, h]
  simp [all.Event.deserialize, all.RoomEvent.deserialize, all.StateEvent.deserialize,
    only.Event.deserialize, only.RoomEvent.deserialize, hr]

/-- Witness for C4: the empty document fails with the missing-field error
at all five union levels. -/
theorem claim_c4_missing_discriminator_witness :
    all.Event.deserialize emptyDoc = .error (.missingField "type") ∧
    all.RoomEvent.deserialize emptyDoc = .error (.missingField "type") ∧
    all.StateEvent.deserialize emptyDoc = .error (.missingField "type") ∧
    only.Event.deserialize emptyDoc = .error (.missingField "type") ∧
    only.RoomEvent.deserialize emptyDoc = .error (.missingField "type") :=
  claim_c4_missing_discriminator emptyDoc rfl

/-- Claim C9 (amended): the tag resolver succeeds for every document whose
`type` field holds a string - unrecognized strings are absorbed into the
Custom tag - and its only failures are a missing `type` field or a
non-string `type` value. -/
theorem claim_c9_resolver_total_on_strings (v : Value) (s : String)
    (h : v.get "type" = some (.str s)) :
    resolveType v = .ok (eventTypeFromString s) := by
  simp [resolveType, h, eventTypeDecode]

/-- Witness for C9: an unregistered string tag resolves to the Custom
tag rather than an error. -/
theorem claim_c9_resolver_total_on_strings_witness :
    resolveType (.obj [("type", .str "x.unknown")]) = .ok (.custom "x.unknown") :=
  claim_c9_resolver_total_on_strings (.obj [("type", .str "x.unknown")]) "x.unknown" rfl

/-- Counterexample to C9 as stated: a document whose `type` field is
present but holds a number fails tag resolution (and the union decode fails
with that error), so resolution is not total on all documents carrying a
`type` field. -/
theorem claim_c9_counterexample :
    resolveType numberTagDoc =
      .error (.custom "invalid type: expected an event type string") ∧
    all.Event.deserialize numberTagDoc =
      .error (.custom "invalid type: expected an event type string") :=
  ⟨rfl, rfl⟩

/-- Claim C2: in the `Event` deserializer, a document with an unregistered
tag and a `state_key` field present is decoded as `CustomState` (or
surfaces that decode's error), never as `CustomRoom` or `Custom`, no
matter which other fields are present. -/
theorem claim_c2_structural_tie_break (v : Value) (s : String)
    (hres : resolveType v = .ok (.custom s))
    (hk : (v.get "state_key").isSome = true) :
    all.Event.deserialize v =
      (match decodeStateShell v with
       | .ok e => .ok (.CustomState e)
       | .error e => .error (.custom e)) ∧
    (∀ e, all.Event.deserialize v ≠ .ok (.CustomRoom e)) ∧
    (∀ e, all.Event.deserialize v ≠ .ok (.Custom e)) := by
  have h1 : all.Event.deserialize v =
      (match decodeStateShell v with
       | .ok e => .ok (.CustomState e)
       | .error e => .error (.custom e)) := by
    simp [all.Event.deserialize, hres, all.Event.dispatch, hk]
  refine ⟨h1, ?_, ?_⟩ <;> intro e he <;> rw [h1] at he <;>
    cases hd : decodeStateShell v <;> rw [hd] at he <;> simp at he

/-- Witness for C2: a document with tag `x.custom`, a `state_key` and all
of `event_id`, `room_id`, `sender` decodes to `CustomState`, and not to
`CustomRoom`. -/
theorem claim_c2_structural_tie_break_witness :
    all.Event.deserialize customBothDoc = .ok (.CustomState
      { content := .obj [], event_type := .custom "x.custom",
        event_id := "$143273582443PhrSn:example.org", prev_content := none,
        room_id := "!jEsUZKDJdhlrceRyVU:example.org",
        sender := "@alice:example.org", state_key := "a" }) ∧
    all.Event.deserialize customBothDoc ≠ .ok (.CustomRoom
      { content := .obj [], event_type := .custom "x.custom",
        event_id := "$143273582443PhrSn:example.org",
        room_id := "!jEsUZKDJdhlrceRyVU:example.org",
        sender := "@alice:example.org" }) :=
  ⟨((claim_c2_structural_tie_break customBothDoc "x.custom" rfl rfl).1).trans rfl,
   (claim_c2_structural_tie_break customBothDoc "x.custom" rfl rfl).2.1 _⟩

/-- Claim C10: the full structural heuristic lives only in the `Event`
deserializer. In `RoomEvent`, a custom-tag document without `state_key`
goes straight to the `CustomRoomEvent` decode with no check of `event_id`,
`room_id` or `sender` presence; in `StateEvent`, a custom-tag document
goes straight to the `CustomStateEvent` decode with no structural check at
all. Failures of these decodes surface directly. -/
theorem claim_c10_structural_checks (v : Value) (s : String)
    (hres : resolveType v = .ok (.custom s)) :
    ((v.get "state_key").isSome = false →
      all.RoomEvent.deserialize v =
        (match decodeRoomShell v with
         | .ok e => .ok (.CustomRoom e)
         | .error e => .error (.custom e))) ∧
    all.StateEvent.deserialize v =
      (match decodeStateShell v with
       | .ok e => .ok (.CustomState e)
       | .error e => .error (.custom e)) := by
  constructor
  · intro hk
    simp [all.RoomEvent.deserialize, hres, all.RoomEvent.dispatch, hk]
  · simp [all.StateEvent.deserialize, hres, all.StateEvent.dispatch]

/-- Witness for C10: a custom-tag document with no `state_key` and none of
the room-identifying fields is still routed to the `CustomRoomEvent`
decode in `RoomEvent`, whose envelope failure surfaces directly; the same
document is routed to the `CustomStateEvent` decode in `StateEvent`. -/
theorem claim_c10_structural_checks_witness :
    all.RoomEvent.deserialize (.obj [("type", .str "x.custom"), ("content", .obj [])]) =
      .error (.custom "missing field event_id") ∧
    all.StateEvent.deserialize (.obj [("type", .str "x.custom"), ("content", .obj [])]) =
      .error (.custom "missing field event_id") :=
  ⟨((claim_c10_structural_checks
      (.obj [("type", .str "x.custom"), ("content", .obj [])]) "x.custom" rfl).1 rfl).trans rfl,
   ((claim_c10_structural_checks
      (.obj [("type", .str "x.custom"), ("content", .obj [])]) "x.custom" rfl).2).trans rfl⟩

/-- Claim C5: a registered tag whose kind does not belong to a union's
taxonomy level fails that union's decode with the dedicated
not-applicable error and is never recovered into an Invalid or Custom
variant; in particular `m.room.member` decodes against the full
`RoomEvent` union but fails against the only-room union. -/
theorem claim_c5_not_applicable :
    (∀ v et, resolveType v = .ok et →
      (et = .presence ∨ et = .receipt ∨ et = .tag ∨ et = .typing) →
      all.RoomEvent.deserialize v = .error (.custom "not a room event")) ∧
    (∀ v et, resolveType v = .ok et →
      (et = .callAnswer ∨ et = .callCandidates ∨ et = .callHangup ∨
       et = .callInvite ∨ et = .presence ∨ et = .receipt ∨
       et = .roomMessage ∨ et = .roomRedaction ∨ et = .tag ∨ et = .typing) →
      all.StateEvent.deserialize v = .error (.custom "not a state event")) ∧
    (∀ v et, resolveType v = .ok et →
      (et = .callAnswer ∨ et = .callCandidates ∨ et = .callHangup ∨
       et = .callInvite ∨ et = .roomAliases ∨ et = .roomAvatar ∨
       et = .roomCanonicalAlias ∨ et = .roomCreate ∨ et = .roomGuestAccess ∨
       et = .roomHistoryVisibility ∨ et = .roomJoinRules ∨ et = .roomMember ∨
       et = .roomMessage ∨ et = .roomName ∨ et = .roomPowerLevels ∨
       et = .roomRedaction ∨ et = .roomThirdPartyInvite ∨ et = .roomTopic) →
      only.Event.deserialize v = .error (.custom "not exclusively a basic event")) ∧
    (∀ v et, resolveType v = .ok et →
      (et = .presence ∨ et = .receipt ∨ et = .roomAliases ∨ et = .roomAvatar ∨
       et = .roomCanonicalAlias ∨ et = .roomCreate ∨ et = .roomGuestAccess ∨
       et = .roomHistoryVisibility ∨ et = .roomJoinRules ∨ et = .roomMember ∨
       et = .roomName ∨ et = .roomPowerLevels ∨ et = .roomThirdPartyInvite ∨
       et = .roomTopic ∨ et = .tag ∨ et = .typing) →
      only.RoomEvent.deserialize v = .error (.custom "not exclusively a room event")) ∧
    all.RoomEvent.deserialize memberDoc = .ok (.RoomMember memberVal) ∧
    only.RoomEvent.deserialize memberDoc = .error (.custom "not exclusively a room event") := by
  refine ⟨?_, ?_, ?_, ?_, rfl, rfl⟩ <;> intro v et hres hmem
  · rcases hmem with rfl | rfl | rfl | rfl <;>
      simp [all.RoomEvent.deserialize, hres, all.RoomEvent.dispatch]
  · rcases hmem with rfl | rfl | rfl | rfl | rfl | rfl | rfl | rfl | rfl | rfl <;>
      simp [all.StateEvent.deserialize, hres, all.StateEvent.dispatch]
  · rcases hmem with rfl | rfl | rfl | rfl | rfl | rfl | rfl | rfl | rfl | rfl |
      rfl | rfl | rfl | rfl | rfl | rfl | rfl | rfl <;>
      simp [only.Event.deserialize, hres, only.Event.dispatch]
  · rcases hmem with rfl | rfl | rfl | rfl | rfl | rfl | rfl | rfl | rfl | rfl |
      rfl | rfl | rfl | rfl | rfl | rfl <;>
      simp [only.RoomEvent.deserialize, hres, only.RoomEvent.dispatch]

/-- Witness for C5: the member document fails the only-room union with the
not-applicable error, by the general part of the claim. -/
theorem claim_c5_not_applicable_witness :
    only.RoomEvent.deserialize memberDoc =
      .error (.custom "not exclusively a room event") :=
  claim_c5_not_applicable.2.2.2.1 memberDoc .roomMember rfl (by decide)

/-- Claim C8: union serialization is pure delegation - for every union
value at each of the five union levels, serializing the union value equals
serializing the concrete value held by the active variant, with no extra
union tag emitted. The `From` lifts stamped by the
`impl_from_t_for_event!` macro family are exactly the variant constructors
used here, so lifting a concrete value into a union and serializing yields
the same output as serializing the value directly. -/
theorem claim_c8_serialize_delegation
    (b : BasicShell) (r : RoomShell) (st : StateShell) (m : MemberEvent)
    (t : TypingEvent) (ie : InvalidEvent) (ire : InvalidRoomEvent)
    (ise : InvalidStateEvent) :
    all.Event.serialize (.CallAnswer r) = serializeRoomShell r ∧
    all.Event.serialize (.CallCandidates r) = serializeRoomShell r ∧
    all.Event.serialize (.CallHangup r) = serializeRoomShell r ∧
    all.Event.serialize (.CallInvite r) = serializeRoomShell r ∧
    all.Event.serialize (.Presence b) = serializeBasicShell b ∧
    all.Event.serialize (.Receipt b) = serializeBasicShell b ∧
    all.Event.serialize (.RoomAliases st) = serializeStateShell st ∧
    all.Event.serialize (.RoomAvatar st) = serializeStateShell st ∧
    all.Event.serialize (.RoomCanonicalAlias st) = serializeStateShell st ∧
    all.Event.serialize (.RoomCreate st) = serializeStateShell st ∧
    all.Event.serialize (.RoomGuestAccess st) = serializeStateShell st ∧
    all.Event.serialize (.RoomHistoryVisibility st) = serializeStateShell st ∧
    all.Event.serialize (.RoomJoinRules st) = serializeStateShell st ∧
    all.Event.serialize (.RoomMember m) = serializeMemberEvent m ∧
    all.Event.serialize (.RoomMessage r) = serializeRoomShell r ∧
    all.Event.serialize (.RoomName st) = serializeStateShell st ∧
    all.Event.serialize (.RoomPowerLevels st) = serializeStateShell st ∧
    all.Event.serialize (.RoomRedaction r) = serializeRoomShell r ∧
    all.Event.serialize (.RoomThirdPartyInvite st) = serializeStateShell st ∧
    all.Event.serialize (.RoomTopic st) = serializeStateShell st ∧
    all.Event.serialize (.Tag b) = serializeBasicShell b ∧
    all.Event.serialize (.Typing t) = serializeTypingEvent t ∧
    all.Event.serialize (.Invalid ie) = serializeInvalidEvent ie ∧
    all.Event.serialize (.Custom b) = serializeBasicShell b ∧
    all.Event.serialize (.InvalidRoom ire) = serializeInvalidRoomEvent ire ∧
    all.Event.serialize (.CustomRoom r) = serializeRoomShell r ∧
    all.Event.serialize (.InvalidState ise) = serializeInvalidStateEvent ise ∧
    all.Event.serialize (.CustomState st) = serializeStateShell st ∧
    all.RoomEvent.serialize (.CallAnswer r) = serializeRoomShell r ∧
    all.RoomEvent.serialize (.CallCandidates r) = serializeRoomShell r ∧
    all.RoomEvent.serialize (.CallHangup r) = serializeRoomShell r ∧
    all.RoomEvent.serialize (.CallInvite r) = serializeRoomShell r ∧
    all.RoomEvent.serialize (.RoomAliases st) = serializeStateShell st ∧
    all.RoomEvent.serialize (.RoomAvatar st) = serializeStateShell st ∧
    all.RoomEvent.serialize (.RoomCanonicalAlias st) = serializeStateShell st ∧
    all.RoomEvent.serialize (.RoomCreate st) = serializeStateShell st ∧
    all.RoomEvent.serialize (.RoomGuestAccess st) = serializeStateShell st ∧
    all.RoomEvent.serialize (.RoomHistoryVisibility st) = serializeStateShell st ∧
    all.RoomEvent.serialize (.RoomJoinRules st) = serializeStateShell st ∧
    all.RoomEvent.serialize (.RoomMember m) = serializeMemberEvent m ∧
    all.RoomEvent.serialize (.RoomMessage r) = serializeRoomShell r ∧
    all.RoomEvent.serialize (.RoomName st) = serializeStateShell st ∧
    all.RoomEvent.serialize (.RoomPowerLevels st) = serializeStateShell st ∧
    all.RoomEvent.serialize (.RoomRedaction r) = serializeRoomShell r ∧
    all.RoomEvent.serialize (.RoomThirdPartyInvite st) = serializeStateShell st ∧
    all.RoomEvent.serialize (.RoomTopic st) = serializeStateShell st ∧
    all.RoomEvent.serialize (.InvalidRoom ire) = serializeInvalidRoomEvent ire ∧
    all.RoomEvent.serialize (.CustomRoom r) = serializeRoomShell r ∧
    all.RoomEvent.serialize (.InvalidState ise) = serializeInvalidStateEvent ise ∧
    all.RoomEvent.serialize (.CustomState st) = serializeStateShell st ∧
    all.StateEvent.serialize (.RoomAliases st) = serializeStateShell st ∧
    all.StateEvent.serialize (.RoomAvatar st) = serializeStateShell st ∧
    all.StateEvent.serialize (.RoomCanonicalAlias st) = serializeStateShell st ∧
    all.StateEvent.serialize (.RoomCreate st) = serializeStateShell st ∧
    all.StateEvent.serialize (.RoomGuestAccess st) = serializeStateShell st ∧
    all.StateEvent.serialize (.RoomHistoryVisibility st) = serializeStateShell st ∧
    all.StateEvent.serialize (.RoomJoinRules st) = serializeStateShell st ∧
    all.StateEvent.serialize (.RoomMember m) = serializeMemberEvent m ∧
    all.StateEvent.serialize (.RoomName st) = serializeStateShell st ∧
    all.StateEvent.serialize (.RoomPowerLevels st) = serializeStateShell st ∧
    all.StateEvent.serialize (.RoomThirdPartyInvite st) = serializeStateShell st ∧
    all.StateEvent.serialize (.RoomTopic st) = serializeStateShell st ∧
    all.StateEvent.serialize (.InvalidState ise) = serializeInvalidStateEvent ise ∧
    all.StateEvent.serialize (.CustomState st) = serializeStateShell st ∧
    only.Event.serialize (.Presence b) = serializeBasicShell b ∧
    only.Event.serialize (.Receipt b) = serializeBasicShell b ∧
    only.Event.serialize (.Tag b) = serializeBasicShell b ∧
    only.Event.serialize (.Typing t) = serializeTypingEvent t ∧
    only.Event.serialize (.Invalid ie) = serializeInvalidEvent ie ∧
    only.Event.serialize (.Custom b) = serializeBasicShell b ∧
    only.RoomEvent.serialize (.CallAnswer r) = serializeRoomShell r ∧
    only.RoomEvent.serialize (.CallCandidates r) = serializeRoomShell r ∧
    only.RoomEvent.serialize (.CallHangup r) = serializeRoomShell r ∧
    only.RoomEvent.serialize (.CallInvite r) = serializeRoomShell r ∧
    only.RoomEvent.serialize (.RoomMessage r) = serializeRoomShell r ∧
    only.RoomEvent.serialize (.RoomRedaction r) = serializeRoomShell r ∧
    only.RoomEvent.serialize (.InvalidRoom ire) = serializeInvalidRoomEvent ire ∧
    only.RoomEvent.serialize (.CustomRoom r) = serializeRoomShell r :=
  ⟨rfl, rfl, rfl, rfl, rfl, rfl, rfl, rfl, rfl, rfl, rfl, rfl, rfl, rfl, rfl, rfl, rfl, rfl, rfl, rfl, rfl, rfl, rfl, rfl, rfl, rfl, rfl, rfl, rfl, rfl, rfl, rfl, rfl, rfl, rfl, rfl, rfl, rfl, rfl, rfl, rfl, rfl, rfl, rfl, rfl, rfl, rfl, rfl, rfl, rfl, rfl, rfl, rfl, rfl, rfl, rfl, rfl, rfl, rfl, rfl, rfl, rfl, rfl, rfl, rfl, rfl, rfl, rfl, rfl, rfl, rfl, rfl, rfl, rfl, rfl, rfl, rfl, rfl⟩

theorem errOf_eq_some {x : Except String α} {e : String} (h : errOf x = some e) :
    x = .error e := by
  cases x <;> simp_all [errOf]

/-- Claim C1: whenever a registered tag's concrete per-kind decode of a
document fails but the document still decodes as the Invalid fallback of
the kind's taxonomy level, every union deserializer to which the tag is
applicable succeeds with the Invalid variant of that level, carrying the
original failure's (non-empty) error message. -/
theorem claim_c1_invalid_fallback (v : Value) (et : EventType) (e : String)
    (hres : resolveType v = .ok et) (herr : kindDecodeError et v = some e) :
    e ≠ "" ∧
    (kindFallbackLevel et = some .basic →
      ∀ ie, decodeInvalidEvent v = .ok ie →
        all.Event.deserialize v = .ok (.Invalid (ie.with_error e))) ∧
    (kindFallbackLevel et = some .room →
      ∀ ire, decodeInvalidRoomEvent v = .ok ire →
        all.Event.deserialize v = .ok (.InvalidRoom (ire.with_error e)) ∧
        all.RoomEvent.deserialize v = .ok (.InvalidRoom (ire.with_error e))) ∧
    (kindFallbackLevel et = some .state →
      ∀ ise, decodeInvalidStateEvent v = .ok ise →
        all.Event.deserialize v = .ok (.InvalidState (ise.with_error e)) ∧
        all.RoomEvent.deserialize v = .ok (.InvalidState (ise.with_error e)) ∧
        all.StateEvent.deserialize v = .ok (.InvalidState (ise.with_error e))) := by
  cases et with
  | callAnswer =>
    refine ⟨kindDecodeError_ne _ v e herr, ?_, ?_, ?_⟩
    · intro hlvl
      simp [kindFallbackLevel] at hlvl
    · intro hlvl ire hie
      have hd : decodeRoomShell v = .error e := errOf_eq_some (by simpa [kindDecodeError] using herr)
      constructor
      · simp [all.Event.deserialize, hres, all.Event.dispatch, hd,
          all.Event.invalidRoomEvent, hie]
      · simp [all.RoomEvent.deserialize, hres, all.RoomEvent.dispatch, hd,
          all.RoomEvent.invalidRoomEvent, hie]
    · intro hlvl
      simp [kindFallbackLevel] at hlvl
  | callCandidates =>
    refine ⟨kindDecodeError_ne _ v e herr, ?_, ?_, ?_⟩
    · intro hlvl
      simp [kindFallbackLevel] at hlvl
    · intro hlvl ire hie
      have hd : decodeRoomShell v = .error e := errOf_eq_some (by simpa [kindDecodeError] using herr)
      constructor
      · simp [all.Event.deserialize, hres, all.Event.dispatch, hd,
          all.Event.invalidRoomEvent, hie]
      · simp [all.RoomEvent.deserialize, hres, all.RoomEvent.dispatch, hd,
          all.RoomEvent.invalidRoomEvent, hie]
    · intro hlvl
      simp [kindFallbackLevel] at hlvl
  | callHangup =>
    refine ⟨kindDecodeError_ne _ v e herr, ?_, ?_, ?_⟩
    · intro hlvl
      simp [kindFallbackLevel] at hlvl
    · intro hlvl ire hie
      have hd : decodeRoomShell v = .error e := errOf_eq_some (by simpa [kindDecodeError] using herr)
      constructor
      · simp [all.Event.deserialize, hres, all.Event.dispatch, hd,
          all.Event.invalidRoomEvent, hie]
      · simp [all.RoomEvent.deserialize, hres, all.RoomEvent.dispatch, hd,
          all.RoomEvent.invalidRoomEvent, hie]
    · intro hlvl
      simp [kindFallbackLevel] at hlvl
  | callInvite =>
    refine ⟨kindDecodeError_ne _ v e herr, ?_, ?_, ?_⟩
    · intro hlvl
      simp [kindFallbackLevel] at hlvl
    · intro hlvl ire hie
      have hd : decodeRoomShell v = .error e := errOf_eq_some (by simpa [kindDecodeError] using herr)
      constructor
      · simp [all.Event.deserialize, hres, all.Event.dispatch, hd,
          all.Event.invalidRoomEvent, hie]
      · simp [all.RoomEvent.deserialize, hres, all.RoomEvent.dispatch, hd,
          all.RoomEvent.invalidRoomEvent, hie]
    · intro hlvl
      simp [kindFallbackLevel] at hlvl
  | presence =>
    refine ⟨kindDecodeError_ne _ v e herr, ?_, ?_, ?_⟩
    · intro hlvl ie hie
      have hd : decodeBasicShell v = .error e := errOf_eq_some (by simpa [kindDecodeError] using herr)
      simp [all.Event.deserialize, hres, all.Event.dispatch, hd,
        all.Event.invalidEvent, hie]
    · intro hlvl
      simp [kindFallbackLevel] at hlvl
    · intro hlvl
      simp [kindFallbackLevel] at hlvl
  | receipt =>
    refine ⟨kindDecodeError_ne _ v e herr, ?_, ?_, ?_⟩
    · intro hlvl ie hie
      have hd : decodeBasicShell v = .error e := errOf_eq_some (by simpa [kindDecodeError] using herr)
      simp [all.Event.deserialize, hres, all.Event.dispatch, hd,
        all.Event.invalidEvent, hie]
    · intro hlvl
      simp [kindFallbackLevel] at hlvl
    · intro hlvl
      simp [kindFallbackLevel] at hlvl
  | roomAliases =>
    refine ⟨kindDecodeError_ne _ v e herr, ?_, ?_, ?_⟩
    · intro hlvl
      simp [kindFallbackLevel] at hlvl
    · intro hlvl
      simp [kindFallbackLevel] at hlvl
    · intro hlvl ise hie
      have hd : decodeStateShell v = .error e := errOf_eq_some (by simpa [kindDecodeError] using herr)
      refine ⟨?_, ?_, ?_⟩
      · simp [all.Event.deserialize, hres, all.Event.dispatch, hd,
          all.Event.invalidStateEvent, hie]
      · simp [all.RoomEvent.deserialize, hres, all.RoomEvent.dispatch, hd,
          all.RoomEvent.invalidStateEvent, hie]
      · simp [all.StateEvent.deserialize, hres, all.StateEvent.dispatch, hd,
          all.StateEvent.invalidStateEvent, hie]
  | roomAvatar =>
    refine ⟨kindDecodeError_ne _ v e herr, ?_, ?_, ?_⟩
    · intro hlvl
      simp [kindFallbackLevel] at hlvl
    · intro hlvl
      simp [kindFallbackLevel] at hlvl
    · intro hlvl ise hie
      have hd : decodeStateShell v = .error e := errOf_eq_some (by simpa [kindDecodeError] using herr)
      refine ⟨?_, ?_, ?_⟩
      · simp [all.Event.deserialize, hres, all.Event.dispatch, hd,
          all.Event.invalidStateEvent, hie]
      · simp [all.RoomEvent.deserialize, hres, all.RoomEvent.dispatch, hd,
          all.RoomEvent.invalidStateEvent, hie]
      · simp [all.StateEvent.deserialize, hres, all.StateEvent.dispatch, hd,
          all.StateEvent.invalidStateEvent, hie]
  | roomCanonicalAlias =>
    refine ⟨kindDecodeError_ne _ v e herr, ?_, ?_, ?_⟩
    · intro hlvl
      simp [kindFallbackLevel] at hlvl
    · intro hlvl
      simp [kindFallbackLevel] at hlvl
    · intro hlvl ise hie
      have hd : decodeStateShell v = .error e := errOf_eq_some (by simpa [kindDecodeError] using herr)
      refine ⟨?_, ?_, ?_⟩
      · simp [all.Event.deserialize, hres, all.Event.dispatch, hd,
          all.Event.invalidStateEvent, hie]
      · simp [all.RoomEvent.deserialize, hres, all.RoomEvent.dispatch, hd,
          all.RoomEvent.invalidStateEvent, hie]
      · simp [all.StateEvent.deserialize, hres, all.StateEvent.dispatch, hd,
          all.StateEvent.invalidStateEvent, hie]
  | roomCreate =>
    refine ⟨kindDecodeError_ne _ v e herr, ?_, ?_, ?_⟩
    · intro hlvl
      simp [kindFallbackLevel] at hlvl
    · intro hlvl
      simp [kindFallbackLevel] at hlvl
    · intro hlvl ise hie
      have hd : decodeStateShell v = .error e := errOf_eq_some (by simpa [kindDecodeError] using herr)
      refine ⟨?_, ?_, ?_⟩
      · simp [all.Event.deserialize, hres, all.Event.dispatch, hd,
          all.Event.invalidStateEvent, hie]
      · simp [all.RoomEvent.deserialize, hres, all.RoomEvent.dispatch, hd,
          all.RoomEvent.invalidStateEvent, hie]
      · simp [all.StateEvent.deserialize, hres, all.StateEvent.dispatch, hd,
          all.StateEvent.invalidStateEvent, hie]
  | roomGuestAccess =>
    refine ⟨kindDecodeError_ne _ v e herr, ?_, ?_, ?_⟩
    · intro hlvl
      simp [kindFallbackLevel] at hlvl
    · intro hlvl
      simp [kindFallbackLevel] at hlvl
    · intro hlvl ise hie
      have hd : decodeStateShell v = .error e := errOf_eq_some (by simpa [kindDecodeError] using herr)
      refine ⟨?_, ?_, ?_⟩
      · simp [all.Event.deserialize, hres, all.Event.dispatch, hd,
          all.Event.invalidStateEvent, hie]
      · simp [all.RoomEvent.deserialize, hres, all.RoomEvent.dispatch, hd,
          all.RoomEvent.invalidStateEvent, hie]
      · simp [all.StateEvent.deserialize, hres, all.StateEvent.dispatch, hd,
          all.StateEvent.invalidStateEvent, hie]
  | roomHistoryVisibility =>
    refine ⟨kindDecodeError_ne _ v e herr, ?_, ?_, ?_⟩
    · intro hlvl
      simp [kindFallbackLevel] at hlvl
    · intro hlvl
      simp [kindFallbackLevel] at hlvl
    · intro hlvl ise hie
      have hd : decodeStateShell v = .error e := errOf_eq_some (by simpa [kindDecodeError] using herr)
      refine ⟨?_, ?_, ?_⟩
      · simp [all.Event.deserialize, hres, all.Event.dispatch, hd,
          all.Event.invalidStateEvent, hie]
      · simp [all.RoomEvent.deserialize, hres, all.RoomEvent.dispatch, hd,
          all.RoomEvent.invalidStateEvent, hie]
      · simp [all.StateEvent.deserialize, hres, all.StateEvent.dispatch, hd,
          all.StateEvent.invalidStateEvent, hie]
  | roomJoinRules =>
    refine ⟨kindDecodeError_ne _ v e herr, ?_, ?_, ?_⟩
    · intro hlvl
      simp [kindFallbackLevel] at hlvl
    · intro hlvl
      simp [kindFallbackLevel] at hlvl
    · intro hlvl ise hie
      have hd : decodeStateShell v = .error e := errOf_eq_some (by simpa [kindDecodeError] using herr)
      refine ⟨?_, ?_, ?_⟩
      · simp [all.Event.deserialize, hres, all.Event.dispatch, hd,
          all.Event.invalidStateEvent, hie]
      · simp [all.RoomEvent.deserialize, hres, all.RoomEvent.dispatch, hd,
          all.RoomEvent.invalidStateEvent, hie]
      · simp [all.StateEvent.deserialize, hres, all.StateEvent.dispatch, hd,
          all.StateEvent.invalidStateEvent, hie]
  | roomMember =>
    refine ⟨kindDecodeError_ne _ v e herr, ?_, ?_, ?_⟩
    · intro hlvl
      simp [kindFallbackLevel] at hlvl
    · intro hlvl
      simp [kindFallbackLevel] at hlvl
    · intro hlvl ise hie
      have hd : decodeMemberEvent v = .error e := errOf_eq_some (by simpa [kindDecodeError] using herr)
      refine ⟨?_, ?_, ?_⟩
      · simp [all.Event.deserialize, hres, all.Event.dispatch, hd,
          all.Event.invalidStateEvent, hie]
      · simp [all.RoomEvent.deserialize, hres, all.RoomEvent.dispatch, hd,
          all.RoomEvent.invalidStateEvent, hie]
      · simp [all.StateEvent.deserialize, hres, all.StateEvent.dispatch, hd,
          all.StateEvent.invalidStateEvent, hie]
  | roomMessage =>
    refine ⟨kindDecodeError_ne _ v e herr, ?_, ?_, ?_⟩
    · intro hlvl
      simp [kindFallbackLevel] at hlvl
    · intro hlvl ire hie
      have hd : decodeRoomShell v = .error e := errOf_eq_some (by simpa [kindDecodeError] using herr)
      constructor
      · simp [all.Event.deserialize, hres, all.Event.dispatch, hd,
          all.Event.invalidRoomEvent, hie]
      · simp [all.RoomEvent.deserialize, hres, all.RoomEvent.dispatch, hd,
          all.RoomEvent.invalidRoomEvent, hie]
    · intro hlvl
      simp [kindFallbackLevel] at hlvl
  | roomName =>
    refine ⟨kindDecodeError_ne _ v e herr, ?_, ?_, ?_⟩
    · intro hlvl
      simp [kindFallbackLevel] at hlvl
    · intro hlvl
      simp [kindFallbackLevel] at hlvl
    · intro hlvl ise hie
      have hd : decodeStateShell v = .error e := errOf_eq_some (by simpa [kindDecodeError] using herr)
      refine ⟨?_, ?_, ?_⟩
      · simp [all.Event.deserialize, hres, all.Event.dispatch, hd,
          all.Event.invalidStateEvent, hie]
      · simp [all.RoomEvent.deserialize, hres, all.RoomEvent.dispatch, hd,
          all.RoomEvent.invalidStateEvent, hie]
      · simp [all.StateEvent.deserialize, hres, all.StateEvent.dispatch, hd,
          all.StateEvent.invalidStateEvent, hie]
  | roomPowerLevels =>
    refine ⟨kindDecodeError_ne _ v e herr, ?_, ?_, ?_⟩
    · intro hlvl
      simp [kindFallbackLevel] at hlvl
    · intro hlvl
      simp [kindFallbackLevel] at hlvl
    · intro hlvl ise hie
      have hd : decodeStateShell v = .error e := errOf_eq_some (by simpa [kindDecodeError] using herr)
      refine ⟨?_, ?_, ?_⟩
      · simp [all.Event.deserialize, hres, all.Event.dispatch, hd,
          all.Event.invalidStateEvent, hie]
      · simp [all.RoomEvent.deserialize, hres, all.RoomEvent.dispatch, hd,
          all.RoomEvent.invalidStateEvent, hie]
      · simp [all.StateEvent.deserialize, hres, all.StateEvent.dispatch, hd,
          all.StateEvent.invalidStateEvent, hie]
  | roomRedaction =>
    refine ⟨kindDecodeError_ne _ v e herr, ?_, ?_, ?_⟩
    · intro hlvl
      simp [kindFallbackLevel] at hlvl
    · intro hlvl ire hie
      have hd : decodeRoomShell v = .error e := errOf_eq_some (by simpa [kindDecodeError] using herr)
      constructor
      · simp [all.Event.deserialize, hres, all.Event.dispatch, hd,
          all.Event.invalidRoomEvent, hie]
      · simp [all.RoomEvent.deserialize, hres, all.RoomEvent.dispatch, hd,
          all.RoomEvent.invalidRoomEvent, hie]
    · intro hlvl
      simp [kindFallbackLevel] at hlvl
  | roomThirdPartyInvite =>
    refine ⟨kindDecodeError_ne _ v e herr, ?_, ?_, ?_⟩
    · intro hlvl
      simp [kindFallbackLevel] at hlvl
    · intro hlvl
      simp [kindFallbackLevel] at hlvl
    · intro hlvl ise hie
      have hd : decodeStateShell v = .error e := errOf_eq_some (by simpa [kindDecodeError] using herr)
      refine ⟨?_, ?_, ?_⟩
      · simp [all.Event.deserialize, hres, all.Event.dispatch, hd,
          all.Event.invalidStateEvent, hie]
      · simp [all.RoomEvent.deserialize, hres, all.RoomEvent.dispatch, hd,
          all.RoomEvent.invalidStateEvent, hie]
      · simp [all.StateEvent.deserialize, hres, all.StateEvent.dispatch, hd,
          all.StateEvent.invalidStateEvent, hie]
  | roomTopic =>
    refine ⟨kindDecodeError_ne _ v e herr, ?_, ?_, ?_⟩
    · intro hlvl
      simp [kindFallbackLevel] at hlvl
    · intro hlvl
      simp [kindFallbackLevel] at hlvl
    · intro hlvl ise hie
      have hd : decodeStateShell v = .error e := errOf_eq_some (by simpa [kindDecodeError] using herr)
      refine ⟨?_, ?_, ?_⟩
      · simp [all.Event.deserialize, hres, all.Event.dispatch, hd,
          all.Event.invalidStateEvent, hie]
      · simp [all.RoomEvent.deserialize, hres, all.RoomEvent.dispatch, hd,
          all.RoomEvent.invalidStateEvent, hie]
      · simp [all.StateEvent.deserialize, hres, all.StateEvent.dispatch, hd,
          all.StateEvent.invalidStateEvent, hie]
  | tag =>
    refine ⟨kindDecodeError_ne _ v e herr, ?_, ?_, ?_⟩
    · intro hlvl ie hie
      have hd : decodeBasicShell v = .error e := errOf_eq_some (by simpa [kindDecodeError] using herr)
      simp [all.Event.deserialize, hres, all.Event.dispatch, hd,
        all.Event.invalidEvent, hie]
    · intro hlvl
      simp [kindFallbackLevel] at hlvl
    · intro hlvl
      simp [kindFallbackLevel] at hlvl
  | typing =>
    refine ⟨kindDecodeError_ne _ v e herr, ?_, ?_, ?_⟩
    · intro hlvl ie hie
      have hd : decodeTypingEvent v = .error e := errOf_eq_some (by simpa [kindDecodeError] using herr)
      simp [all.Event.deserialize, hres, all.Event.dispatch, hd,
        all.Event.invalidEvent, hie]
    · intro hlvl
      simp [kindFallbackLevel] at hlvl
    · intro hlvl
      simp [kindFallbackLevel] at hlvl
  | custom s =>
    simp [kindDecodeError] at herr

/-- Witness for C1: the member document missing its required `membership`
field decodes to the state-level Invalid variant, carrying the non-empty
failure message, at all three applicable union levels. -/
theorem claim_c1_invalid_fallback_witness :
    ("missing field membership" : String) ≠ "" ∧
    all.Event.deserialize memberNoMembershipDoc = .ok (.InvalidState
      { content := .obj [], event_type := .roomMember,
        event_id := "$143273582443PhrSn:example.org", prev_content := none,
        room_id := "!jEsUZKDJdhlrceRyVU:example.org",
        sender := "@alice:example.org", state_key := "@alice:example.org",
        error := "missing field membership" }) ∧
    all.RoomEvent.deserialize memberNoMembershipDoc = .ok (.InvalidState
      { content := .obj [], event_type := .roomMember,
        event_id := "$143273582443PhrSn:example.org", prev_content := none,
        room_id := "!jEsUZKDJdhlrceRyVU:example.org",
        sender := "@alice:example.org", state_key := "@alice:example.org",
        error := "missing field membership" }) ∧
    all.StateEvent.deserialize memberNoMembershipDoc = .ok (.InvalidState
      { content := .obj [], event_type := .roomMember,
        event_id := "$143273582443PhrSn:example.org", prev_content := none,
        room_id := "!jEsUZKDJdhlrceRyVU:example.org",
        sender := "@alice:example.org", state_key := "@alice:example.org",
        error := "missing field membership" }) := by
  have h := claim_c1_invalid_fallback memberNoMembershipDoc .roomMember
    "missing field membership" rfl rfl
  have h2 := h.2.2.2 rfl
    { content := .obj [], event_type := .roomMember,
      event_id := "$143273582443PhrSn:example.org", prev_content := none,
      room_id := "!jEsUZKDJdhlrceRyVU:example.org",
      sender := "@alice:example.org", state_key := "@alice:example.org",
      error := "" } rfl
  exact ⟨h.1, h2.1, h2.2.1, h2.2.2⟩

theorem decodeStateShell_state_key_isSome (v : Value) (st : StateShell)
    (h : decodeStateShell v = .ok st) : (v.get "state_key").isSome = true := by
  unfold decodeStateShell at h
  cases hr : decodeRoomShell v <;> rw [hr] at h <;>
    simp [bind, Except.bind] at h
  cases hk : v.get "state_key"
  · simp [getField, hk, bind, Except.bind] at h
  · simp [hk]

/-- Claim C3: every document the `StateEvent` deserializer accepts is also
accepted by the `RoomEvent` and `Event` deserializers, and erasing the
resulting state value's variant into the `Event` union gives exactly what
decoding the document directly as `Event` produces. -/
theorem claim_c3_subset_invariant (v : Value) (s : all.StateEvent)
    (h : all.StateEvent.deserialize v = .ok s) :
    (∃ r, all.RoomEvent.deserialize v = .ok r) ∧
    all.Event.deserialize v = .ok s.toEvent := by
  unfold all.StateEvent.deserialize at h
  cases hres : resolveType v with
  | error e =>
    rw [hres] at h
    exact absurd h (by simp)
  | ok et =>
    rw [hres] at h
    simp only [all.Event.deserialize, all.RoomEvent.deserialize, hres]
    cases et with
  | roomAliases =>
    simp only [all.StateEvent.dispatch] at h
    cases hd : decodeStateShell v with
    | error e1 =>
      simp only [hd] at h
      unfold all.StateEvent.invalidStateEvent at h
      cases hi : decodeInvalidStateEvent v with
      | error e2 =>
        simp only [hi] at h
        exact absurd h (by simp)
      | ok ie =>
        simp only [hi] at h
        injection h with h2
        subst h2
        refine ⟨⟨.InvalidState (ie.with_error e1), ?_⟩, ?_⟩
        · simp [all.RoomEvent.dispatch, hd, all.RoomEvent.invalidStateEvent, hi]
        · simp [all.Event.dispatch, hd, all.Event.invalidStateEvent, hi, all.StateEvent.toEvent]
    | ok ev =>
      simp only [hd] at h
      injection h with h2
      subst h2
      refine ⟨⟨.RoomAliases ev, ?_⟩, ?_⟩
      · simp [all.RoomEvent.dispatch, hd]
      · simp [all.Event.dispatch, hd, all.StateEvent.toEvent]
  | roomAvatar =>
    simp only [all.StateEvent.dispatch] at h
    cases hd : decodeStateShell v with
    | error e1 =>
      simp only [hd] at h
      unfold all.StateEvent.invalidStateEvent at h
      cases hi : decodeInvalidStateEvent v with
      | error e2 =>
        simp only [hi] at h
        exact absurd h (by simp)
      | ok ie =>
        simp only [hi] at h
        injection h with h2
        subst h2
        refine ⟨⟨.InvalidState (ie.with_error e1), ?_⟩, ?_⟩
        · simp [all.RoomEvent.dispatch, hd, all.RoomEvent.invalidStateEvent, hi]
        · simp [all.Event.dispatch, hd, all.Event.invalidStateEvent, hi, all.StateEvent.toEvent]
    | ok ev =>
      simp only [hd] at h
      injection h with h2
      subst h2
      refine ⟨⟨.RoomAvatar ev, ?_⟩, ?_⟩
      · simp [all.RoomEvent.dispatch, hd]
      · simp [all.Event.dispatch, hd, all.StateEvent.toEvent]
  | roomCanonicalAlias =>
    simp only [all.StateEvent.dispatch] at h
    cases hd : decodeStateShell v with
    | error e1 =>
      simp only [hd] at h
      unfold all.StateEvent.invalidStateEvent at h
      cases hi : decodeInvalidStateEvent v with
      | error e2 =>
        simp only [hi] at h
        exact absurd h (by simp)
      | ok ie =>
        simp only [hi] at h
        injection h with h2
        subst h2
        refine ⟨⟨.InvalidState (ie.with_error e1), ?_⟩, ?_⟩
        · simp [all.RoomEvent.dispatch, hd, all.RoomEvent.invalidStateEvent, hi]
        · simp [all.Event.dispatch, hd, all.Event.invalidStateEvent, hi, all.StateEvent.toEvent]
    | ok ev =>
      simp only [hd] at h
      injection h with h2
      subst h2
      refine ⟨⟨.RoomCanonicalAlias ev, ?_⟩, ?_⟩
      · simp [all.RoomEvent.dispatch, hd]
      · simp [all.Event.dispatch, hd, all.StateEvent.toEvent]
  | roomCreate =>
    simp only [all.StateEvent.dispatch] at h
    cases hd : decodeStateShell v with
    | error e1 =>
      simp only [hd] at h
      unfold all.StateEvent.invalidStateEvent at h
      cases hi : decodeInvalidStateEvent v with
      | error e2 =>
        simp only [hi] at h
        exact absurd h (by simp)
      | ok ie =>
        simp only [hi] at h
        injection h with h2
        subst h2
        refine ⟨⟨.InvalidState (ie.with_error e1), ?_⟩, ?_⟩
        · simp [all.RoomEvent.dispatch, hd, all.RoomEvent.invalidStateEvent, hi]
        · simp [all.Event.dispatch, hd, all.Event.invalidStateEvent, hi, all.StateEvent.toEvent]
    | ok ev =>
      simp only [hd] at h
      injection h with h2
      subst h2
      refine ⟨⟨.RoomCreate ev, ?_⟩, ?_⟩
      · simp [all.RoomEvent.dispatch, hd]
      · simp [all.Event.dispatch, hd, all.StateEvent.toEvent]
  | roomGuestAccess =>
    simp only [all.StateEvent.dispatch] at h
    cases hd : decodeStateShell v with
    | error e1 =>
      simp only [hd] at h
      unfold all.StateEvent.invalidStateEvent at h
      cases hi : decodeInvalidStateEvent v with
      | error e2 =>
        simp only [hi] at h
        exact absurd h (by simp)
      | ok ie =>
        simp only [hi] at h
        injection h with h2
        subst h2
        refine ⟨⟨.InvalidState (ie.with_error e1), ?_⟩, ?_⟩
        · simp [all.RoomEvent.dispatch, hd, all.RoomEvent.invalidStateEvent, hi]
        · simp [all.Event.dispatch, hd, all.Event.invalidStateEvent, hi, all.StateEvent.toEvent]
    | ok ev =>
      simp only [hd] at h
      injection h with h2
      subst h2
      refine ⟨⟨.RoomGuestAccess ev, ?_⟩, ?_⟩
      · simp [all.RoomEvent.dispatch, hd]
      · simp [all.Event.dispatch, hd, all.StateEvent.toEvent]
  | roomHistoryVisibility =>
    simp only [all.StateEvent.dispatch] at h
    cases hd : decodeStateShell v with
    | error e1 =>
      simp only [hd] at h
      unfold all.StateEvent.invalidStateEvent at h
      cases hi : decodeInvalidStateEvent v with
      | error e2 =>
        simp only [hi] at h
        exact absurd h (by simp)
      | ok ie =>
        simp only [hi] at h
        injection h with h2
        subst h2
        refine ⟨⟨.InvalidState (ie.with_error e1), ?_⟩, ?_⟩
        · simp [all.RoomEvent.dispatch, hd, all.RoomEvent.invalidStateEvent, hi]
        · simp [all.Event.dispatch, hd, all.Event.invalidStateEvent, hi, all.StateEvent.toEvent]
    | ok ev =>
      simp only [hd] at h
      injection h with h2
      subst h2
      refine ⟨⟨.RoomHistoryVisibility ev, ?_⟩, ?_⟩
      · simp [all.RoomEvent.dispatch, hd]
      · simp [all.Event.dispatch, hd, all.StateEvent.toEvent]
  | roomJoinRules =>
    simp only [all.StateEvent.dispatch] at h
    cases hd : decodeStateShell v with
    | error e1 =>
      simp only [hd] at h
      unfold all.StateEvent.invalidStateEvent at h
      cases hi : decodeInvalidStateEvent v with
      | error e2 =>
        simp only [hi] at h
        exact absurd h (by simp)
      | ok ie =>
        simp only [hi] at h
        injection h with h2
        subst h2
        refine ⟨⟨.InvalidState (ie.with_error e1), ?_⟩, ?_⟩
        · simp [all.RoomEvent.dispatch, hd, all.RoomEvent.invalidStateEvent, hi]
        · simp [all.Event.dispatch, hd, all.Event.invalidStateEvent, hi, all.StateEvent.toEvent]
    | ok ev =>
      simp only [hd] at h
      injection h with h2
      subst h2
      refine ⟨⟨.RoomJoinRules ev, ?_⟩, ?_⟩
      · simp [all.RoomEvent.dispatch, hd]
      · simp [all.Event.dispatch, hd, all.StateEvent.toEvent]
  | roomMember =>
    simp only [all.StateEvent.dispatch] at h
    cases hd : decodeMemberEvent v with
    | error e1 =>
      simp only [hd] at h
      unfold all.StateEvent.invalidStateEvent at h
      cases hi : decodeInvalidStateEvent v with
      | error e2 =>
        simp only [hi] at h
        exact absurd h (by simp)
      | ok ie =>
        simp only [hi] at h
        injection h with h2
        subst h2
        refine ⟨⟨.InvalidState (ie.with_error e1), ?_⟩, ?_⟩
        · simp [all.RoomEvent.dispatch, hd, all.RoomEvent.invalidStateEvent, hi]
        · simp [all.Event.dispatch, hd, all.Event.invalidStateEvent, hi, all.StateEvent.toEvent]
    | ok ev =>
      simp only [hd] at h
      injection h with h2
      subst h2
      refine ⟨⟨.RoomMember ev, ?_⟩, ?_⟩
      · simp [all.RoomEvent.dispatch, hd]
      · simp [all.Event.dispatch, hd, all.StateEvent.toEvent]
  | roomName =>
    simp only [all.StateEvent.dispatch] at h
    cases hd : decodeStateShell v with
    | error e1 =>
      simp only [hd] at h
      unfold all.StateEvent.invalidStateEvent at h
      cases hi : decodeInvalidStateEvent v with
      | error e2 =>
        simp only [hi] at h
        exact absurd h (by simp)
      | ok ie =>
        simp only [hi] at h
        injection h with h2
        subst h2
        refine ⟨⟨.InvalidState (ie.with_error e1), ?_⟩, ?_⟩
        · simp [all.RoomEvent.dispatch, hd, all.RoomEvent.invalidStateEvent, hi]
        · simp [all.Event.dispatch, hd, all.Event.invalidStateEvent, hi, all.StateEvent.toEvent]
    | ok ev =>
      simp only [hd] at h
      injection h with h2
      subst h2
      refine ⟨⟨.RoomName ev, ?_⟩, ?_⟩
      · simp [all.RoomEvent.dispatch, hd]
      · simp [all.Event.dispatch, hd, all.StateEvent.toEvent]
  | roomPowerLevels =>
    simp only [all.StateEvent.dispatch] at h
    cases hd : decodeStateShell v with
    | error e1 =>
      simp only [hd] at h
      unfold all.StateEvent.invalidStateEvent at h
      cases hi : decodeInvalidStateEvent v with
      | error e2 =>
        simp only [hi] at h
        exact absurd h (by simp)
      | ok ie =>
        simp only [hi] at h
        injection h with h2
        subst h2
        refine ⟨⟨.InvalidState (ie.with_error e1), ?_⟩, ?_⟩
        · simp [all.RoomEvent.dispatch, hd, all.RoomEvent.invalidStateEvent, hi]
        · simp [all.Event.dispatch, hd, all.Event.invalidStateEvent, hi, all.StateEvent.toEvent]
    | ok ev =>
      simp only [hd] at h
      injection h with h2
      subst h2
      refine ⟨⟨.RoomPowerLevels ev, ?_⟩, ?_⟩
      · simp [all.RoomEvent.dispatch, hd]
      · simp [all.Event.dispatch, hd, all.StateEvent.toEvent]
  | roomThirdPartyInvite =>
    simp only [all.StateEvent.dispatch] at h
    cases hd : decodeStateShell v with
    | error e1 =>
      simp only [hd] at h
      unfold all.StateEvent.invalidStateEvent at h
      cases hi : decodeInvalidStateEvent v with
      | error e2 =>
        simp only [hi] at h
        exact absurd h (by simp)
      | ok ie =>
        simp only [hi] at h
        injection h with h2
        subst h2
        refine ⟨⟨.InvalidState (ie.with_error e1), ?_⟩, ?_⟩
        · simp [all.RoomEvent.dispatch, hd, all.RoomEvent.invalidStateEvent, hi]
        · simp [all.Event.dispatch, hd, all.Event.invalidStateEvent, hi, all.StateEvent.toEvent]
    | ok ev =>
      simp only [hd] at h
      injection h with h2
      subst h2
      refine ⟨⟨.RoomThirdPartyInvite ev, ?_⟩, ?_⟩
      · simp [all.RoomEvent.dispatch, hd]
      · simp [all.Event.dispatch, hd, all.StateEvent.toEvent]
  | roomTopic =>
    simp only [all.StateEvent.dispatch] at h
    cases hd : decodeStateShell v with
    | error e1 =>
      simp only [hd] at h
      unfold all.StateEvent.invalidStateEvent at h
      cases hi : decodeInvalidStateEvent v with
      | error e2 =>
        simp only [hi] at h
        exact absurd h (by simp)
      | ok ie =>
        simp only [hi] at h
        injection h with h2
        subst h2
        refine ⟨⟨.InvalidState (ie.with_error e1), ?_⟩, ?_⟩
        · simp [all.RoomEvent.dispatch, hd, all.RoomEvent.invalidStateEvent, hi]
        · simp [all.Event.dispatch, hd, all.Event.invalidStateEvent, hi, all.StateEvent.toEvent]
    | ok ev =>
      simp only [hd] at h
      injection h with h2
      subst h2
      refine ⟨⟨.RoomTopic ev, ?_⟩, ?_⟩
      · simp [all.RoomEvent.dispatch, hd]
      · simp [all.Event.dispatch, hd, all.StateEvent.toEvent]
  | custom s2 =>
    simp only [all.StateEvent.dispatch] at h
    cases hd : decodeStateShell v with
    | error e1 =>
      simp only [hd] at h
      exact absurd h (by simp)
    | ok ev =>
      simp only [hd] at h
      injection h with h2
      subst h2
      have hk : (v.get "state_key").isSome = true :=
        decodeStateShell_state_key_isSome v ev hd
      refine ⟨⟨.CustomState ev, ?_⟩, ?_⟩
      · simp [all.RoomEvent.dispatch, hk, hd]
      · simp [all.Event.dispatch, hk, hd, all.StateEvent.toEvent]
  | callAnswer =>
    simp only [all.StateEvent.dispatch] at h
    exact absurd h (by simp)
  | callCandidates =>
    simp only [all.StateEvent.dispatch] at h
    exact absurd h (by simp)
  | callHangup =>
    simp only [all.StateEvent.dispatch] at h
    exact absurd h (by simp)
  | callInvite =>
    simp only [all.StateEvent.dispatch] at h
    exact absurd h (by simp)
  | presence =>
    simp only [all.StateEvent.dispatch] at h
    exact absurd h (by simp)
  | receipt =>
    simp only [all.StateEvent.dispatch] at h
    exact absurd h (by simp)
  | roomMessage =>
    simp only [all.StateEvent.dispatch] at h
    exact absurd h (by simp)
  | roomRedaction =>
    simp only [all.StateEvent.dispatch] at h
    exact absurd h (by simp)
  | tag =>
    simp only [all.StateEvent.dispatch] at h
    exact absurd h (by simp)
  | typing =>
    simp only [all.StateEvent.dispatch] at h
    exact absurd h (by simp)

/-- Witness for C3: the member document, accepted by the state decoder, is
accepted by the general decoder with the erased variant. -/
theorem claim_c3_subset_invariant_witness :
    all.Event.deserialize memberDoc =
      .ok ((all.StateEvent.RoomMember memberVal).toEvent) :=
  (claim_c3_subset_invariant memberDoc (.RoomMember memberVal) rfl).2

/-- Claim C7: for every registered tag, each union deserializer routes a
document carrying that tag to that tag's own per-kind decoder - the result
is either the unique per-kind variant for the tag or the Invalid fallback,
never a Custom variant - and a Custom variant can only be produced for a
tag outside the registry. -/
theorem claim_c7_registry_dispatch :
    (∀ v et w, resolveType v = .ok et → et.isCustom = false →
      all.Event.deserialize v = .ok w →
      w.isCustomVariant = false ∧
      (w.isInvalidVariant = true ∨ w.variantTag = some et)) ∧
    (∀ v et w, resolveType v = .ok et → et.isCustom = false →
      all.RoomEvent.deserialize v = .ok w →
      w.isCustomVariant = false ∧
      (w.isInvalidVariant = true ∨ w.variantTag = some et)) ∧
    (∀ v et w, resolveType v = .ok et → et.isCustom = false →
      all.StateEvent.deserialize v = .ok w →
      w.isCustomVariant = false ∧
      (w.isInvalidVariant = true ∨ w.variantTag = some et)) ∧
    (∀ v w, all.Event.deserialize v = .ok w → w.isCustomVariant = true →
      ∃ s, resolveType v = .ok (.custom s)) := by
  have hEvent : ∀ v et w, resolveType v = .ok et → et.isCustom = false →
      all.Event.deserialize v = .ok w →
      w.isCustomVariant = false ∧
      (w.isInvalidVariant = true ∨ w.variantTag = some et) := by
    intro v et w hres hnc h
    simp only [all.Event.deserialize, hres] at h
    cases et with
    | custom s =>
      simp [EventType.isCustom] at hnc
    | callAnswer =>
      simp only [all.Event.dispatch] at h
      cases hd : decodeRoomShell v with
      | error e1 =>
        simp only [hd] at h
        unfold all.Event.invalidRoomEvent at h
        cases hi : decodeInvalidRoomEvent v with
        | error e2 =>
          simp only [hi] at h
          exact absurd h (by simp)
        | ok ie =>
          simp only [hi] at h
          injection h with h2
          subst h2
          simp [all.Event.isCustomVariant, all.Event.isInvalidVariant]
      | ok ev =>
        simp only [hd] at h
        injection h with h2
        subst h2
        simp [all.Event.isCustomVariant, all.Event.isInvalidVariant, all.Event.variantTag]
    | callCandidates =>
      simp only [all.Event.dispatch] at h
      cases hd : decodeRoomShell v with
      | error e1 =>
        simp only [hd] at h
        unfold all.Event.invalidRoomEvent at h
        cases hi : decodeInvalidRoomEvent v with
        | error e2 =>
          simp only [hi] at h
          exact absurd h (by simp)
        | ok ie =>
          simp only [hi] at h
          injection h with h2
          subst h2
          simp [all.Event.isCustomVariant, all.Event.isInvalidVariant]
      | ok ev =>
        simp only [hd] at h
        injection h with h2
        subst h2
        simp [all.Event.isCustomVariant, all.Event.isInvalidVariant, all.Event.variantTag]
    | callHangup =>
      simp only [all.Event.dispatch] at h
      cases hd : decodeRoomShell v with
      | error e1 =>
        simp only [hd] at h
        unfold all.Event.invalidRoomEvent at h
        cases hi : decodeInvalidRoomEvent v with
        | error e2 =>
          simp only [hi] at h
          exact absurd h (by simp)
        | ok ie =>
          simp only [hi] at h
          injection h with h2
          subst h2
          simp [all.Event.isCustomVariant, all.Event.isInvalidVariant]
      | ok ev =>
        simp only [hd] at h
        injection h with h2
        subst h2
        simp [all.Event.isCustomVariant, all.Event.isInvalidVariant, all.Event.variantTag]
    | callInvite =>
      simp only [all.Event.dispatch] at h
      cases hd : decodeRoomShell v with
      | error e1 =>
        simp only [hd] at h
        unfold all.Event.invalidRoomEvent at h
        cases hi : decodeInvalidRoomEvent v with
        | error e2 =>
          simp only [hi] at h
          exact absurd h (by simp)
        | ok ie =>
          simp only [hi] at h
          injection h with h2
          subst h2
          simp [all.Event.isCustomVariant, all.Event.isInvalidVariant]
      | ok ev =>
        simp only [hd] at h
        injection h with h2
        subst h2
        simp [all.Event.isCustomVariant, all.Event.isInvalidVariant, all.Event.variantTag]
    | presence =>
      simp only [all.Event.dispatch] at h
      cases hd : decodeBasicShell v with
      | error e1 =>
        simp only [hd] at h
        unfold all.Event.invalidEvent at h
        cases hi : decodeInvalidEvent v with
        | error e2 =>
          simp only [hi] at h
          exact absurd h (by simp)
        | ok ie =>
          simp only [hi] at h
          injection h with h2
          subst h2
          simp [all.Event.isCustomVariant, all.Event.isInvalidVariant]
      | ok ev =>
        simp only [hd] at h
        injection h with h2
        subst h2
        simp [all.Event.isCustomVariant, all.Event.isInvalidVariant, all.Event.variantTag]
    | receipt =>
      simp only [all.Event.dispatch] at h
      cases hd : decodeBasicShell v with
      | error e1 =>
        simp only [hd] at h
        unfold all.Event.invalidEvent at h
        cases hi : decodeInvalidEvent v with
        | error e2 =>
          simp only [hi] at h
          exact absurd h (by simp)
        | ok ie =>
          simp only [hi] at h
          injection h with h2
          subst h2
          simp [all.Event.isCustomVariant, all.Event.isInvalidVariant]
      | ok ev =>
        simp only [hd] at h
        injection h with h2
        subst h2
        simp [all.Event.isCustomVariant, all.Event.isInvalidVariant, all.Event.variantTag]
    | roomAliases =>
      simp only [all.Event.dispatch] at h
      cases hd : decodeStateShell v with
      | error e1 =>
        simp only [hd] at h
        unfold all.Event.invalidStateEvent at h
        cases hi : decodeInvalidStateEvent v with
        | error e2 =>
          simp only [hi] at h
          exact absurd h (by simp)
        | ok ie =>
          simp only [hi] at h
          injection h with h2
          subst h2
          simp [all.Event.isCustomVariant, all.Event.isInvalidVariant]
      | ok ev =>
        simp only [hd] at h
        injection h with h2
        subst h2
        simp [all.Event.isCustomVariant, all.Event.isInvalidVariant, all.Event.variantTag]
    | roomAvatar =>
      simp only [all.Event.dispatch] at h
      cases hd : decodeStateShell v with
      | error e1 =>
        simp only [hd] at h
        unfold all.Event.invalidStateEvent at h
        cases hi : decodeInvalidStateEvent v with
        | error e2 =>
          simp only [hi] at h
          exact absurd h (by simp)
        | ok ie =>
          simp only [hi] at h
          injection h with h2
          subst h2
          simp [all.Event.isCustomVariant, all.Event.isInvalidVariant]
      | ok ev =>
        simp only [hd] at h
        injection h with h2
        subst h2
        simp [all.Event.isCustomVariant, all.Event.isInvalidVariant, all.Event.variantTag]
    | roomCanonicalAlias =>
      simp only [all.Event.dispatch] at h
      cases hd : decodeStateShell v with
      | error e1 =>
        simp only [hd] at h
        unfold all.Event.invalidStateEvent at h
        cases hi : decodeInvalidStateEvent v with
        | error e2 =>
          simp only [hi] at h
          exact absurd h (by simp)
        | ok ie =>
          simp only [hi] at h
          injection h with h2
          subst h2
          simp [all.Event.isCustomVariant, all.Event.isInvalidVariant]
      | ok ev =>
        simp only [hd] at h
        injection h with h2
        subst h2
        simp [all.Event.isCustomVariant, all.Event.isInvalidVariant, all.Event.variantTag]
    | roomCreate =>
      simp only [all.Event.dispatch] at h
      cases hd : decodeStateShell v with
      | error e1 =>
        simp only [hd] at h
        unfold all.Event.invalidStateEvent at h
        cases hi : decodeInvalidStateEvent v with
        | error e2 =>
          simp only [hi] at h
          exact absurd h (by simp)
        | ok ie =>
          simp only [hi] at h
          injection h with h2
          subst h2
          simp [all.Event.isCustomVariant, all.Event.isInvalidVariant]
      | ok ev =>
        simp only [hd] at h
        injection h with h2
        subst h2
        simp [all.Event.isCustomVariant, all.Event.isInvalidVariant, all.Event.variantTag]
    | roomGuestAccess =>
      simp only [all.Event.dispatch] at h
      cases hd : decodeStateShell v with
      | error e1 =>
        simp only [hd] at h
        unfold all.Event.invalidStateEvent at h
        cases hi : decodeInvalidStateEvent v with
        | error e2 =>
          simp only [hi] at h
          exact absurd h (by simp)
        | ok ie =>
          simp only [hi] at h
          injection h with h2
          subst h2
          simp [all.Event.isCustomVariant, all.Event.isInvalidVariant]
      | ok ev =>
        simp only [hd] at h
        injection h with h2
        subst h2
        simp [all.Event.isCustomVariant, all.Event.isInvalidVariant, all.Event.variantTag]
    | roomHistoryVisibility =>
      simp only [all.Event.dispatch] at h
      cases hd : decodeStateShell v with
      | error e1 =>
        simp only [hd] at h
        unfold all.Event.invalidStateEvent at h
        cases hi : decodeInvalidStateEvent v with
        | error e2 =>
          simp only [hi] at h
          exact absurd h (by simp)
        | ok ie =>
          simp only [hi] at h
          injection h with h2
          subst h2
          simp [all.Event.isCustomVariant, all.Event.isInvalidVariant]
      | ok ev =>
        simp only [hd] at h
        injection h with h2
        subst h2
        simp [all.Event.isCustomVariant, all.Event.isInvalidVariant, all.Event.variantTag]
    | roomJoinRules =>
      simp only [all.Event.dispatch] at h
      cases hd : decodeStateShell v with
      | error e1 =>
        simp only [hd] at h
        unfold all.Event.invalidStateEvent at h
        cases hi : decodeInvalidStateEvent v with
        | error e2 =>
          simp only [hi] at h
          exact absurd h (by simp)
        | ok ie =>
          simp only [hi] at h
          injection h with h2
          subst h2
          simp [all.Event.isCustomVariant, all.Event.isInvalidVariant]
      | ok ev =>
        simp only [hd] at h
        injection h with h2
        subst h2
        simp [all.Event.isCustomVariant, all.Event.isInvalidVariant, all.Event.variantTag]
    | roomMember =>
      simp only [all.Event.dispatch] at h
      cases hd : decodeMemberEvent v with
      | error e1 =>
        simp only [hd] at h
        unfold all.Event.invalidStateEvent at h
        cases hi : decodeInvalidStateEvent v with
        | error e2 =>
          simp only [hi] at h
          exact absurd h (by simp)
        | ok ie =>
          simp only [hi] at h
          injection h with h2
          subst h2
          simp [all.Event.isCustomVariant, all.Event.isInvalidVariant]
      | ok ev =>
        simp only [hd] at h
        injection h with h2
        subst h2
        simp [all.Event.isCustomVariant, all.Event.isInvalidVariant, all.Event.variantTag]
    | roomMessage =>
      simp only [all.Event.dispatch] at h
      cases hd : decodeRoomShell v with
      | error e1 =>
        simp only [hd] at h
        unfold all.Event.invalidRoomEvent at h
        cases hi : decodeInvalidRoomEvent v with
        | error e2 =>
          simp only [hi] at h
          exact absurd h (by simp)
        | ok ie =>
          simp only [hi] at h
          injection h with h2
          subst h2
          simp [all.Event.isCustomVariant, all.Event.isInvalidVariant]
      | ok ev =>
        simp only [hd] at h
        injection h with h2
        subst h2
        simp [all.Event.isCustomVariant, all.Event.isInvalidVariant, all.Event.variantTag]
    | roomName =>
      simp only [all.Event.dispatch] at h
      cases hd : decodeStateShell v with
      | error e1 =>
        simp only [hd] at h
        unfold all.Event.invalidStateEvent at h
        cases hi : decodeInvalidStateEvent v with
        | error e2 =>
          simp only [hi] at h
          exact absurd h (by simp)
        | ok ie =>
          simp only [hi] at h
          injection h with h2
          subst h2
          simp [all.Event.isCustomVariant, all.Event.isInvalidVariant]
      | ok ev =>
        simp only [hd] at h
        injection h with h2
        subst h2
        simp [all.Event.isCustomVariant, all.Event.isInvalidVariant, all.Event.variantTag]
    | roomPowerLevels =>
      simp only [all.Event.dispatch] at h
      cases hd : decodeStateShell v with
      | error e1 =>
        simp only [hd] at h
        unfold all.Event.invalidStateEvent at h
        cases hi : decodeInvalidStateEvent v with
        | error e2 =>
          simp only [hi] at h
          exact absurd h (by simp)
        | ok ie =>
          simp only [hi] at h
          injection h with h2
          subst h2
          simp [all.Event.isCustomVariant, all.Event.isInvalidVariant]
      | ok ev =>
        simp only [hd] at h
        injection h with h2
        subst h2
        simp [all.Event.isCustomVariant, all.Event.isInvalidVariant, all.Event.variantTag]
    | roomRedaction =>
      simp only [all.Event.dispatch] at h
      cases hd : decodeRoomShell v with
      | error e1 =>
        simp only [hd] at h
        unfold all.Event.invalidRoomEvent at h
        cases hi : decodeInvalidRoomEvent v with
        | error e2 =>
          simp only [hi] at h
          exact absurd h (by simp)
        | ok ie =>
          simp only [hi] at h
          injection h with h2
          subst h2
          simp [all.Event.isCustomVariant, all.Event.isInvalidVariant]
      | ok ev =>
        simp only [hd] at h
        injection h with h2
        subst h2
        simp [all.Event.isCustomVariant, all.Event.isInvalidVariant, all.Event.variantTag]
    | roomThirdPartyInvite =>
      simp only [all.Event.dispatch] at h
      cases hd : decodeStateShell v with
      | error e1 =>
        simp only [hd] at h
        unfold all.Event.invalidStateEvent at h
        cases hi : decodeInvalidStateEvent v with
        | error e2 =>
          simp only [hi] at h
          exact absurd h (by simp)
        | ok ie =>
          simp only [hi] at h
          injection h with h2
          subst h2
          simp [all.Event.isCustomVariant, all.Event.isInvalidVariant]
      | ok ev =>
        simp only [hd] at h
        injection h with h2
        subst h2
        simp [all.Event.isCustomVariant, all.Event.isInvalidVariant, all.Event.variantTag]
    | roomTopic =>
      simp only [all.Event.dispatch] at h
      cases hd : decodeStateShell v with
      | error e1 =>
        simp only [hd] at h
        unfold all.Event.invalidStateEvent at h
        cases hi : decodeInvalidStateEvent v with
        | error e2 =>
          simp only [hi] at h
          exact absurd h (by simp)
        | ok ie =>
          simp only [hi] at h
          injection h with h2
          subst h2
          simp [all.Event.isCustomVariant, all.Event.isInvalidVariant]
      | ok ev =>
        simp only [hd] at h
        injection h with h2
        subst h2
        simp [all.Event.isCustomVariant, all.Event.isInvalidVariant, all.Event.variantTag]
    | tag =>
      simp only [all.Event.dispatch] at h
      cases hd : decodeBasicShell v with
      | error e1 =>
        simp only [hd] at h
        unfold all.Event.invalidEvent at h
        cases hi : decodeInvalidEvent v with
        | error e2 =>
          simp only [hi] at h
          exact absurd h (by simp)
        | ok ie =>
          simp only [hi] at h
          injection h with h2
          subst h2
          simp [all.Event.isCustomVariant, all.Event.isInvalidVariant]
      | ok ev =>
        simp only [hd] at h
        injection h with h2
        subst h2
        simp [all.Event.isCustomVariant, all.Event.isInvalidVariant, all.Event.variantTag]
    | typing =>
      simp only [all.Event.dispatch] at h
      cases hd : decodeTypingEvent v with
      | error e1 =>
        simp only [hd] at h
        unfold all.Event.invalidEvent at h
        cases hi : decodeInvalidEvent v with
        | error e2 =>
          simp only [hi] at h
          exact absurd h (by simp)
        | ok ie =>
          simp only [hi] at h
          injection h with h2
          subst h2
          simp [all.Event.isCustomVariant, all.Event.isInvalidVariant]
      | ok ev =>
        simp only [hd] at h
        injection h with h2
        subst h2
        simp [all.Event.isCustomVariant, all.Event.isInvalidVariant, all.Event.variantTag]
  have hRoom : ∀ v et w, resolveType v = .ok et → et.isCustom = false →
      all.RoomEvent.deserialize v = .ok w →
      w.isCustomVariant = false ∧
      (w.isInvalidVariant = true ∨ w.variantTag = some et) := by
    intro v et w hres hnc h
    simp only [all.RoomEvent.deserialize, hres] at h
    cases et with
    | custom s =>
      simp [EventType.isCustom] at hnc
    | callAnswer =>
      simp only [all.RoomEvent.dispatch] at h
      cases hd : decodeRoomShell v with
      | error e1 =>
        simp only [hd] at h
        unfold all.RoomEvent.invalidRoomEvent at h
        cases hi : decodeInvalidRoomEvent v with
        | error e2 =>
          simp only [hi] at h
          exact absurd h (by simp)
        | ok ie =>
          simp only [hi] at h
          injection h with h2
          subst h2
          simp [all.RoomEvent.isCustomVariant, all.RoomEvent.isInvalidVariant]
      | ok ev =>
        simp only [hd] at h
        injection h with h2
        subst h2
        simp [all.RoomEvent.isCustomVariant, all.RoomEvent.isInvalidVariant, all.RoomEvent.variantTag]
    | callCandidates =>
      simp only [all.RoomEvent.dispatch] at h
      cases hd : decodeRoomShell v with
      | error e1 =>
        simp only [hd] at h
        unfold all.RoomEvent.invalidRoomEvent at h
        cases hi : decodeInvalidRoomEvent v with
        | error e2 =>
          simp only [hi] at h
          exact absurd h (by simp)
        | ok ie =>
          simp only [hi] at h
          injection h with h2
          subst h2
          simp [all.RoomEvent.isCustomVariant, all.RoomEvent.isInvalidVariant]
      | ok ev =>
        simp only [hd] at h
        injection h with h2
        subst h2
        simp [all.RoomEvent.isCustomVariant, all.RoomEvent.isInvalidVariant, all.RoomEvent.variantTag]
    | callHangup =>
      simp only [all.RoomEvent.dispatch] at h
      cases hd : decodeRoomShell v with
      | error e1 =>
        simp only [hd] at h
        unfold all.RoomEvent.invalidRoomEvent at h
        cases hi : decodeInvalidRoomEvent v with
        | error e2 =>
          simp only [hi] at h
          exact absurd h (by simp)
        | ok ie =>
          simp only [hi] at h
          injection h with h2
          subst h2
          simp [all.RoomEvent.isCustomVariant, all.RoomEvent.isInvalidVariant]
      | ok ev =>
        simp only [hd] at h
        injection h with h2
        subst h2
        simp [all.RoomEvent.isCustomVariant, all.RoomEvent.isInvalidVariant, all.RoomEvent.variantTag]
    | callInvite =>
      simp only [all.RoomEvent.dispatch] at h
      cases hd : decodeRoomShell v with
      | error e1 =>
        simp only [hd] at h
        unfold all.RoomEvent.invalidRoomEvent at h
        cases hi : decodeInvalidRoomEvent v with
        | error e2 =>
          simp only [hi] at h
          exact absurd h (by simp)
        | ok ie =>
          simp only [hi] at h
          injection h with h2
          subst h2
          simp [all.RoomEvent.isCustomVariant, all.RoomEvent.isInvalidVariant]
      | ok ev =>
        simp only [hd] at h
        injection h with h2
        subst h2
        simp [all.RoomEvent.isCustomVariant, all.RoomEvent.isInvalidVariant, all.RoomEvent.variantTag]
    | roomAliases =>
      simp only [all.RoomEvent.dispatch] at h
      cases hd : decodeStateShell v with
      | error e1 =>
        simp only [hd] at h
        unfold all.RoomEvent.invalidStateEvent at h
        cases hi : decodeInvalidStateEvent v with
        | error e2 =>
          simp only [hi] at h
          exact absurd h (by simp)
        | ok ie =>
          simp only [hi] at h
          injection h with h2
          subst h2
          simp [all.RoomEvent.isCustomVariant, all.RoomEvent.isInvalidVariant]
      | ok ev =>
        simp only [hd] at h
        injection h with h2
        subst h2
        simp [all.RoomEvent.isCustomVariant, all.RoomEvent.isInvalidVariant, all.RoomEvent.variantTag]
    | roomAvatar =>
      simp only [all.RoomEvent.dispatch] at h
      cases hd : decodeStateShell v with
      | error e1 =>
        simp only [hd] at h
        unfold all.RoomEvent.invalidStateEvent at h
        cases hi : decodeInvalidStateEvent v with
        | error e2 =>
          simp only [hi] at h
          exact absurd h (by simp)
        | ok ie =>
          simp only [hi] at h
          injection h with h2
          subst h2
          simp [all.RoomEvent.isCustomVariant, all.RoomEvent.isInvalidVariant]
      | ok ev =>
        simp only [hd] at h
        injection h with h2
        subst h2
        simp [all.RoomEvent.isCustomVariant, all.RoomEvent.isInvalidVariant, all.RoomEvent.variantTag]
    | roomCanonicalAlias =>
      simp only [all.RoomEvent.dispatch] at h
      cases hd : decodeStateShell v with
      | error e1 =>
        simp only [hd] at h
        unfold all.RoomEvent.invalidStateEvent at h
        cases hi : decodeInvalidStateEvent v with
        | error e2 =>
          simp only [hi] at h
          exact absurd h (by simp)
        | ok ie =>
          simp only [hi] at h
          injection h with h2
          subst h2
          simp [all.RoomEvent.isCustomVariant, all.RoomEvent.isInvalidVariant]
      | ok ev =>
        simp only [hd] at h
        injection h with h2
        subst h2
        simp [all.RoomEvent.isCustomVariant, all.RoomEvent.isInvalidVariant, all.RoomEvent.variantTag]
    | roomCreate =>
      simp only [all.RoomEvent.dispatch] at h
      cases hd : decodeStateShell v with
      | error e1 =>
        simp only [hd] at h
        unfold all.RoomEvent.invalidStateEvent at h
        cases hi : decodeInvalidStateEvent v with
        | error e2 =>
          simp only [hi] at h
          exact absurd h (by simp)
        | ok ie =>
          simp only [hi] at h
          injection h with h2
          subst h2
          simp [all.RoomEvent.isCustomVariant, all.RoomEvent.isInvalidVariant]
      | ok ev =>
        simp only [hd] at h
        injection h with h2
        subst h2
        simp [all.RoomEvent.isCustomVariant, all.RoomEvent.isInvalidVariant, all.RoomEvent.variantTag]
    | roomGuestAccess =>
      simp only [all.RoomEvent.dispatch] at h
      cases hd : decodeStateShell v with
      | error e1 =>
        simp only [hd] at h
        unfold all.RoomEvent.invalidStateEvent at h
        cases hi : decodeInvalidStateEvent v with
        | error e2 =>
          simp only [hi] at h
          exact absurd h (by simp)
        | ok ie =>
          simp only [hi] at h
          injection h with h2
          subst h2
          simp [all.RoomEvent.isCustomVariant, all.RoomEvent.isInvalidVariant]
      | ok ev =>
        simp only [hd] at h
        injection h with h2
        subst h2
        simp [all.RoomEvent.isCustomVariant, all.RoomEvent.isInvalidVariant, all.RoomEvent.variantTag]
    | roomHistoryVisibility =>
      simp only [all.RoomEvent.dispatch] at h
      cases hd : decodeStateShell v with
      | error e1 =>
        simp only [hd] at h
        unfold all.RoomEvent.invalidStateEvent at h
        cases hi : decodeInvalidStateEvent v with
        | error e2 =>
          simp only [hi] at h
          exact absurd h (by simp)
        | ok ie =>
          simp only [hi] at h
          injection h with h2
          subst h2
          simp [all.RoomEvent.isCustomVariant, all.RoomEvent.isInvalidVariant]
      | ok ev =>
        simp only [hd] at h
        injection h with h2
        subst h2
        simp [all.RoomEvent.isCustomVariant, all.RoomEvent.isInvalidVariant, all.RoomEvent.variantTag]
    | roomJoinRules =>
      simp only [all.RoomEvent.dispatch] at h
      cases hd : decodeStateShell v with
      | error e1 =>
        simp only [hd] at h
        unfold all.RoomEvent.invalidStateEvent at h
        cases hi : decodeInvalidStateEvent v with
        | error e2 =>
          simp only [hi] at h
          exact absurd h (by simp)
        | ok ie =>
          simp only [hi] at h
          injection h with h2
          subst h2
          simp [all.RoomEvent.isCustomVariant, all.RoomEvent.isInvalidVariant]
      | ok ev =>
        simp only [hd] at h
        injection h with h2
        subst h2
        simp [all.RoomEvent.isCustomVariant, all.RoomEvent.isInvalidVariant, all.RoomEvent.variantTag]
    | roomMember =>
      simp only [all.RoomEvent.dispatch] at h
      cases hd : decodeMemberEvent v with
      | error e1 =>
        simp only [hd] at h
        unfold all.RoomEvent.invalidStateEvent at h
        cases hi : decodeInvalidStateEvent v with
        | error e2 =>
          simp only [hi] at h
          exact absurd h (by simp)
        | ok ie =>
          simp only [hi] at h
          injection h with h2
          subst h2
          simp [all.RoomEvent.isCustomVariant, all.RoomEvent.isInvalidVariant]
      | ok ev =>
        simp only [hd] at h
        injection h with h2
        subst h2
        simp [all.RoomEvent.isCustomVariant, all.RoomEvent.isInvalidVariant, all.RoomEvent.variantTag]
    | roomMessage =>
      simp only [all.RoomEvent.dispatch] at h
      cases hd : decodeRoomShell v with
      | error e1 =>
        simp only [hd] at h
        unfold all.RoomEvent.invalidRoomEvent at h
        cases hi : decodeInvalidRoomEvent v with
        | error e2 =>
          simp only [hi] at h
          exact absurd h (by simp)
        | ok ie =>
          simp only [hi] at h
          injection h with h2
          subst h2
          simp [all.RoomEvent.isCustomVariant, all.RoomEvent.isInvalidVariant]
      | ok ev =>
        simp only [hd] at h
        injection h with h2
        subst h2
        simp [all.RoomEvent.isCustomVariant, all.RoomEvent.isInvalidVariant, all.RoomEvent.variantTag]
    | roomName =>
      simp only [all.RoomEvent.dispatch] at h
      cases hd : decodeStateShell v with
      | error e1 =>
        simp only [hd] at h
        unfold all.RoomEvent.invalidStateEvent at h
        cases hi : decodeInvalidStateEvent v with
        | error e2 =>
          simp only [hi] at h
          exact absurd h (by simp)
        | ok ie =>
          simp only [hi] at h
          injection h with h2
          subst h2
          simp [all.RoomEvent.isCustomVariant, all.RoomEvent.isInvalidVariant]
      | ok ev =>
        simp only [hd] at h
        injection h with h2
        subst h2
        simp [all.RoomEvent.isCustomVariant, all.RoomEvent.isInvalidVariant, all.RoomEvent.variantTag]
    | roomPowerLevels =>
      simp only [all.RoomEvent.dispatch] at h
      cases hd : decodeStateShell v with
      | error e1 =>
        simp only [hd] at h
        unfold all.RoomEvent.invalidStateEvent at h
        cases hi : decodeInvalidStateEvent v with
        | error e2 =>
          simp only [hi] at h
          exact absurd h (by simp)
        | ok ie =>
          simp only [hi] at h
          injection h with h2
          subst h2
          simp [all.RoomEvent.isCustomVariant, all.RoomEvent.isInvalidVariant]
      | ok ev =>
        simp only [hd] at h
        injection h with h2
        subst h2
        simp [all.RoomEvent.isCustomVariant, all.RoomEvent.isInvalidVariant, all.RoomEvent.variantTag]
    | roomRedaction =>
      simp only [all.RoomEvent.dispatch] at h
      cases hd : decodeRoomShell v with
      | error e1 =>
        simp only [hd] at h
        unfold all.RoomEvent.invalidRoomEvent at h
        cases hi : decodeInvalidRoomEvent v with
        | error e2 =>
          simp only [hi] at h
          exact absurd h (by simp)
        | ok ie =>
          simp only [hi] at h
          injection h with h2
          subst h2
          simp [all.RoomEvent.isCustomVariant, all.RoomEvent.isInvalidVariant]
      | ok ev =>
        simp only [hd] at h
        injection h with h2
        subst h2
        simp [all.RoomEvent.isCustomVariant, all.RoomEvent.isInvalidVariant, all.RoomEvent.variantTag]
    | roomThirdPartyInvite =>
      simp only [all.RoomEvent.dispatch] at h
      cases hd : decodeStateShell v with
      | error e1 =>
        simp only [hd] at h
        unfold all.RoomEvent.invalidStateEvent at h
        cases hi : decodeInvalidStateEvent v with
        | error e2 =>
          simp only [hi] at h
          exact absurd h (by simp)
        | ok ie =>
          simp only [hi] at h
          injection h with h2
          subst h2
          simp [all.RoomEvent.isCustomVariant, all.RoomEvent.isInvalidVariant]
      | ok ev =>
        simp only [hd] at h
        injection h with h2
        subst h2
        simp [all.RoomEvent.isCustomVariant, all.RoomEvent.isInvalidVariant, all.RoomEvent.variantTag]
    | roomTopic =>
      simp only [all.RoomEvent.dispatch] at h
      cases hd : decodeStateShell v with
      | error e1 =>
        simp only [hd] at h
        unfold all.RoomEvent.invalidStateEvent at h
        cases hi : decodeInvalidStateEvent v with
        | error e2 =>
          simp only [hi] at h
          exact absurd h (by simp)
        | ok ie =>
          simp only [hi] at h
          injection h with h2
          subst h2
          simp [all.RoomEvent.isCustomVariant, all.RoomEvent.isInvalidVariant]
      | ok ev =>
        simp only [hd] at h
        injection h with h2
        subst h2
        simp [all.RoomEvent.isCustomVariant, all.RoomEvent.isInvalidVariant, all.RoomEvent.variantTag]
    | presence =>
      simp only [all.RoomEvent.dispatch] at h
      exact absurd h (by simp)
    | receipt =>
      simp only [all.RoomEvent.dispatch] at h
      exact absurd h (by simp)
    | tag =>
      simp only [all.RoomEvent.dispatch] at h
      exact absurd h (by simp)
    | typing =>
      simp only [all.RoomEvent.dispatch] at h
      exact absurd h (by simp)
  have hState : ∀ v et w, resolveType v = .ok et → et.isCustom = false →
      all.StateEvent.deserialize v = .ok w →
      w.isCustomVariant = false ∧
      (w.isInvalidVariant = true ∨ w.variantTag = some et) := by
    intro v et w hres hnc h
    simp only [all.StateEvent.deserialize, hres] at h
    cases et with
    | custom s =>
      simp [EventType.isCustom] at hnc
    | roomAliases =>
      simp only [all.StateEvent.dispatch] at h
      cases hd : decodeStateShell v with
      | error e1 =>
        simp only [hd] at h
        unfold all.StateEvent.invalidStateEvent at h
        cases hi : decodeInvalidStateEvent v with
        | error e2 =>
          simp only [hi] at h
          exact absurd h (by simp)
        | ok ie =>
          simp only [hi] at h
          injection h with h2
          subst h2
          simp [all.StateEvent.isCustomVariant, all.StateEvent.isInvalidVariant]
      | ok ev =>
        simp only [hd] at h
        injection h with h2
        subst h2
        simp [all.StateEvent.isCustomVariant, all.StateEvent.isInvalidVariant, all.StateEvent.variantTag]
    | roomAvatar =>
      simp only [all.StateEvent.dispatch] at h
      cases hd : decodeStateShell v with
      | error e1 =>
        simp only [hd] at h
        unfold all.StateEvent.invalidStateEvent at h
        cases hi : decodeInvalidStateEvent v with
        | error e2 =>
          simp only [hi] at h
          exact absurd h (by simp)
        | ok ie =>
          simp only [hi] at h
          injection h with h2
          subst h2
          simp [all.StateEvent.isCustomVariant, all.StateEvent.isInvalidVariant]
      | ok ev =>
        simp only [hd] at h
        injection h with h2
        subst h2
        simp [all.StateEvent.isCustomVariant, all.StateEvent.isInvalidVariant, all.StateEvent.variantTag]
    | roomCanonicalAlias =>
      simp only [all.StateEvent.dispatch] at h
      cases hd : decodeStateShell v with
      | error e1 =>
        simp only [hd] at h
        unfold all.StateEvent.invalidStateEvent at h
        cases hi : decodeInvalidStateEvent v with
        | error e2 =>
          simp only [hi] at h
          exact absurd h (by simp)
        | ok ie =>
          simp only [hi] at h
          injection h with h2
          subst h2
          simp [all.StateEvent.isCustomVariant, all.StateEvent.isInvalidVariant]
      | ok ev =>
        simp only [hd] at h
        injection h with h2
        subst h2
        simp [all.StateEvent.isCustomVariant, all.StateEvent.isInvalidVariant, all.StateEvent.variantTag]
    | roomCreate =>
      simp only [all.StateEvent.dispatch] at h
      cases hd : decodeStateShell v with
      | error e1 =>
        simp only [hd] at h
        unfold all.StateEvent.invalidStateEvent at h
        cases hi : decodeInvalidStateEvent v with
        | error e2 =>
          simp only [hi] at h
          exact absurd h (by simp)
        | ok ie =>
          simp only [hi] at h
          injection h with h2
          subst h2
          simp [all.StateEvent.isCustomVariant, all.StateEvent.isInvalidVariant]
      | ok ev =>
        simp only [hd] at h
        injection h with h2
        subst h2
        simp [all.StateEvent.isCustomVariant, all.StateEvent.isInvalidVariant, all.StateEvent.variantTag]
    | roomGuestAccess =>
      simp only [all.StateEvent.dispatch] at h
      cases hd : decodeStateShell v with
      | error e1 =>
        simp only [hd] at h
        unfold all.StateEvent.invalidStateEvent at h
        cases hi : decodeInvalidStateEvent v with
        | error e2 =>
          simp only [hi] at h
          exact absurd h (by simp)
        | ok ie =>
          simp only [hi] at h
          injection h with h2
          subst h2
          simp [all.StateEvent.isCustomVariant, all.StateEvent.isInvalidVariant]
      | ok ev =>
        simp only [hd] at h
        injection h with h2
        subst h2
        simp [all.StateEvent.isCustomVariant, all.StateEvent.isInvalidVariant, all.StateEvent.variantTag]
    | roomHistoryVisibility =>
      simp only [all.StateEvent.dispatch] at h
      cases hd : decodeStateShell v with
      | error e1 =>
        simp only [hd] at h
        unfold all.StateEvent.invalidStateEvent at h
        cases hi : decodeInvalidStateEvent v with
        | error e2 =>
          simp only [hi] at h
          exact absurd h (by simp)
        | ok ie =>
          simp only [hi] at h
          injection h with h2
          subst h2
          simp [all.StateEvent.isCustomVariant, all.StateEvent.isInvalidVariant]
      | ok ev =>
        simp only [hd] at h
        injection h with h2
        subst h2
        simp [all.StateEvent.isCustomVariant, all.StateEvent.isInvalidVariant, all.StateEvent.variantTag]
    | roomJoinRules =>
      simp only [all.StateEvent.dispatch] at h
      cases hd : decodeStateShell v with
      | error e1 =>
        simp only [hd] at h
        unfold all.StateEvent.invalidStateEvent at h
        cases hi : decodeInvalidStateEvent v with
        | error e2 =>
          simp only [hi] at h
          exact absurd h (by simp)
        | ok ie =>
          simp only [hi] at h
          injection h with h2
          subst h2
          simp [all.StateEvent.isCustomVariant, all.StateEvent.isInvalidVariant]
      | ok ev =>
        simp only [hd] at h
        injection h with h2
        subst h2
        simp [all.StateEvent.isCustomVariant, all.StateEvent.isInvalidVariant, all.StateEvent.variantTag]
    | roomMember =>
      simp only [all.StateEvent.dispatch] at h
      cases hd : decodeMemberEvent v with
      | error e1 =>
        simp only [hd] at h
        unfold all.StateEvent.invalidStateEvent at h
        cases hi : decodeInvalidStateEvent v with
        | error e2 =>
          simp only [hi] at h
          exact absurd h (by simp)
        | ok ie =>
          simp only [hi] at h
          injection h with h2
          subst h2
          simp [all.StateEvent.isCustomVariant, all.StateEvent.isInvalidVariant]
      | ok ev =>
        simp only [hd] at h
        injection h with h2
        subst h2
        simp [all.StateEvent.isCustomVariant, all.StateEvent.isInvalidVariant, all.StateEvent.variantTag]
    | roomName =>
      simp only [all.StateEvent.dispatch] at h
      cases hd : decodeStateShell v with
      | error e1 =>
        simp only [hd] at h
        unfold all.StateEvent.invalidStateEvent at h
        cases hi : decodeInvalidStateEvent v with
        | error e2 =>
          simp only [hi] at h
          exact absurd h (by simp)
        | ok ie =>
          simp only [hi] at h
          injection h with h2
          subst h2
          simp [all.StateEvent.isCustomVariant, all.StateEvent.isInvalidVariant]
      | ok ev =>
        simp only [hd] at h
        injection h with h2
        subst h2
        simp [all.StateEvent.isCustomVariant, all.StateEvent.isInvalidVariant, all.StateEvent.variantTag]
    | roomPowerLevels =>
      simp only [all.StateEvent.dispatch] at h
      cases hd : decodeStateShell v with
      | error e1 =>
        simp only [hd] at h
        unfold all.StateEvent.invalidStateEvent at h
        cases hi : decodeInvalidStateEvent v with
        | error e2 =>
          simp only [hi] at h
          exact absurd h (by simp)
        | ok ie =>
          simp only [hi] at h
          injection h with h2
          subst h2
          simp [all.StateEvent.isCustomVariant, all.StateEvent.isInvalidVariant]
      | ok ev =>
        simp only [hd] at h
        injection h with h2
        subst h2
        simp [all.StateEvent.isCustomVariant, all.StateEvent.isInvalidVariant, all.StateEvent.variantTag]
    | roomThirdPartyInvite =>
      simp only [all.StateEvent.dispatch] at h
      cases hd : decodeStateShell v with
      | error e1 =>
        simp only [hd] at h
        unfold all.StateEvent.invalidStateEvent at h
        cases hi : decodeInvalidStateEvent v with
        | error e2 =>
          simp only [hi] at h
          exact absurd h (by simp)
        | ok ie =>
          simp only [hi] at h
          injection h with h2
          subst h2
          simp [all.StateEvent.isCustomVariant, all.StateEvent.isInvalidVariant]
      | ok ev =>
        simp only [hd] at h
        injection h with h2
        subst h2
        simp [all.StateEvent.isCustomVariant, all.StateEvent.isInvalidVariant, all.StateEvent.variantTag]
    | roomTopic =>
      simp only [all.StateEvent.dispatch] at h
      cases hd : decodeStateShell v with
      | error e1 =>
        simp only [hd] at h
        unfold all.StateEvent.invalidStateEvent at h
        cases hi : decodeInvalidStateEvent v with
        | error e2 =>
          simp only [hi] at h
          exact absurd h (by simp)
        | ok ie =>
          simp only [hi] at h
          injection h with h2
          subst h2
          simp [all.StateEvent.isCustomVariant, all.StateEvent.isInvalidVariant]
      | ok ev =>
        simp only [hd] at h
        injection h with h2
        subst h2
        simp [all.StateEvent.isCustomVariant, all.StateEvent.isInvalidVariant, all.StateEvent.variantTag]
    | callAnswer =>
      simp only [all.StateEvent.dispatch] at h
      exact absurd h (by simp)
    | callCandidates =>
      simp only [all.StateEvent.dispatch] at h
      exact absurd h (by simp)
    | callHangup =>
      simp only [all.StateEvent.dispatch] at h
      exact absurd h (by simp)
    | callInvite =>
      simp only [all.StateEvent.dispatch] at h
      exact absurd h (by simp)
    | presence =>
      simp only [all.StateEvent.dispatch] at h
      exact absurd h (by simp)
    | receipt =>
      simp only [all.StateEvent.dispatch] at h
      exact absurd h (by simp)
    | roomMessage =>
      simp only [all.StateEvent.dispatch] at h
      exact absurd h (by simp)
    | roomRedaction =>
      simp only [all.StateEvent.dispatch] at h
      exact absurd h (by simp)
    | tag =>
      simp only [all.StateEvent.dispatch] at h
      exact absurd h (by simp)
    | typing =>
      simp only [all.StateEvent.dispatch] at h
      exact absurd h (by simp)
  refine ⟨hEvent, hRoom, hState, ?_⟩
  intro v w h hc
  cases hres : resolveType v with
  | error e =>
    simp only [all.Event.deserialize, hres] at h
    exact absurd h (by simp)
  | ok et =>
    cases het : et.isCustom with
    | false =>
      have h2 := hEvent v et w hres het h
      rw [h2.1] at hc
      exact absurd hc (by simp)
    | true =>
      cases et <;> simp [EventType.isCustom] at het
      case custom s => exact ⟨s, rfl⟩

/-- Witness for C7: decoding the member document, whose tag is registered,
produces the member variant - not Custom, and tagged `m.room.member`. -/
theorem claim_c7_registry_dispatch_witness :
    (all.Event.RoomMember memberVal).isCustomVariant = false ∧
    ((all.Event.RoomMember memberVal).isInvalidVariant = true ∨
     (all.Event.RoomMember memberVal).variantTag = some .roomMember) :=
  claim_c7_registry_dispatch.1 memberDoc .roomMember (.RoomMember memberVal) rfl rfl rfl
